import Mathlib

/-!
The error context, command buffers and ioctl wrapper of libzfs_util.c

A shallow embedding of the error-reporting routines of
`usr/src/lib/libzfs/common/libzfs_util.c` (mac-zfs) and theorems about them.

Conventions of the embedding.

* A `String` stands for the contents of a C string: the `char`s in front of
  the terminating NUL.  One `Char` of the `String` stands for one C `char`,
  that is one byte, so `String.length` is what C calls `strlen` and the size
  of a buffer counts `Char`s as C counts bytes.  The text of the file itself
  (its messages, digits and unit letters) is ASCII and stands for itself; a
  text in a multi-byte encoding is represented by its bytes, one `Char` for
  each: the UTF-8 form of U+20AC is the three `char`s E2 82 AC, a text of 600
  of them is a `String` of 1800 `Char`s.  The empty string is a buffer whose
  first byte is NUL.
* A printf-style pair `fmt, ap` is represented by the text it expands to.  The
  call `zfs_error (hdl, error, msg)` passes the format `"%s"` with `msg`, whose
  expansion is `msg`; the canned explanations are formats without a conversion,
  whose expansion is the format itself.
* The constants that the file takes from headers which are not part of the
  sources (`<errno.h>`, `libzfs.h`, `libzfs_impl.h`) and the C library function
  `strerror` are collected in an environment `Env`, a parameter of every
  definition that uses them.
* A call either returns or ends the process (`abort ()`, a failed `assert`,
  `exit (1)`); `Outcome` records which.  What is written to `stderr` is not
  part of the state.
-/

namespace Libzfs

/-- The names of the `<errno.h>` codes that the file mentions. -/
inductive os_errno where
  | EPERM | EACCES | ECANCELED | EIO | EINTR
  | ENXIO | ENOENT | ENOSPC | EDQUOT | EEXIST | EBUSY | EROFS | ENAMETOOLONG
  | ENODEV | ENOTSUP | EINVAL
  deriving DecidableEq, Repr

/-- The members of the libzfs error enumeration (`libzfs.h`), one for each case
label of the switch in `libzfs_error_description`. -/
inductive zfs_errno where
  | EZFS_NOMEM | EZFS_BADPROP | EZFS_PROPREADONLY | EZFS_PROPTYPE
  | EZFS_PROPNONINHERIT | EZFS_PROPSPACE | EZFS_BADTYPE | EZFS_BUSY
  | EZFS_EXISTS | EZFS_NOENT | EZFS_BADSTREAM | EZFS_DSREADONLY
  | EZFS_VOLTOOBIG | EZFS_VOLHASDATA | EZFS_INVALIDNAME | EZFS_BADRESTORE
  | EZFS_BADBACKUP | EZFS_BADTARGET | EZFS_NODEVICE | EZFS_BADDEV
  | EZFS_NOREPLICAS | EZFS_RESILVERING | EZFS_BADVERSION | EZFS_POOLUNAVAIL
  | EZFS_DEVOVERFLOW | EZFS_BADPATH | EZFS_CROSSTARGET | EZFS_ZONED
  | EZFS_MOUNTFAILED | EZFS_UMOUNTFAILED | EZFS_UNSHARENFSFAILED
  | EZFS_SHARENFSFAILED | EZFS_ISCSISVCUNAVAIL | EZFS_DEVLINKS | EZFS_PERM
  | EZFS_NOSPC | EZFS_IO | EZFS_INTR | EZFS_ISSPARE | EZFS_INVALCONFIG
  | EZFS_RECURSIVE | EZFS_NOHISTORY | EZFS_UNSHAREISCSIFAILED
  | EZFS_SHAREISCSIFAILED | EZFS_POOLPROPS | EZFS_POOL_NOTSUP
  | EZFS_POOL_INVALARG | EZFS_NAMETOOLONG | EZFS_OPENFAILED | EZFS_NOCAP
  | EZFS_LABELFAILED | EZFS_BADWHO | EZFS_BADPERM | EZFS_BADPERMSET
  | EZFS_NODELEGATION | EZFS_PERMRDONLY | EZFS_UNKNOWN
  deriving DecidableEq, Repr

open os_errno zfs_errno

/-- What the file takes from outside: the numeric values of the `<errno.h>`
codes and of the libzfs error enumeration, the sizes of the two text fields of
the handle (`sizeof (hdl->libzfs_action)`, `sizeof (hdl->libzfs_desc)`, declared
in `libzfs_impl.h`), and the C library function `strerror`. -/
structure Env where
  errno_val : os_errno → Int
  ezfs_val : zfs_errno → Int
  sizeof_action : Nat
  sizeof_desc : Nat
  strerror : Int → String

/-- The case labels of the switch in `libzfs_error_description`, in the order
of the source. -/
def ezfs_cases : List zfs_errno :=
  [EZFS_NOMEM, EZFS_BADPROP, EZFS_PROPREADONLY, EZFS_PROPTYPE,
   EZFS_PROPNONINHERIT, EZFS_PROPSPACE, EZFS_BADTYPE, EZFS_BUSY,
   EZFS_EXISTS, EZFS_NOENT, EZFS_BADSTREAM, EZFS_DSREADONLY,
   EZFS_VOLTOOBIG, EZFS_VOLHASDATA, EZFS_INVALIDNAME, EZFS_BADRESTORE,
   EZFS_BADBACKUP, EZFS_BADTARGET, EZFS_NODEVICE, EZFS_BADDEV,
   EZFS_NOREPLICAS, EZFS_RESILVERING, EZFS_BADVERSION, EZFS_POOLUNAVAIL,
   EZFS_DEVOVERFLOW, EZFS_BADPATH, EZFS_CROSSTARGET, EZFS_ZONED,
   EZFS_MOUNTFAILED, EZFS_UMOUNTFAILED, EZFS_UNSHARENFSFAILED,
   EZFS_SHARENFSFAILED, EZFS_ISCSISVCUNAVAIL, EZFS_DEVLINKS, EZFS_PERM,
   EZFS_NOSPC, EZFS_IO, EZFS_INTR, EZFS_ISSPARE, EZFS_INVALCONFIG,
   EZFS_RECURSIVE, EZFS_NOHISTORY, EZFS_UNSHAREISCSIFAILED,
   EZFS_SHAREISCSIFAILED, EZFS_POOLPROPS, EZFS_POOL_NOTSUP,
   EZFS_POOL_INVALARG, EZFS_NAMETOOLONG, EZFS_OPENFAILED, EZFS_NOCAP,
   EZFS_LABELFAILED, EZFS_BADWHO, EZFS_BADPERM, EZFS_BADPERMSET,
   EZFS_NODELEGATION, EZFS_PERMRDONLY, EZFS_UNKNOWN]

/-- The text each case of the switch in `libzfs_error_description` returns
(`dgettext` is the identity in this build). -/
def ezfs_description : zfs_errno → String
  | EZFS_NOMEM => "out of memory"
  | EZFS_BADPROP => "invalid property value"
  | EZFS_PROPREADONLY => "read only property"
  | EZFS_PROPTYPE => "property doesn't apply to datasets of this type"
  | EZFS_PROPNONINHERIT => "property cannot be inherited"
  | EZFS_PROPSPACE => "invalid quota or reservation"
  | EZFS_BADTYPE => "operation not applicable to datasets of this type"
  | EZFS_BUSY => "pool or dataset is busy"
  | EZFS_EXISTS => "pool or dataset exists"
  | EZFS_NOENT => "no such pool or dataset"
  | EZFS_BADSTREAM => "invalid backup stream"
  | EZFS_DSREADONLY => "dataset is read only"
  | EZFS_VOLTOOBIG => "volume size exceeds limit for this system"
  | EZFS_VOLHASDATA => "volume has data"
  | EZFS_INVALIDNAME => "invalid name"
  | EZFS_BADRESTORE => "unable to restore to destination"
  | EZFS_BADBACKUP => "backup failed"
  | EZFS_BADTARGET => "invalid target vdev"
  | EZFS_NODEVICE => "no such device in pool"
  | EZFS_BADDEV => "invalid device"
  | EZFS_NOREPLICAS => "no valid replicas"
  | EZFS_RESILVERING => "currently resilvering"
  | EZFS_BADVERSION => "unsupported version"
  | EZFS_POOLUNAVAIL => "pool is unavailable"
  | EZFS_DEVOVERFLOW => "too many devices in one vdev"
  | EZFS_BADPATH => "must be an absolute path"
  | EZFS_CROSSTARGET => "operation crosses datasets or pools"
  | EZFS_ZONED => "dataset in use by local zone"
  | EZFS_MOUNTFAILED => "mount failed"
  | EZFS_UMOUNTFAILED => "umount failed"
  | EZFS_UNSHARENFSFAILED => "unshare(1M) failed"
  | EZFS_SHARENFSFAILED => "share(1M) failed"
  | EZFS_ISCSISVCUNAVAIL =>
      "iscsitgt service need to be enabled by a privileged user"
  | EZFS_DEVLINKS => "failed to create /dev links"
  | EZFS_PERM => "permission denied"
  | EZFS_NOSPC => "out of space"
  | EZFS_IO => "I/O error"
  | EZFS_INTR => "signal received"
  | EZFS_ISSPARE => "device is reserved as a hot spare"
  | EZFS_INVALCONFIG => "invalid vdev configuration"
  | EZFS_RECURSIVE => "recursive dataset dependency"
  | EZFS_NOHISTORY => "no history available"
  | EZFS_UNSHAREISCSIFAILED => "iscsitgtd failed request to unshare"
  | EZFS_SHAREISCSIFAILED => "iscsitgtd failed request to share"
  | EZFS_POOLPROPS => "failed to retrieve pool properties"
  | EZFS_POOL_NOTSUP => "operation not supported on this type of pool"
  | EZFS_POOL_INVALARG => "invalid argument for this pool operation"
  | EZFS_NAMETOOLONG => "dataset name is too long"
  | EZFS_OPENFAILED => "open failed"
  | EZFS_NOCAP => "disk capacity information could not be retrieved"
  | EZFS_LABELFAILED => "write of label failed"
  | EZFS_BADWHO => "invalid user/group"
  | EZFS_BADPERM => "invalid permission"
  | EZFS_BADPERMSET => "invalid permission set name"
  | EZFS_NODELEGATION => "delegated administration is disabled on pool"
  | EZFS_PERMRDONLY => "snapshot permissions cannot be modified"
  | EZFS_UNKNOWN => "unknown error"

/-- How a call ends: it returns a value, or the process ends in `abort ()`
(also the end of a failed `assert`) or in `exit (status)`. -/
inductive Outcome (α : Type) where
  | ret (a : α)
  | abort
  | exit (status : Int)
  deriving DecidableEq, Repr

/-- Sequencing: the rest of the function runs only when the call returned. -/
def Outcome.bind {α β : Type} : Outcome α → (α → Outcome β) → Outcome β
  | Outcome.ret a, f => f a
  | Outcome.abort, _ => Outcome.abort
  | Outcome.exit s, _ => Outcome.exit s

/-- The fields of `struct libzfs_handle` that the file's error and ioctl
routines read or write.  `libzfs_log_str` is a pointer: the address of the
journal string, 0 for NULL. -/
structure libzfs_handle_t where
  libzfs_error : Int
  libzfs_fd : Int
  libzfs_desc_active : Int
  libzfs_action : String
  libzfs_desc : String
  libzfs_log_str : Nat
  libzfs_printerr : Bool
  deriving DecidableEq, Repr

/-- The C library function `strlen`: the number of bytes in front of the
terminating NUL.  One `Char` of a `String` stands for one C `char`, a byte, so
this is the length of the `String`. -/
def strlen (s : String) : Nat := s.length

/-- The C string `vsnprintf (buf, size, fmt, ap)` leaves in `buf`, `text` being
what `fmt` and `ap` expand to: the first `size - 1` bytes of it (all of it when
`strlen (text) < size`), and the old contents when `size` is 0.  Bytes are the
`Char`s of the `String`, one `Char` for each C `char`. -/
def vsnprintf (buf : String) (size : Nat) (text : String) : String :=
  if size = 0 then buf else String.mk (text.data.take (size - 1))

/-- Source: `libzfs_errno`. -/
def libzfs_errno (hdl : libzfs_handle_t) : Int :=
  hdl.libzfs_error

/-- Source: `libzfs_error_action`. -/
def libzfs_error_action (hdl : libzfs_handle_t) : String :=
  hdl.libzfs_action

/-- The case label of the description switch that a code selects, if any. -/
def ezfs_case (E : Env) (code : Int) : Option zfs_errno :=
  ezfs_cases.find? (fun c => decide (code = E.ezfs_val c))

/-- Source: `libzfs_error_description`.  The auxiliary text when it is not
empty, else the text of the case the code selects; in the default case the
assertion `hdl->libzfs_error == 0` is checked. -/
def libzfs_error_description (E : Env) (hdl : libzfs_handle_t) : Outcome String :=
  if hdl.libzfs_desc ≠ "" then
    Outcome.ret hdl.libzfs_desc
  else
    match ezfs_case E hdl.libzfs_error with
    | some c => Outcome.ret (ezfs_description c)
    | none =>
      if hdl.libzfs_error = 0 then Outcome.ret "no error" else Outcome.abort

/-- Source: `zfs_error_aux`.  The expanded text is written into `libzfs_desc`
and the active flag is set. -/
def zfs_error_aux (E : Env) (hdl : libzfs_handle_t) (text : String) :
    libzfs_handle_t :=
  { hdl with
    libzfs_desc := vsnprintf hdl.libzfs_desc E.sizeof_desc text
    libzfs_desc_active := 1 }

/-- The first half of `zfs_verror`: the action and the code are stored and the
auxiliary text is kept (flag set) or emptied (flag clear). -/
def zfs_verror_store (E : Env) (hdl : libzfs_handle_t) (error : Int)
    (text : String) : libzfs_handle_t :=
  let hdl := { hdl with
    libzfs_action := vsnprintf hdl.libzfs_action E.sizeof_action text
    libzfs_error := error }
  if hdl.libzfs_desc_active ≠ 0 then
    { hdl with libzfs_desc_active := 0 }
  else
    { hdl with libzfs_desc := "" }

/-- Source: `zfs_verror`.  After the store, with `libzfs_printerr` set, the
message is printed (which evaluates `libzfs_error_description`) and the process
ends for `EZFS_UNKNOWN` (`abort`) and for `EZFS_NOMEM` (`exit (1)`). -/
def zfs_verror (E : Env) (hdl : libzfs_handle_t) (error : Int) (text : String) :
    Outcome libzfs_handle_t :=
  let hdl := zfs_verror_store E hdl error text
  if hdl.libzfs_printerr then
    if error = E.ezfs_val EZFS_UNKNOWN then
      (libzfs_error_description E hdl).bind fun _ => Outcome.abort
    else
      (libzfs_error_description E hdl).bind fun _ =>
        if error = E.ezfs_val EZFS_NOMEM then Outcome.exit 1 else Outcome.ret hdl
  else
    Outcome.ret hdl

/-- Source: `zfs_error_fmt`. -/
def zfs_error_fmt (E : Env) (hdl : libzfs_handle_t) (error : Int)
    (text : String) : Outcome (Int × libzfs_handle_t) :=
  (zfs_verror E hdl error text).bind fun hdl => Outcome.ret (-1, hdl)

/-- Source: `zfs_error`, which is `zfs_error_fmt (hdl, error, "%s", msg)`. -/
def zfs_error (E : Env) (hdl : libzfs_handle_t) (error : Int) (msg : String) :
    Outcome (Int × libzfs_handle_t) :=
  zfs_error_fmt E hdl error msg

/-- Source: `zfs_common_error`.  The codes every call class maps alike; the
result 0 says that none of them matched and nothing was recorded. -/
def zfs_common_error (E : Env) (hdl : libzfs_handle_t) (error : Int)
    (text : String) : Outcome (Int × libzfs_handle_t) :=
  if error = E.errno_val EPERM ∨ error = E.errno_val EACCES then
    (zfs_verror E hdl (E.ezfs_val EZFS_PERM) text).bind fun hdl =>
      Outcome.ret (-1, hdl)
  else if error = E.errno_val ECANCELED then
    (zfs_verror E hdl (E.ezfs_val EZFS_NODELEGATION) text).bind fun hdl =>
      Outcome.ret (-1, hdl)
  else if error = E.errno_val EIO then
    (zfs_verror E hdl (E.ezfs_val EZFS_IO) text).bind fun hdl =>
      Outcome.ret (-1, hdl)
  else if error = E.errno_val EINTR then
    (zfs_verror E hdl (E.ezfs_val EZFS_INTR) text).bind fun hdl =>
      Outcome.ret (-1, hdl)
  else
    Outcome.ret (0, hdl)

/-- The switch of `zfs_standard_error_fmt`, reached when `zfs_common_error`
returned 0.  `errno` is the value of the C library variable of that name when
the default case reads it. -/
def zfs_standard_error_switch (E : Env) (errno : Int) (hdl : libzfs_handle_t)
    (error : Int) (text : String) : Outcome (Int × libzfs_handle_t) :=
  if error = E.errno_val ENXIO then
    (zfs_verror E hdl (E.ezfs_val EZFS_IO) text).bind fun hdl =>
      Outcome.ret (-1, hdl)
  else if error = E.errno_val ENOENT then
    let hdl := zfs_error_aux E hdl "dataset does not exist"
    (zfs_verror E hdl (E.ezfs_val EZFS_NOENT) text).bind fun hdl =>
      Outcome.ret (-1, hdl)
  else if error = E.errno_val ENOSPC ∨ error = E.errno_val EDQUOT then
    (zfs_verror E hdl (E.ezfs_val EZFS_NOSPC) text).bind fun hdl =>
      Outcome.ret (-1, hdl)
  else if error = E.errno_val EEXIST then
    let hdl := zfs_error_aux E hdl "dataset already exists"
    (zfs_verror E hdl (E.ezfs_val EZFS_EXISTS) text).bind fun hdl =>
      Outcome.ret (-1, hdl)
  else if error = E.errno_val EBUSY then
    let hdl := zfs_error_aux E hdl "dataset is busy"
    (zfs_verror E hdl (E.ezfs_val EZFS_BUSY) text).bind fun hdl =>
      Outcome.ret (-1, hdl)
  else if error = E.errno_val EROFS then
    let hdl := zfs_error_aux E hdl "snapshot permissions cannot be modified"
    (zfs_verror E hdl (E.ezfs_val EZFS_PERMRDONLY) text).bind fun hdl =>
      Outcome.ret (-1, hdl)
  else if error = E.errno_val ENAMETOOLONG then
    (zfs_verror E hdl (E.ezfs_val EZFS_NAMETOOLONG) text).bind fun hdl =>
      Outcome.ret (-1, hdl)
  else
    let hdl := zfs_error_aux E hdl (E.strerror errno)
    (zfs_verror E hdl (E.ezfs_val EZFS_UNKNOWN) text).bind fun hdl =>
      Outcome.ret (-1, hdl)

/-- Source: `zfs_standard_error_fmt`. -/
def zfs_standard_error_fmt (E : Env) (errno : Int) (hdl : libzfs_handle_t)
    (error : Int) (text : String) : Outcome (Int × libzfs_handle_t) :=
  (zfs_common_error E hdl error text).bind fun r =>
    if r.1 ≠ 0 then Outcome.ret (-1, r.2)
    else zfs_standard_error_switch E errno r.2 error text

/-- Source: `zfs_standard_error`, which is
`zfs_standard_error_fmt (hdl, error, "%s", msg)`. -/
def zfs_standard_error (E : Env) (errno : Int) (hdl : libzfs_handle_t)
    (error : Int) (msg : String) : Outcome (Int × libzfs_handle_t) :=
  zfs_standard_error_fmt E errno hdl error msg

/-- The switch of `zpool_standard_error_fmt`, reached when `zfs_common_error`
returned 0. -/
def zpool_standard_error_switch (E : Env) (hdl : libzfs_handle_t) (error : Int)
    (text : String) : Outcome (Int × libzfs_handle_t) :=
  if error = E.errno_val ENODEV then
    (zfs_verror E hdl (E.ezfs_val EZFS_NODEVICE) text).bind fun hdl =>
      Outcome.ret (-1, hdl)
  else if error = E.errno_val ENOENT then
    let hdl := zfs_error_aux E hdl "no such pool or dataset"
    (zfs_verror E hdl (E.ezfs_val EZFS_NOENT) text).bind fun hdl =>
      Outcome.ret (-1, hdl)
  else if error = E.errno_val EEXIST then
    let hdl := zfs_error_aux E hdl "pool already exists"
    (zfs_verror E hdl (E.ezfs_val EZFS_EXISTS) text).bind fun hdl =>
      Outcome.ret (-1, hdl)
  else if error = E.errno_val EBUSY then
    let hdl := zfs_error_aux E hdl "pool is busy"
    (zfs_verror E hdl (E.ezfs_val EZFS_EXISTS) text).bind fun hdl =>
      Outcome.ret (-1, hdl)
  else if error = E.errno_val ENXIO then
    let hdl := zfs_error_aux E hdl "one or more devices is currently unavailable"
    (zfs_verror E hdl (E.ezfs_val EZFS_BADDEV) text).bind fun hdl =>
      Outcome.ret (-1, hdl)
  else if error = E.errno_val ENAMETOOLONG then
    (zfs_verror E hdl (E.ezfs_val EZFS_DEVOVERFLOW) text).bind fun hdl =>
      Outcome.ret (-1, hdl)
  else if error = E.errno_val ENOTSUP then
    (zfs_verror E hdl (E.ezfs_val EZFS_POOL_NOTSUP) text).bind fun hdl =>
      Outcome.ret (-1, hdl)
  else if error = E.errno_val EINVAL then
    (zfs_verror E hdl (E.ezfs_val EZFS_POOL_INVALARG) text).bind fun hdl =>
      Outcome.ret (-1, hdl)
  else if error = E.errno_val ENOSPC ∨ error = E.errno_val EDQUOT then
    (zfs_verror E hdl (E.ezfs_val EZFS_NOSPC) text).bind fun hdl =>
      Outcome.ret (-1, hdl)
  else
    let hdl := zfs_error_aux E hdl (E.strerror error)
    (zfs_verror E hdl (E.ezfs_val EZFS_UNKNOWN) text).bind fun hdl =>
      Outcome.ret (-1, hdl)

/-- Source: `zpool_standard_error_fmt`. -/
def zpool_standard_error_fmt (E : Env) (hdl : libzfs_handle_t) (error : Int)
    (text : String) : Outcome (Int × libzfs_handle_t) :=
  (zfs_common_error E hdl error text).bind fun r =>
    if r.1 ≠ 0 then Outcome.ret (-1, r.2)
    else zpool_standard_error_switch E r.2 error text

/-- Source: `zpool_standard_error`, which is
`zpool_standard_error_fmt (hdl, error, "%s", msg)`. -/
def zpool_standard_error (E : Env) (hdl : libzfs_handle_t) (error : Int)
    (msg : String) : Outcome (Int × libzfs_handle_t) :=
  zpool_standard_error_fmt E hdl error msg

/-- Source: `no_memory`. -/
def no_memory (E : Env) (hdl : libzfs_handle_t) :
    Outcome (Int × libzfs_handle_t) :=
  zfs_error E hdl (E.ezfs_val EZFS_NOMEM) "internal error"

/-- Source: `libzfs_print_on_error`. -/
def libzfs_print_on_error (hdl : libzfs_handle_t) (printerr : Bool) :
    libzfs_handle_t :=
  { hdl with libzfs_printerr := printerr }

/-- The handle `libzfs_init` returns: `calloc` memory, every error field zero
and no journal string; the descriptor of the opened device is taken to be 3,
the first one free in a process that has its standard streams. -/
def libzfs_init : libzfs_handle_t :=
  { libzfs_error := 0, libzfs_fd := 3, libzfs_desc_active := 0,
    libzfs_action := "", libzfs_desc := "", libzfs_log_str := 0,
    libzfs_printerr := false }


/-- What is assumed of the header constants: distinct names have distinct
values.  The labels of one switch statement must differ for the file to
compile, and `<errno.h>` gives each of the codes named here a value of its
own. -/
structure Env.WellFormed (E : Env) : Prop where
  errno_inj : Function.Injective E.errno_val
  ezfs_inj : Function.Injective E.ezfs_val

/-- The values of Darwin's `<sys/errno.h>`. -/
def darwin_errno : os_errno → Int
  | EPERM => 1 | ENOENT => 2 | EINTR => 4 | os_errno.EIO => 5 | ENXIO => 6
  | EACCES => 13 | EBUSY => 16 | EEXIST => 17 | ENODEV => 19 | EINVAL => 22
  | ENOSPC => 28 | EROFS => 30 | ENOTSUP => 45 | ENAMETOOLONG => 63
  | EDQUOT => 69 | ECANCELED => 89

/-- A numbering of the libzfs error enumeration: 2000 for `EZFS_NOMEM` and
consecutive values after it, the members taken in the order of the
description switch. -/
def numbered_ezfs (c : zfs_errno) : Int := 2000 + (c.toCtorIdx : Int)

/-- The messages of Darwin's `strerror` for 0 and for the codes the file
names.  Elsewhere the model gives the text of a code outside Darwin's table;
the theorems evaluate it on the named codes only. -/
def darwin_strerror (n : Int) : String :=
  if n = 0 then "Undefined error: 0"
  else if n = 1 then "Operation not permitted"
  else if n = 2 then "No such file or directory"
  else if n = 4 then "Interrupted system call"
  else if n = 5 then "Input/output error"
  else if n = 6 then "Device not configured"
  else if n = 13 then "Permission denied"
  else if n = 16 then "Resource busy"
  else if n = 17 then "File exists"
  else if n = 19 then "Operation not supported by device"
  else if n = 22 then "Invalid argument"
  else if n = 28 then "No space left on device"
  else if n = 30 then "Read-only file system"
  else if n = 45 then "Operation not supported"
  else if n = 63 then "File name too long"
  else if n = 69 then "Disc quota exceeded"
  else if n = 89 then "Operation canceled"
  else "Unknown error: " ++ toString n

/-- The environment of the Darwin build: its errno values and messages, text
fields of 1024 bytes. -/
def darwin : Env :=
  { errno_val := darwin_errno, ezfs_val := numbered_ezfs,
    sizeof_action := 1024, sizeof_desc := 1024, strerror := darwin_strerror }

/-- A report call returned -1 with the code `c` recorded on the handle and,
when a text is given, with `libzfs_error_description` returning exactly it. -/
def Reports (E : Env) (r : Outcome (Int × libzfs_handle_t)) (c : zfs_errno)
    (aux : Option String) : Prop :=
  ∃ hdl : libzfs_handle_t, r = Outcome.ret (-1, hdl) ∧
    libzfs_errno hdl = E.ezfs_val c ∧
    ∀ t, aux = some t → libzfs_error_description E hdl = Outcome.ret t

/-- The shared mapping in the words of the specification (section 4.1):
permission-denied family to `PERM`, cancellation to `NO_DELEGATION`, I/O failure
to `IO`, interrupted call to `INTR`; no entry for any other code. -/
def spec_shared_code : os_errno → Option zfs_errno
  | EPERM => some EZFS_PERM
  | EACCES => some EZFS_PERM
  | ECANCELED => some EZFS_NODELEGATION
  | os_errno.EIO => some EZFS_IO
  | EINTR => some EZFS_INTR
  | _ => none

/-- A call of the error interface, as a caller issues it: `zfs_error_aux`,
`zfs_error`, `zfs_standard_error` (with the value `errno` holds at the call)
and `zpool_standard_error`. -/
inductive ErrCall where
  | aux (text : String)
  | err (error : Int) (msg : String)
  | standard (errno : Int) (error : Int) (msg : String)
  | pool (error : Int) (msg : String)
  deriving DecidableEq, Repr

/-- The calls that record an error: all but `zfs_error_aux`. -/
def ErrCall.records : ErrCall → Bool
  | ErrCall.aux _ => false
  | _ => true

/-- One call of the error interface on a handle. -/
def ErrCall.run (E : Env) (c : ErrCall) (hdl : libzfs_handle_t) :
    Outcome libzfs_handle_t :=
  match c with
  | ErrCall.aux text => Outcome.ret (zfs_error_aux E hdl text)
  | ErrCall.err error msg =>
      (zfs_error E hdl error msg).bind fun r => Outcome.ret r.2
  | ErrCall.standard errno error msg =>
      (zfs_standard_error E errno hdl error msg).bind fun r => Outcome.ret r.2
  | ErrCall.pool error msg =>
      (zpool_standard_error E hdl error msg).bind fun r => Outcome.ret r.2

/-- A sequence of calls, one after the other, as long as each returns. -/
def run_calls (E : Env) : List ErrCall → libzfs_handle_t →
    Outcome libzfs_handle_t
  | [], hdl => Outcome.ret hdl
  | c :: cs, hdl => (ErrCall.run E c hdl).bind fun h => run_calls E cs h

/-- The recording calls on whose path through the source there is no call of
`zfs_error_aux`: `zfs_error`, and the two reports for a shared code or for a
code whose table entry has no canned text. -/
def ErrCall.stages_nothing (E : Env) : ErrCall → Prop
  | ErrCall.aux _ => False
  | ErrCall.err _ _ => True
  | ErrCall.standard _ error _ =>
      ∃ e, e ∈ [EPERM, EACCES, ECANCELED, os_errno.EIO, EINTR, ENXIO, ENOSPC,
        EDQUOT, ENAMETOOLONG] ∧ error = E.errno_val e
  | ErrCall.pool error _ =>
      ∃ e, e ∈ [EPERM, EACCES, ECANCELED, os_errno.EIO, EINTR, ENODEV,
        ENAMETOOLONG, ENOTSUP, EINVAL, ENOSPC, EDQUOT] ∧ error = E.errno_val e

/-! ## Allocation, command buffers and the ioctl wrapper

Conventions.  A `Nat` is the value of an unsigned C integer or of a pointer
(an address, 0 for NULL).  The functions below only copy such values, and
`size_t` is taken to be as wide as the `uint64_t` fields of the command
structure (the LP64 build), so that no conversion changes a value.  The heap
model records which allocations are live and the bytes the allocator put
there; what the kernel stores into a caller's buffer is not tracked. -/

/-- The allocator's state: the live allocations, each the address the
`malloc` family returned together with the bytes stored there. -/
structure Heap where
  live : List (Nat × List Nat)
  deriving DecidableEq, Repr

/-- The bytes of the live allocation at an address, if there is one. -/
def Heap.lookup (heap : Heap) (ptr : Nat) : Option (List Nat) :=
  heap.live.lookup ptr

/-- C library `free (ptr)`: nothing for NULL, the allocation is released when
`ptr` is live, and an error (`none`) when `ptr` is neither, which is what a
second `free` of the same address is. -/
def free (heap : Heap) (ptr : Nat) : Option Heap :=
  if ptr = 0 then some heap
  else if (heap.lookup ptr).isSome then
    some { live := heap.live.filter fun a => a.1 ≠ ptr }
  else none

/-- C library `calloc (count, size)`.  `pick` is the address the library
chooses, 0 when it has no memory to give; on success the new allocation holds
`count * size` zero bytes. -/
def calloc (heap : Heap) (pick : Nat) (count size : Nat) : Nat × Heap :=
  if pick = 0 then (0, heap)
  else (pick, { live := (pick, List.replicate (count * size) 0) :: heap.live })

/-- C library `strdup (str)`.  `pick` is as for `calloc`; on success the new
allocation holds the characters of `str` and the terminating NUL. -/
def strdup (heap : Heap) (pick : Nat) (str : String) : Nat × Heap :=
  if pick = 0 then (0, heap)
  else (pick,
    { live := (pick, str.data.map (fun c => c.toNat) ++ [0]) :: heap.live })

/-- What an allocation wrapper hands back: the pointer, and the handle and
heap as the call left them. -/
structure AllocReturn where
  data : Nat
  hdl : libzfs_handle_t
  heap : Heap
  deriving DecidableEq, Repr

/-- Source: `zfs_alloc`. -/
def zfs_alloc (E : Env) (pick : Nat) (hdl : libzfs_handle_t) (heap : Heap)
    (size : Nat) : Outcome AllocReturn :=
  let r := calloc heap pick 1 size
  if r.1 = 0 then
    (no_memory E hdl).bind fun m =>
      Outcome.ret { data := r.1, hdl := m.2, heap := r.2 }
  else
    Outcome.ret { data := r.1, hdl := hdl, heap := r.2 }

/-- Source: `zfs_strdup`. -/
def zfs_strdup (E : Env) (pick : Nat) (hdl : libzfs_handle_t) (heap : Heap)
    (str : String) : Outcome AllocReturn :=
  let r := strdup heap pick str
  if r.1 = 0 then
    (no_memory E hdl).bind fun m =>
      Outcome.ret { data := r.1, hdl := m.2, heap := r.2 }
  else
    Outcome.ret { data := r.1, hdl := hdl, heap := r.2 }

/-- The fields of `zfs_cmd_t` that the file reads or writes: the outbound and
inbound buffer (pointer and size), the journal pointer and the error the
kernel reports. -/
structure zfs_cmd_t where
  zc_nvlist_src : Nat
  zc_nvlist_src_size : Nat
  zc_nvlist_dst : Nat
  zc_nvlist_dst_size : Nat
  zc_history : Nat
  zc_ioc_error : Int
  deriving DecidableEq, Repr

/-- What a command-buffer routine hands back: its return value, and the
command structure, handle and heap as the call left them. -/
structure ZcmdReturn where
  value : Int
  zc : zfs_cmd_t
  hdl : libzfs_handle_t
  heap : Heap
  deriving DecidableEq, Repr

/-- Source: `zcmd_alloc_dst_nvlist`. -/
def zcmd_alloc_dst_nvlist (E : Env) (pick : Nat) (hdl : libzfs_handle_t)
    (heap : Heap) (zc : zfs_cmd_t) (len : Nat) : Outcome ZcmdReturn :=
  let len := if len = 0 then 2048 else len
  let zc := { zc with zc_nvlist_dst_size := len }
  (zfs_alloc E pick hdl heap zc.zc_nvlist_dst_size).bind fun a =>
    let zc := { zc with zc_nvlist_dst := a.data }
    if zc.zc_nvlist_dst = 0 then
      Outcome.ret { value := -1, zc := zc, hdl := a.hdl, heap := a.heap }
    else
      Outcome.ret { value := 0, zc := zc, hdl := a.hdl, heap := a.heap }

/-- Source: `zcmd_expand_dst_nvlist`.  `none` is an invalid `free`. -/
def zcmd_expand_dst_nvlist (E : Env) (pick : Nat) (hdl : libzfs_handle_t)
    (heap : Heap) (zc : zfs_cmd_t) : Option (Outcome ZcmdReturn) :=
  (free heap zc.zc_nvlist_dst).map fun heap =>
    (zfs_alloc E pick hdl heap zc.zc_nvlist_dst_size).bind fun a =>
      let zc := { zc with zc_nvlist_dst := a.data }
      if zc.zc_nvlist_dst = 0 then
        Outcome.ret { value := -1, zc := zc, hdl := a.hdl, heap := a.heap }
      else
        Outcome.ret { value := 0, zc := zc, hdl := a.hdl, heap := a.heap }

/-- Source: `zcmd_free_nvlists`.  The command structure is not written to;
the result is the heap, `none` for an invalid `free`. -/
def zcmd_free_nvlists (zc : zfs_cmd_t) (heap : Heap) : Option Heap :=
  (free heap zc.zc_nvlist_src).bind fun heap => free heap zc.zc_nvlist_dst

/-- What `zfs_ioctl` hands back: its return value, the value left in the C
library variable `errno`, and the command structure, handle and heap as the
call left them. -/
structure IoctlReturn where
  value : Int
  errno : Int
  zc : zfs_cmd_t
  hdl : libzfs_handle_t
  heap : Heap
  deriving DecidableEq, Repr

/-- Source: `app_ioctl`.  `ioctl` is the system call: descriptor, request and
command structure to its return value and the command structure as the kernel
leaves it.  The result is the return value, the new `errno` and the command
structure. -/
def app_ioctl (ioctl : Int → Int → zfs_cmd_t → Int × zfs_cmd_t)
    (libzfsfd : Int) (zfs_ioc_call : Int) (zc : zfs_cmd_t) :
    Int × Int × zfs_cmd_t :=
  let r := ioctl libzfsfd zfs_ioc_call zc
  if r.1 = 0 then (r.2.zc_ioc_error, r.2.zc_ioc_error, r.2)
  else (r.1, r.1, r.2)

/-- Source: `zfs_ioctl` (the `__APPLE__` branch).  `none` is an invalid
`free` of the journal string. -/
def zfs_ioctl (ioctl : Int → Int → zfs_cmd_t → Int × zfs_cmd_t)
    (hdl : libzfs_handle_t) (heap : Heap) (request : Int) (zc : zfs_cmd_t) :
    Option IoctlReturn :=
  let zc := { zc with zc_history := hdl.libzfs_log_str }
  let r := app_ioctl ioctl hdl.libzfs_fd request zc
  if hdl.libzfs_log_str ≠ 0 then
    (free heap hdl.libzfs_log_str).map fun heap =>
      { value := r.1, errno := r.2.1, zc := { r.2.2 with zc_history := 0 },
        hdl := { hdl with libzfs_log_str := 0 }, heap := heap }
  else
    some { value := r.1, errno := r.2.1, zc := { r.2.2 with zc_history := 0 },
           hdl := hdl, heap := heap }

/-- A command structure as callers set one up, `zfs_cmd_t zc = { 0 }`. -/
def zfs_cmd_zero : zfs_cmd_t :=
  { zc_nvlist_src := 0, zc_nvlist_src_size := 0, zc_nvlist_dst := 0,
    zc_nvlist_dst_size := 0, zc_history := 0, zc_ioc_error := 0 }

/-- The calls through which the errno translators and `no_memory` reach the
handle: `zfs_error_aux`, the two standard reports (which contain
`zfs_common_error`), and `zfs_error` as `no_memory` calls it. -/
def ErrCall.translates (E : Env) : ErrCall → Prop
  | ErrCall.aux _ => True
  | ErrCall.err error msg =>
      error = E.ezfs_val EZFS_NOMEM ∧ msg = "internal error"
  | ErrCall.standard _ _ _ => True
  | ErrCall.pool _ _ => True

/-! ## Number formatting

`num` is a `uint64_t`; the quotients of the scaling loop never exceed it, and
`index` stays far below the range of `int`, so both are plain `Nat` here.  The
conversion `%llu` is `Nat.repr`.  Floating point is not modelled: what the
conversion `"%.*f%c"` makes of a precision, of the quotient
`(double)num / (1ULL << 10 * index)` and of the unit letter is a parameter. -/

/-- The scaling loop of `zfs_nicenum`,
`while (n >= 1024) { n /= 1024; index++; }`, from the values of `n` and `index`
at its head to their values at its end. -/
def nicenum_scale (n index : Nat) : Nat × Nat :=
  if 1024 ≤ n then nicenum_scale (n / 1024) (index + 1) else (n, index)
termination_by n
decreasing_by omega

/-- The loop `for (i = 2; i >= 0; i--)` of `zfs_nicenum`; the last argument
is `i + 1`.  `fmt_float i num divisor u` is the text `"%.*f%c"` expands to;
`snprintf` returns its length and leaves its first `buflen - 1` characters in
the buffer. -/
def nicenum_precision (fmt_float : Nat → Nat → Nat → Char → String)
    (num divisor : Nat) (u : Char) (buflen : Nat) : String → Nat → String
  | buf, 0 => buf
  | buf, i + 1 =>
    let text := fmt_float i num divisor u
    let buf := vsnprintf buf buflen text
    if text.length ≤ 5 then buf
    else nicenum_precision fmt_float num divisor u buflen buf i

/-- Source: `zfs_nicenum`; the result is the contents of `buf` afterwards.
`none` stands for a read of `" KMGTPE"[index]` past the seven characters. -/
def zfs_nicenum (fmt_float : Nat → Nat → Nat → Char → String) (num : Nat)
    (buf : String) (buflen : Nat) : Option String :=
  let n := (nicenum_scale num 0).1
  let index := (nicenum_scale num 0).2
  match " KMGTPE".data[index]? with
  | none => none
  | some u =>
    if index = 0 then
      some (vsnprintf buf buflen (Nat.repr n))
    else if num &&& ((1 <<< (10 * index)) % 2 ^ 64 - 1) = 0 then
      some (vsnprintf buf buflen (Nat.repr n ++ String.singleton u))
    else
      some (nicenum_precision fmt_float num ((1 <<< (10 * index)) % 2 ^ 64) u
        buflen buf 3)

/-! ## Path resolution (the `__APPLE__` branch) -/

/-- The fields of a `struct statfs` entry that the mount walk reads. -/
structure statfs where
  f_fsid_val0 : Int
  f_fstypename : String
  f_mntonname : String
  deriving DecidableEq, Repr

/-- What `zfs_path_to_zhandle` takes from outside the file: `stat` (the errno
of a failure, or `st_dev`), the table `getmntinfo` returns, `zfs_open` (its
result, of a type left open), and the constants `MNTTYPE_ZFS` and
`ZFS_TYPE_FILESYSTEM`. -/
structure PathEnv (α : Type) where
  stat : String → Except Int Int
  getmntinfo : List statfs
  zfs_open : libzfs_handle_t → String → Int → α
  MNTTYPE_ZFS : String
  ZFS_TYPE_FILESYSTEM : Int

/-- How `zfs_path_to_zhandle` ends: with what `zfs_open` returned, or with
NULL, after the line it wrote to `stderr` if it wrote one. -/
inductive PathResult (α : Type) where
  | opened (r : α)
  | null (stderr : Option String)
  deriving DecidableEq, Repr

/-- The loop
`while (nitems--) { if (sfsp->f_fsid.val[0] == statbuf.st_dev) break; }`.
`sfsp` is the index of the entry the pointer is at and the last argument is
`nitems`; the result is where the pointer is after the loop.  The body does
not move the pointer. -/
def mount_walk (mounts : List statfs) (st_dev : Int) (sfsp : Nat) : Nat → Nat
  | 0 => sfsp
  | nitems + 1 =>
    if (mounts[sfsp]?).map (fun e => e.f_fsid_val0) = some st_dev then sfsp
    else mount_walk mounts st_dev sfsp nitems

/-- Source: `zfs_path_to_zhandle`, the `__APPLE__` branch. -/
def zfs_path_to_zhandle {α : Type} (E : Env) (P : PathEnv α)
    (hdl : libzfs_handle_t) (path : String) (argtype : Int) : PathResult α :=
  if path.data.head? ≠ some '/' ∧ path.data.take 2 ≠ ['.', '/'] then
    PathResult.opened (P.zfs_open hdl path argtype)
  else
    match P.stat path with
    | Except.error errno =>
      PathResult.null (some (path ++ ": " ++ E.strerror errno ++ "\n"))
    | Except.ok st_dev =>
      if P.getmntinfo.length = 0 then PathResult.null none
      else
        let sfsp := mount_walk P.getmntinfo st_dev 0 P.getmntinfo.length
        match P.getmntinfo[sfsp]? with
        | none => PathResult.null none
        | some e =>
          if e.f_fstypename ≠ P.MNTTYPE_ZFS then
            PathResult.null (some ("'" ++ path ++ "': not a ZFS filesystem\n"))
          else
            PathResult.opened
              (P.zfs_open hdl e.f_mntonname P.ZFS_TYPE_FILESYSTEM)

/-- A path environment for evaluation: every `stat` succeeds with `st_dev`,
`zfs_open` hands back the name and the type it was asked for, `MNTTYPE_ZFS`
is "zfs" and `ZFS_TYPE_FILESYSTEM` is 1. -/
def path_env (mounts : List statfs) (st_dev : Int) : PathEnv (String × Int) :=
  { stat := fun _ => Except.ok st_dev, getmntinfo := mounts,
    zfs_open := fun _ name type => (name, type), MNTTYPE_ZFS := "zfs",
    ZFS_TYPE_FILESYSTEM := 1 }

/-- Sample mount entry: the HFS root file system, device 1. -/
def mnt_root : statfs :=
  { f_fsid_val0 := 1, f_fstypename := "hfs", f_mntonname := "/" }

/-- Sample mount entry: the device file system, device 7. -/
def mnt_devfs : statfs :=
  { f_fsid_val0 := 7, f_fstypename := "devfs", f_mntonname := "/dev" }

/-- Sample mount entry: a ZFS file system mounted on /Volumes/tank, device 2. -/
def mnt_tank : statfs :=
  { f_fsid_val0 := 2, f_fstypename := "zfs", f_mntonname := "/Volumes/tank" }

/-! ## Lemmas -/

theorem numbered_ezfs_injective : Function.Injective numbered_ezfs := by
  intro a b h
  have h2 : a.toCtorIdx = b.toCtorIdx := by unfold numbered_ezfs at h; omega
  have h3 := congrArg zfs_errno.ofNat h2
  simpa [zfs_errno.ofNat_toCtorIdx] using h3

theorem darwin_errno_injective : Function.Injective darwin_errno := by
  intro a b h
  cases a <;> cases b <;> first | rfl | (exfalso; revert h; decide)

theorem darwin_wellFormed : darwin.WellFormed :=
  ⟨darwin_errno_injective, numbered_ezfs_injective⟩

theorem ezfs_case_val (E : Env) (hE : E.WellFormed) (c : zfs_errno) :
    ezfs_case E (E.ezfs_val c) = some c := by
  have hmem : c ∈ ezfs_cases := by cases c <;> decide
  unfold ezfs_case
  generalize ezfs_cases = l at hmem
  induction l with
  | nil => simp at hmem
  | cons x xs ih =>
    by_cases hx : c = x
    · subst hx; simp [List.find?]
    · have hne : E.ezfs_val c ≠ E.ezfs_val x := fun h => hx (hE.ezfs_inj h)
      have hm : c ∈ xs := by simpa [hx] using hmem
      simp [List.find?, hne, ih hm]

theorem vsnprintf_fits (buf text : String) (size : Nat)
    (h : text.length < size) : vsnprintf buf size text = text := by
  unfold vsnprintf
  have h0 : size ≠ 0 := by omega
  have hl : text.data.length ≤ size - 1 := by
    have : text.data.length = text.length := rfl
    omega
  simp [h0, List.take_of_length_le hl]

/-- What `vsnprintf` leaves in a field of at least one byte: the first
`size - 1` bytes of the text. -/
theorem vsnprintf_cut (buf text : String) (size : Nat) (h : size ≠ 0) :
    vsnprintf buf size text = String.mk (text.data.take (size - 1)) := by
  simp [vsnprintf, h]

/-- The number of bytes `vsnprintf` leaves in front of the NUL. -/
theorem strlen_vsnprintf (buf text : String) (size : Nat) (h : size ≠ 0) :
    strlen (vsnprintf buf size text) = min (size - 1) (strlen text) := by
  rw [vsnprintf_cut buf text size h]
  exact List.length_take _ _

/-- A text that is not empty leaves a field of two bytes or more not empty. -/
theorem vsnprintf_ne_empty (buf text : String) (size : Nat) (hne : text ≠ "")
    (hs : 2 ≤ size) : vsnprintf buf size text ≠ "" := by
  intro h
  have hl := strlen_vsnprintf buf text size (by omega)
  rw [h] at hl
  have ht : strlen text ≠ 0 := by
    intro h0
    apply hne
    cases text with
    | mk d =>
      have : d = [] := List.length_eq_zero.mp h0
      subst this
      rfl
  have h0 : strlen "" = 0 := rfl
  rw [h0] at hl
  have := Nat.le_min.mpr ⟨(by omega : 1 ≤ size - 1), (by omega : 1 ≤ strlen text)⟩
  omega

/-- What `vsnprintf` leaves in a field of at least one byte is the text or the
beginning of it. -/
theorem vsnprintf_prefix (buf text : String) (size : Nat) (h : size ≠ 0) :
    (vsnprintf buf size text).data <+: text.data := by
  rw [vsnprintf_cut buf text size h]
  exact List.take_prefix _ _

theorem description_aux (E : Env) (hdl : libzfs_handle_t)
    (h : hdl.libzfs_desc ≠ "") :
    libzfs_error_description E hdl = Outcome.ret hdl.libzfs_desc := by
  simp [libzfs_error_description, h]

theorem description_default (E : Env) (hE : E.WellFormed)
    (hdl : libzfs_handle_t) (c : zfs_errno) (h : hdl.libzfs_desc = "")
    (hc : hdl.libzfs_error = E.ezfs_val c) :
    libzfs_error_description E hdl = Outcome.ret (ezfs_description c) := by
  simp [libzfs_error_description, h, hc, ezfs_case_val E hE]

theorem description_returns_of_ezfs (E : Env) (hE : E.WellFormed)
    (hdl : libzfs_handle_t) (c : zfs_errno)
    (hc : hdl.libzfs_error = E.ezfs_val c) :
    ∃ t, libzfs_error_description E hdl = Outcome.ret t := by
  by_cases h : hdl.libzfs_desc = ""
  · exact ⟨_, description_default E hE hdl c h hc⟩
  · exact ⟨_, description_aux E hdl h⟩

@[simp] theorem store_error (E : Env) (hdl : libzfs_handle_t) (error : Int)
    (text : String) : (zfs_verror_store E hdl error text).libzfs_error = error := by
  by_cases h : hdl.libzfs_desc_active = 0 <;> simp [zfs_verror_store, h]

@[simp] theorem store_desc_active (E : Env) (hdl : libzfs_handle_t) (error : Int)
    (text : String) :
    (zfs_verror_store E hdl error text).libzfs_desc_active = 0 := by
  unfold zfs_verror_store
  by_cases h : hdl.libzfs_desc_active = 0 <;> simp [h]

@[simp] theorem store_printerr (E : Env) (hdl : libzfs_handle_t) (error : Int)
    (text : String) :
    (zfs_verror_store E hdl error text).libzfs_printerr = hdl.libzfs_printerr := by
  by_cases h : hdl.libzfs_desc_active = 0 <;> simp [zfs_verror_store, h]

@[simp] theorem store_action (E : Env) (hdl : libzfs_handle_t) (error : Int)
    (text : String) :
    (zfs_verror_store E hdl error text).libzfs_action =
      vsnprintf hdl.libzfs_action E.sizeof_action text := by
  by_cases h : hdl.libzfs_desc_active = 0 <;> simp [zfs_verror_store, h]

theorem store_desc (E : Env) (hdl : libzfs_handle_t) (error : Int)
    (text : String) :
    (zfs_verror_store E hdl error text).libzfs_desc =
      if hdl.libzfs_desc_active ≠ 0 then hdl.libzfs_desc else "" := by
  unfold zfs_verror_store
  by_cases h : hdl.libzfs_desc_active = 0 <;> simp [h]

theorem zfs_verror_quiet (E : Env) (hdl : libzfs_handle_t) (error : Int)
    (text : String) (h : hdl.libzfs_printerr = false) :
    zfs_verror E hdl error text =
      Outcome.ret (zfs_verror_store E hdl error text) := by
  simp [zfs_verror, h]

theorem zfs_verror_ezfs (E : Env) (hE : E.WellFormed) (hdl : libzfs_handle_t)
    (c : zfs_errno) (text : String) (h1 : c ≠ EZFS_UNKNOWN)
    (h2 : c ≠ EZFS_NOMEM) :
    zfs_verror E hdl (E.ezfs_val c) text =
      Outcome.ret (zfs_verror_store E hdl (E.ezfs_val c) text) := by
  unfold zfs_verror
  by_cases hp : hdl.libzfs_printerr = true
  · obtain ⟨t, ht⟩ := description_returns_of_ezfs E hE
      (zfs_verror_store E hdl (E.ezfs_val c) text) c (by simp)
    simp [hp, ht, Outcome.bind, hE.ezfs_inj.eq_iff, h1, h2]
  · simp [hp]


@[simp] theorem aux_printerr (E : Env) (hdl : libzfs_handle_t) (text : String) :
    (zfs_error_aux E hdl text).libzfs_printerr = hdl.libzfs_printerr := rfl

@[simp] theorem aux_desc_active (E : Env) (hdl : libzfs_handle_t) (text : String) :
    (zfs_error_aux E hdl text).libzfs_desc_active = 1 := rfl

@[simp] theorem aux_desc (E : Env) (hdl : libzfs_handle_t) (text : String) :
    (zfs_error_aux E hdl text).libzfs_desc =
      vsnprintf hdl.libzfs_desc E.sizeof_desc text := rfl

@[simp] theorem aux_error (E : Env) (hdl : libzfs_handle_t) (text : String) :
    (zfs_error_aux E hdl text).libzfs_error = hdl.libzfs_error := rfl

@[simp] theorem aux_action (E : Env) (hdl : libzfs_handle_t) (text : String) :
    (zfs_error_aux E hdl text).libzfs_action = hdl.libzfs_action := rfl

/-- A second `zfs_error_aux` overwrites what the first one wrote. -/
theorem aux_aux (E : Env) (hdl : libzfs_handle_t) (t1 t2 : String)
    (h : E.sizeof_desc ≠ 0) :
    zfs_error_aux E (zfs_error_aux E hdl t1) t2 = zfs_error_aux E hdl t2 := by
  simp [zfs_error_aux, vsnprintf_cut _ _ _ h]

/-- With echo enabled `zfs_verror` ends in `abort ()` for UNKNOWN. -/
theorem zfs_verror_echo_unknown (E : Env) (hE : E.WellFormed)
    (hdl : libzfs_handle_t) (text : String)
    (hp : hdl.libzfs_printerr = true) :
    zfs_verror E hdl (E.ezfs_val EZFS_UNKNOWN) text = Outcome.abort := by
  obtain ⟨t, ht⟩ := description_returns_of_ezfs E hE
    (zfs_verror_store E hdl (E.ezfs_val EZFS_UNKNOWN) text) EZFS_UNKNOWN
    (by simp)
  simp [zfs_verror, hp, ht, Outcome.bind]

/-- With echo enabled `zfs_verror` ends in `exit (1)` for NOMEM. -/
theorem zfs_verror_echo_nomem (E : Env) (hE : E.WellFormed)
    (hdl : libzfs_handle_t) (text : String)
    (hp : hdl.libzfs_printerr = true) :
    zfs_verror E hdl (E.ezfs_val EZFS_NOMEM) text = Outcome.exit 1 := by
  obtain ⟨t, ht⟩ := description_returns_of_ezfs E hE
    (zfs_verror_store E hdl (E.ezfs_val EZFS_NOMEM) text) EZFS_NOMEM
    (by simp)
  simp [zfs_verror, hp, ht, Outcome.bind, hE.ezfs_inj.eq_iff]

/-- A code that is none of the five shared ones passes `zfs_common_error`
untouched. -/
theorem common_error_miss (E : Env) (hdl : libzfs_handle_t) (error : Int)
    (text : String) (h1 : error ≠ E.errno_val EPERM)
    (h2 : error ≠ E.errno_val EACCES) (h3 : error ≠ E.errno_val ECANCELED)
    (h4 : error ≠ E.errno_val os_errno.EIO) (h5 : error ≠ E.errno_val EINTR) :
    zfs_common_error E hdl error text = Outcome.ret (0, hdl) := by
  simp [zfs_common_error, h1, h2, h3, h4, h5]

theorem common_error_unshared (E : Env) (hE : E.WellFormed)
    (hdl : libzfs_handle_t) (e : os_errno) (text : String)
    (h : spec_shared_code e = none) :
    zfs_common_error E hdl (E.errno_val e) text = Outcome.ret (0, hdl) := by
  apply common_error_miss <;> intro hc <;> have := hE.errno_inj hc <;>
    subst this <;> simp [spec_shared_code] at h

theorem common_error_shared (E : Env) (hE : E.WellFormed)
    (hdl : libzfs_handle_t) (e : os_errno) (c : zfs_errno) (text : String)
    (h : spec_shared_code e = some c) :
    zfs_common_error E hdl (E.errno_val e) text =
      Outcome.ret (-1, zfs_verror_store E hdl (E.ezfs_val c) text) := by
  cases e <;> simp [spec_shared_code] at h <;> subst h <;>
    simp [zfs_common_error, hE.errno_inj.eq_iff, Outcome.bind,
      zfs_verror_ezfs E hE]

/-- The step shared by the entries of both tables that record a code without
a canned text: with echo disabled the call returns -1 and the code is stored. -/
theorem reports_plain (E : Env) (hdl : libzfs_handle_t) (c : zfs_errno)
    (text : String) (hq : hdl.libzfs_printerr = false) :
    Reports E ((zfs_verror E hdl (E.ezfs_val c) text).bind fun h =>
      Outcome.ret (-1, h)) c none := by
  refine ⟨zfs_verror_store E hdl (E.ezfs_val c) text, ?_, ?_, ?_⟩
  · simp [zfs_verror_quiet E hdl _ text hq, Outcome.bind]
  · simp [libzfs_errno]
  · intro t ht; cases ht

/-- The step shared by the entries of both tables that stage a canned text
first: the description afterwards is that text, whatever was there before. -/
theorem reports_canned (E : Env) (hdl : libzfs_handle_t)
    (c : zfs_errno) (canned text : String)
    (hq : hdl.libzfs_printerr = false) (hne : canned ≠ "")
    (hfit : canned.length < E.sizeof_desc) :
    Reports E ((zfs_verror E (zfs_error_aux E hdl canned) (E.ezfs_val c)
      text).bind fun h => Outcome.ret (-1, h)) c (some canned) := by
  refine ⟨zfs_verror_store E (zfs_error_aux E hdl canned) (E.ezfs_val c) text,
    ?_, ?_, ?_⟩
  · rw [zfs_verror_quiet E _ _ text (by simpa using hq)]; rfl
  · simp [libzfs_errno]
  · intro t ht
    cases ht
    have hd : (zfs_verror_store E (zfs_error_aux E hdl canned) (E.ezfs_val c)
        text).libzfs_desc = canned := by
      simp [store_desc, vsnprintf_fits _ _ _ hfit]
    rw [description_aux E _ (by rw [hd]; exact hne), hd]


theorem standard_fmt_miss (E : Env) (errno : Int) (hdl : libzfs_handle_t)
    (error : Int) (text : String)
    (h : zfs_common_error E hdl error text = Outcome.ret (0, hdl)) :
    zfs_standard_error_fmt E errno hdl error text =
      zfs_standard_error_switch E errno hdl error text := by
  simp [zfs_standard_error_fmt, h, Outcome.bind]

theorem pool_fmt_miss (E : Env) (hdl : libzfs_handle_t) (error : Int)
    (text : String)
    (h : zfs_common_error E hdl error text = Outcome.ret (0, hdl)) :
    zpool_standard_error_fmt E hdl error text =
      zpool_standard_error_switch E hdl error text := by
  simp [zpool_standard_error_fmt, h, Outcome.bind]

theorem standard_fmt_unshared (E : Env) (hE : E.WellFormed) (errno : Int)
    (hdl : libzfs_handle_t) (e : os_errno) (text : String)
    (h : spec_shared_code e = none) :
    zfs_standard_error_fmt E errno hdl (E.errno_val e) text =
      zfs_standard_error_switch E errno hdl (E.errno_val e) text :=
  standard_fmt_miss E errno hdl _ text (common_error_unshared E hE hdl e text h)

theorem pool_fmt_unshared (E : Env) (hE : E.WellFormed)
    (hdl : libzfs_handle_t) (e : os_errno) (text : String)
    (h : spec_shared_code e = none) :
    zpool_standard_error_fmt E hdl (E.errno_val e) text =
      zpool_standard_error_switch E hdl (E.errno_val e) text :=
  pool_fmt_miss E hdl _ text (common_error_unshared E hE hdl e text h)

/-- A code other than UNKNOWN and NOMEM is recorded in every handle state,
echo enabled or not. -/
theorem reports_nonfatal (E : Env) (hE : E.WellFormed) (hdl : libzfs_handle_t)
    (c : zfs_errno) (text : String) (h1 : c ≠ EZFS_UNKNOWN)
    (h2 : c ≠ EZFS_NOMEM) :
    Reports E ((zfs_verror E hdl (E.ezfs_val c) text).bind fun h =>
      Outcome.ret (-1, h)) c none := by
  refine ⟨zfs_verror_store E hdl (E.ezfs_val c) text, ?_, ?_, ?_⟩
  · simp [zfs_verror_ezfs E hE hdl c text h1 h2, Outcome.bind]
  · simp [libzfs_errno]
  · intro t ht; cases ht

/-! ## The errno translators -/

/-- C1. For each code of the shared mapping (EPERM, EACCES to PERM; ECANCELED
to NODELEGATION; EIO to IO; EINTR to INTR), in every handle state, the
dataset-class report and the pool-class report (plain and `_fmt` forms) return
-1 with the same handle, the one `zfs_common_error` alone produces, on which the
mapped domain code is recorded: the class tables play no part. -/
theorem shared_codes_agree_across_classes (E : Env) (hE : E.WellFormed)
    (errno : Int) (hdl : libzfs_handle_t) (msg : String) (e : os_errno)
    (c : zfs_errno) (h : spec_shared_code e = some c) :
    ∃ hdl1 : libzfs_handle_t,
      zfs_common_error E hdl (E.errno_val e) msg = Outcome.ret (-1, hdl1) ∧
      zfs_standard_error_fmt E errno hdl (E.errno_val e) msg
        = Outcome.ret (-1, hdl1) ∧
      zfs_standard_error E errno hdl (E.errno_val e) msg
        = Outcome.ret (-1, hdl1) ∧
      zpool_standard_error_fmt E hdl (E.errno_val e) msg
        = Outcome.ret (-1, hdl1) ∧
      zpool_standard_error E hdl (E.errno_val e) msg = Outcome.ret (-1, hdl1) ∧
      libzfs_errno hdl1 = E.ezfs_val c := by
  refine ⟨zfs_verror_store E hdl (E.ezfs_val c) msg,
    common_error_shared E hE hdl e c msg h, ?_, ?_, ?_, ?_, ?_⟩
  · simp [zfs_standard_error_fmt, common_error_shared E hE hdl e c msg h,
      Outcome.bind]
  · simp [zfs_standard_error, zfs_standard_error_fmt,
      common_error_shared E hE hdl e c msg h, Outcome.bind]
  · simp [zpool_standard_error_fmt, common_error_shared E hE hdl e c msg h,
      Outcome.bind]
  · simp [zpool_standard_error, zpool_standard_error_fmt,
      common_error_shared E hE hdl e c msg h, Outcome.bind]
  · simp [libzfs_errno]

/-- C1 at a concrete input: EACCES on a fresh handle of the Darwin build. -/
theorem shared_codes_agree_across_classes_witness :
    ∃ hdl1 : libzfs_handle_t,
      zfs_common_error darwin libzfs_init (darwin.errno_val EACCES) "cannot open"
        = Outcome.ret (-1, hdl1) ∧
      zfs_standard_error_fmt darwin 13 libzfs_init (darwin.errno_val EACCES)
        "cannot open" = Outcome.ret (-1, hdl1) ∧
      zfs_standard_error darwin 13 libzfs_init (darwin.errno_val EACCES)
        "cannot open" = Outcome.ret (-1, hdl1) ∧
      zpool_standard_error_fmt darwin libzfs_init (darwin.errno_val EACCES)
        "cannot open" = Outcome.ret (-1, hdl1) ∧
      zpool_standard_error darwin libzfs_init (darwin.errno_val EACCES)
        "cannot open" = Outcome.ret (-1, hdl1) ∧
      libzfs_errno hdl1 = darwin.ezfs_val EZFS_PERM :=
  shared_codes_agree_across_classes darwin darwin_wellFormed 13 libzfs_init
    "cannot open" EACCES EZFS_PERM rfl

/-- C2. The dataset-class table, echo disabled: `zfs_standard_error_fmt`
records NOENT for ENOENT, NOSPC for ENOSPC and EDQUOT, EXISTS for EEXIST, BUSY
for EBUSY, PERMRDONLY for EROFS, NAMETOOLONG for ENAMETOOLONG, and where the
table has a canned text `libzfs_error_description` returns exactly it. -/
theorem dataset_class_table (E : Env) (hE : E.WellFormed)
    (hsize : 40 ≤ E.sizeof_desc) (errno : Int) (hdl : libzfs_handle_t)
    (hq : hdl.libzfs_printerr = false) (text : String) :
    Reports E (zfs_standard_error_fmt E errno hdl (E.errno_val ENOENT) text)
      EZFS_NOENT (some "dataset does not exist") ∧
    Reports E (zfs_standard_error_fmt E errno hdl (E.errno_val ENOSPC) text)
      EZFS_NOSPC none ∧
    Reports E (zfs_standard_error_fmt E errno hdl (E.errno_val EDQUOT) text)
      EZFS_NOSPC none ∧
    Reports E (zfs_standard_error_fmt E errno hdl (E.errno_val EEXIST) text)
      EZFS_EXISTS (some "dataset already exists") ∧
    Reports E (zfs_standard_error_fmt E errno hdl (E.errno_val EBUSY) text)
      EZFS_BUSY (some "dataset is busy") ∧
    Reports E (zfs_standard_error_fmt E errno hdl (E.errno_val EROFS) text)
      EZFS_PERMRDONLY (some "snapshot permissions cannot be modified") ∧
    Reports E (zfs_standard_error_fmt E errno hdl (E.errno_val ENAMETOOLONG) text)
      EZFS_NAMETOOLONG none := by
  have hlen : ∀ s : String, s.length < 40 → s.length < E.sizeof_desc :=
    fun s hs => lt_of_lt_of_le hs hsize
  refine ⟨?_, ?_, ?_, ?_, ?_, ?_, ?_⟩
  · rw [standard_fmt_unshared E hE errno hdl ENOENT text rfl]
    simp only [zfs_standard_error_switch, hE.errno_inj.eq_iff, reduceCtorEq,
      if_true, if_false, or_self, or_false, false_or]
    exact reports_canned E hdl EZFS_NOENT _ text hq (by decide)
      (hlen _ (by decide))
  · rw [standard_fmt_unshared E hE errno hdl ENOSPC text rfl]
    simp only [zfs_standard_error_switch, hE.errno_inj.eq_iff, reduceCtorEq,
      if_true, if_false, or_self, or_false, false_or]
    exact reports_plain E hdl EZFS_NOSPC text hq
  · rw [standard_fmt_unshared E hE errno hdl EDQUOT text rfl]
    simp only [zfs_standard_error_switch, hE.errno_inj.eq_iff, reduceCtorEq,
      if_true, if_false, or_self, or_false, false_or]
    exact reports_plain E hdl EZFS_NOSPC text hq
  · rw [standard_fmt_unshared E hE errno hdl EEXIST text rfl]
    simp only [zfs_standard_error_switch, hE.errno_inj.eq_iff, reduceCtorEq,
      if_true, if_false, or_self, or_false, false_or]
    exact reports_canned E hdl EZFS_EXISTS _ text hq (by decide)
      (hlen _ (by decide))
  · rw [standard_fmt_unshared E hE errno hdl EBUSY text rfl]
    simp only [zfs_standard_error_switch, hE.errno_inj.eq_iff, reduceCtorEq,
      if_true, if_false, or_self, or_false, false_or]
    exact reports_canned E hdl EZFS_BUSY _ text hq (by decide)
      (hlen _ (by decide))
  · rw [standard_fmt_unshared E hE errno hdl EROFS text rfl]
    simp only [zfs_standard_error_switch, hE.errno_inj.eq_iff, reduceCtorEq,
      if_true, if_false, or_self, or_false, false_or]
    exact reports_canned E hdl EZFS_PERMRDONLY _ text hq (by decide)
      (hlen _ (by decide))
  · rw [standard_fmt_unshared E hE errno hdl ENAMETOOLONG text rfl]
    simp only [zfs_standard_error_switch, hE.errno_inj.eq_iff, reduceCtorEq,
      if_true, if_false, or_self, or_false, false_or]
    exact reports_plain E hdl EZFS_NAMETOOLONG text hq


/-- C2 at a concrete input: a fresh handle of the Darwin build, echo off. -/
theorem dataset_class_table_witness :
    darwin.WellFormed ∧ 40 ≤ darwin.sizeof_desc ∧
    libzfs_init.libzfs_printerr = false ∧
    Reports darwin (zfs_standard_error_fmt darwin 2 libzfs_init
      (darwin.errno_val ENOENT) "cannot open") EZFS_NOENT
      (some "dataset does not exist") ∧
    Reports darwin (zfs_standard_error_fmt darwin 2 libzfs_init
      (darwin.errno_val EBUSY) "cannot open") EZFS_BUSY
      (some "dataset is busy") :=
  have h := dataset_class_table darwin darwin_wellFormed (by decide) 2
    libzfs_init rfl "cannot open"
  ⟨darwin_wellFormed, by decide, rfl, h.1, h.2.2.2.2.1⟩

/-- C3. The pool-class table, echo disabled: `zpool_standard_error_fmt`
records NODEVICE for ENODEV, NOENT for ENOENT, EXISTS for EEXIST and also for
EBUSY, BADDEV for ENXIO, DEVOVERFLOW for ENAMETOOLONG, POOL_NOTSUP for ENOTSUP,
POOL_INVALARG for EINVAL, NOSPC for ENOSPC and EDQUOT, and where the table has
a canned text `libzfs_error_description` returns exactly it. -/
theorem pool_class_table (E : Env) (hE : E.WellFormed)
    (hsize : 45 ≤ E.sizeof_desc) (hdl : libzfs_handle_t)
    (hq : hdl.libzfs_printerr = false) (text : String) :
    Reports E (zpool_standard_error_fmt E hdl (E.errno_val ENODEV) text)
      EZFS_NODEVICE none ∧
    Reports E (zpool_standard_error_fmt E hdl (E.errno_val ENOENT) text)
      EZFS_NOENT (some "no such pool or dataset") ∧
    Reports E (zpool_standard_error_fmt E hdl (E.errno_val EEXIST) text)
      EZFS_EXISTS (some "pool already exists") ∧
    Reports E (zpool_standard_error_fmt E hdl (E.errno_val EBUSY) text)
      EZFS_EXISTS (some "pool is busy") ∧
    Reports E (zpool_standard_error_fmt E hdl (E.errno_val ENXIO) text)
      EZFS_BADDEV (some "one or more devices is currently unavailable") ∧
    Reports E (zpool_standard_error_fmt E hdl (E.errno_val ENAMETOOLONG) text)
      EZFS_DEVOVERFLOW none ∧
    Reports E (zpool_standard_error_fmt E hdl (E.errno_val ENOTSUP) text)
      EZFS_POOL_NOTSUP none ∧
    Reports E (zpool_standard_error_fmt E hdl (E.errno_val EINVAL) text)
      EZFS_POOL_INVALARG none ∧
    Reports E (zpool_standard_error_fmt E hdl (E.errno_val ENOSPC) text)
      EZFS_NOSPC none ∧
    Reports E (zpool_standard_error_fmt E hdl (E.errno_val EDQUOT) text)
      EZFS_NOSPC none := by
  have hlen : ∀ s : String, s.length < 45 → s.length < E.sizeof_desc :=
    fun s hs => lt_of_lt_of_le hs hsize
  refine ⟨?_, ?_, ?_, ?_, ?_, ?_, ?_, ?_, ?_, ?_⟩
  · rw [pool_fmt_unshared E hE hdl ENODEV text rfl]
    simp only [zpool_standard_error_switch, hE.errno_inj.eq_iff, reduceCtorEq,
      if_true, if_false, or_self, or_false, false_or]
    exact reports_plain E hdl EZFS_NODEVICE text hq
  · rw [pool_fmt_unshared E hE hdl ENOENT text rfl]
    simp only [zpool_standard_error_switch, hE.errno_inj.eq_iff, reduceCtorEq,
      if_true, if_false, or_self, or_false, false_or]
    exact reports_canned E hdl EZFS_NOENT _ text hq (by decide)
      (hlen _ (by decide))
  · rw [pool_fmt_unshared E hE hdl EEXIST text rfl]
    simp only [zpool_standard_error_switch, hE.errno_inj.eq_iff, reduceCtorEq,
      if_true, if_false, or_self, or_false, false_or]
    exact reports_canned E hdl EZFS_EXISTS _ text hq (by decide)
      (hlen _ (by decide))
  · rw [pool_fmt_unshared E hE hdl EBUSY text rfl]
    simp only [zpool_standard_error_switch, hE.errno_inj.eq_iff, reduceCtorEq,
      if_true, if_false, or_self, or_false, false_or]
    exact reports_canned E hdl EZFS_EXISTS _ text hq (by decide)
      (hlen _ (by decide))
  · rw [pool_fmt_unshared E hE hdl ENXIO text rfl]
    simp only [zpool_standard_error_switch, hE.errno_inj.eq_iff, reduceCtorEq,
      if_true, if_false, or_self, or_false, false_or]
    exact reports_canned E hdl EZFS_BADDEV _ text hq (by decide)
      (hlen _ (by decide))
  · rw [pool_fmt_unshared E hE hdl ENAMETOOLONG text rfl]
    simp only [zpool_standard_error_switch, hE.errno_inj.eq_iff, reduceCtorEq,
      if_true, if_false, or_self, or_false, false_or]
    exact reports_plain E hdl EZFS_DEVOVERFLOW text hq
  · rw [pool_fmt_unshared E hE hdl ENOTSUP text rfl]
    simp only [zpool_standard_error_switch, hE.errno_inj.eq_iff, reduceCtorEq,
      if_true, if_false, or_self, or_false, false_or]
    exact reports_plain E hdl EZFS_POOL_NOTSUP text hq
  · rw [pool_fmt_unshared E hE hdl EINVAL text rfl]
    simp only [zpool_standard_error_switch, hE.errno_inj.eq_iff, reduceCtorEq,
      if_true, if_false, or_self, or_false, false_or]
    exact reports_plain E hdl EZFS_POOL_INVALARG text hq
  · rw [pool_fmt_unshared E hE hdl ENOSPC text rfl]
    simp only [zpool_standard_error_switch, hE.errno_inj.eq_iff, reduceCtorEq,
      if_true, if_false, or_self, or_false, false_or]
    exact reports_plain E hdl EZFS_NOSPC text hq
  · rw [pool_fmt_unshared E hE hdl EDQUOT text rfl]
    simp only [zpool_standard_error_switch, hE.errno_inj.eq_iff, reduceCtorEq,
      if_true, if_false, or_self, or_false, false_or]
    exact reports_plain E hdl EZFS_NOSPC text hq

/-- C3 at a concrete input: a fresh handle of the Darwin build, echo off;
EBUSY is recorded as EXISTS with the text "pool is busy". -/
theorem pool_class_table_witness :
    darwin.WellFormed ∧ 45 ≤ darwin.sizeof_desc ∧
    libzfs_init.libzfs_printerr = false ∧
    Reports darwin (zpool_standard_error_fmt darwin libzfs_init
      (darwin.errno_val EBUSY) "cannot create") EZFS_EXISTS
      (some "pool is busy") :=
  have h := pool_class_table darwin darwin_wellFormed (by decide) libzfs_init
    rfl "cannot create"
  ⟨darwin_wellFormed, by decide, rfl, h.2.2.2.1⟩

/-- C4, counterexample. On a fresh handle of the Darwin build (echo off) the
pool-class report of ENODEV records NODEVICE, and the dataset-class report of
the same code records UNKNOWN, which is not the code IO. -/
theorem dataset_enodev_is_not_io :
    (∃ hdl1 : libzfs_handle_t,
      zpool_standard_error_fmt darwin libzfs_init (darwin.errno_val ENODEV)
        "cannot open" = Outcome.ret (-1, hdl1) ∧
      libzfs_errno hdl1 = darwin.ezfs_val EZFS_NODEVICE) ∧
    (∃ hdl1 : libzfs_handle_t,
      zfs_standard_error_fmt darwin 19 libzfs_init (darwin.errno_val ENODEV)
        "cannot open" = Outcome.ret (-1, hdl1) ∧
      libzfs_errno hdl1 = darwin.ezfs_val EZFS_UNKNOWN ∧
      libzfs_errno hdl1 ≠ darwin.ezfs_val EZFS_IO) :=
  ⟨⟨zfs_verror_store darwin libzfs_init (darwin.ezfs_val EZFS_NODEVICE)
      "cannot open", by decide, by decide⟩,
   ⟨zfs_verror_store darwin (zfs_error_aux darwin libzfs_init
      (darwin.strerror 19)) (darwin.ezfs_val EZFS_UNKNOWN) "cannot open",
      by decide, by decide, by decide⟩⟩

/-- C4, amended. The two tables name different codes. In every handle state
the dataset-class report maps ENXIO to IO and the pool-class report maps ENODEV
to NODEVICE; ENODEV has no entry in the dataset-class table, so with echo
disabled `zfs_standard_error_fmt` records UNKNOWN for it. -/
theorem no_such_device_codes (E : Env) (hE : E.WellFormed) (errno : Int)
    (hdl : libzfs_handle_t) (text : String) :
    Reports E (zfs_standard_error_fmt E errno hdl (E.errno_val ENXIO) text)
      EZFS_IO none ∧
    Reports E (zpool_standard_error_fmt E hdl (E.errno_val ENODEV) text)
      EZFS_NODEVICE none ∧
    (hdl.libzfs_printerr = false →
      Reports E (zfs_standard_error_fmt E errno hdl (E.errno_val ENODEV) text)
        EZFS_UNKNOWN none) := by
  refine ⟨?_, ?_, ?_⟩
  · rw [standard_fmt_unshared E hE errno hdl ENXIO text rfl]
    simp only [zfs_standard_error_switch, if_true]
    exact reports_nonfatal E hE hdl EZFS_IO text (by decide) (by decide)
  · rw [pool_fmt_unshared E hE hdl ENODEV text rfl]
    simp only [zpool_standard_error_switch, if_true]
    exact reports_nonfatal E hE hdl EZFS_NODEVICE text (by decide) (by decide)
  · intro hq
    rw [standard_fmt_unshared E hE errno hdl ENODEV text rfl]
    simp only [zfs_standard_error_switch, hE.errno_inj.eq_iff, reduceCtorEq,
      if_false, or_self]
    exact reports_plain E _ EZFS_UNKNOWN text (by simpa using hq)

/-- C4 amended, at a concrete input: a fresh handle of the Darwin build. -/
theorem no_such_device_codes_witness :
    darwin.WellFormed ∧
    Reports darwin (zfs_standard_error_fmt darwin 6 libzfs_init
      (darwin.errno_val ENXIO) "cannot open") EZFS_IO none ∧
    Reports darwin (zpool_standard_error_fmt darwin libzfs_init
      (darwin.errno_val ENODEV) "cannot open") EZFS_NODEVICE none ∧
    Reports darwin (zfs_standard_error_fmt darwin 6 libzfs_init
      (darwin.errno_val ENODEV) "cannot open") EZFS_UNKNOWN none :=
  have h := no_such_device_codes darwin darwin_wellFormed 6 libzfs_init
    "cannot open"
  ⟨darwin_wellFormed, h.1, h.2.1, h.2.2 rfl⟩

/-- C5, the code at the failing input. On a fresh handle of the Darwin build
(echo off), with the C library variable `errno` holding ENOENT, the
dataset-class report of ENOTSUP records UNKNOWN and the description afterwards
is the message of `errno` ("No such file or directory"), not the message of
the code that was passed in. The pool-class report of the same code gives its
table entry, POOL_NOTSUP, and for a code outside its table (EROFS) the
pool-class report describes the error with the message of that code. -/
theorem dataset_unknown_reads_global_errno :
    (∃ hdl1 : libzfs_handle_t,
      zfs_standard_error_fmt darwin (darwin.errno_val ENOENT) libzfs_init
        (darwin.errno_val ENOTSUP) "cannot open" = Outcome.ret (-1, hdl1) ∧
      libzfs_errno hdl1 = darwin.ezfs_val EZFS_UNKNOWN ∧
      libzfs_error_description darwin hdl1
        = Outcome.ret (darwin.strerror (darwin.errno_val ENOENT)) ∧
      libzfs_error_description darwin hdl1
        = Outcome.ret "No such file or directory" ∧
      libzfs_error_description darwin hdl1
        ≠ Outcome.ret (darwin.strerror (darwin.errno_val ENOTSUP))) ∧
    (∃ hdl2 : libzfs_handle_t,
      zpool_standard_error_fmt darwin libzfs_init (darwin.errno_val ENOTSUP)
        "cannot open" = Outcome.ret (-1, hdl2) ∧
      libzfs_errno hdl2 = darwin.ezfs_val EZFS_POOL_NOTSUP) ∧
    (∃ hdl3 : libzfs_handle_t,
      zpool_standard_error_fmt darwin libzfs_init (darwin.errno_val EROFS)
        "cannot open" = Outcome.ret (-1, hdl3) ∧
      libzfs_errno hdl3 = darwin.ezfs_val EZFS_UNKNOWN ∧
      libzfs_error_description darwin hdl3
        = Outcome.ret (darwin.strerror (darwin.errno_val EROFS))) :=
  ⟨⟨zfs_verror_store darwin (zfs_error_aux darwin libzfs_init
      (darwin.strerror 2)) (darwin.ezfs_val EZFS_UNKNOWN) "cannot open",
      by decide, by decide, by decide, by decide, by decide⟩,
   ⟨zfs_verror_store darwin libzfs_init (darwin.ezfs_val EZFS_POOL_NOTSUP)
      "cannot open", by decide, by decide⟩,
   ⟨zfs_verror_store darwin (zfs_error_aux darwin libzfs_init
      (darwin.strerror 30)) (darwin.ezfs_val EZFS_UNKNOWN) "cannot open",
      by decide, by decide, by decide⟩⟩


/-! ## The error context -/

theorem zfs_verror_ret (E : Env) (hdl hdl1 : libzfs_handle_t) (error : Int)
    (text : String) (h : zfs_verror E hdl error text = Outcome.ret hdl1) :
    hdl1 = zfs_verror_store E hdl error text := by
  unfold zfs_verror at h
  simp only [] at h
  split at h
  · split at h
    · cases hd : libzfs_error_description E (zfs_verror_store E hdl error text) <;>
        simp [hd, Outcome.bind] at h
    · cases hd : libzfs_error_description E (zfs_verror_store E hdl error text) <;>
        simp [hd, Outcome.bind] at h
      split at h
      · cases h
      · cases h; rfl
  · cases h; rfl

theorem bind_verror_ret (E : Env) (hdl hdl1 : libzfs_handle_t) (error : Int)
    (text : String) (r : Int)
    (h : ((zfs_verror E hdl error text).bind fun x => Outcome.ret (-1, x))
      = Outcome.ret (r, hdl1)) :
    r = -1 ∧ hdl1 = zfs_verror_store E hdl error text := by
  cases hv : zfs_verror E hdl error text with
  | ret a =>
    rw [hv] at h
    simp only [Outcome.bind, Outcome.ret.injEq, Prod.mk.injEq] at h
    exact ⟨h.1.symm, by rw [← h.2]; exact zfs_verror_ret E hdl a error text hv⟩
  | abort => rw [hv] at h; cases h
  | exit s => rw [hv] at h; cases h


theorem common_error_ret (E : Env) (hdl hdl1 : libzfs_handle_t) (error : Int)
    (text : String) (r : Int)
    (h : zfs_common_error E hdl error text = Outcome.ret (r, hdl1)) :
    (r = 0 ∧ hdl1 = hdl) ∨
    (r = -1 ∧ ∃ code, hdl1 = zfs_verror_store E hdl code text) := by
  unfold zfs_common_error at h
  split_ifs at h
  · exact Or.inr ⟨(bind_verror_ret E _ _ _ _ _ h).1, _, (bind_verror_ret E _ _ _ _ _ h).2⟩
  · exact Or.inr ⟨(bind_verror_ret E _ _ _ _ _ h).1, _, (bind_verror_ret E _ _ _ _ _ h).2⟩
  · exact Or.inr ⟨(bind_verror_ret E _ _ _ _ _ h).1, _, (bind_verror_ret E _ _ _ _ _ h).2⟩
  · exact Or.inr ⟨(bind_verror_ret E _ _ _ _ _ h).1, _, (bind_verror_ret E _ _ _ _ _ h).2⟩
  · simp only [Outcome.ret.injEq, Prod.mk.injEq] at h
    exact Or.inl ⟨h.1.symm, h.2.symm⟩

theorem standard_switch_ret (E : Env) (errno : Int)
    (hdl hdl1 : libzfs_handle_t) (error : Int) (text : String) (r : Int)
    (h : zfs_standard_error_switch E errno hdl error text
      = Outcome.ret (r, hdl1)) :
    r = -1 ∧ hdl1.libzfs_desc_active = 0 := by
  unfold zfs_standard_error_switch at h
  split_ifs at h <;>
    exact ⟨(bind_verror_ret E _ _ _ _ _ h).1, by
      rw [(bind_verror_ret E _ _ _ _ _ h).2]; simp⟩

theorem pool_switch_ret (E : Env) (hdl hdl1 : libzfs_handle_t) (error : Int)
    (text : String) (r : Int)
    (h : zpool_standard_error_switch E hdl error text = Outcome.ret (r, hdl1)) :
    r = -1 ∧ hdl1.libzfs_desc_active = 0 := by
  unfold zpool_standard_error_switch at h
  split_ifs at h <;>
    exact ⟨(bind_verror_ret E _ _ _ _ _ h).1, by
      rw [(bind_verror_ret E _ _ _ _ _ h).2]; simp⟩

theorem standard_fmt_ret (E : Env) (errno : Int) (hdl hdl1 : libzfs_handle_t)
    (error : Int) (text : String) (r : Int)
    (h : zfs_standard_error_fmt E errno hdl error text = Outcome.ret (r, hdl1)) :
    r = -1 ∧ hdl1.libzfs_desc_active = 0 := by
  unfold zfs_standard_error_fmt at h
  cases hc : zfs_common_error E hdl error text with
  | ret a =>
    obtain ⟨r0, h0⟩ := a
    rw [hc] at h
    simp only [Outcome.bind] at h
    rcases common_error_ret E hdl h0 error text r0 hc with ⟨hr, hh⟩ | ⟨hr, code, hh⟩
    · subst hr; subst hh
      simp only [ne_eq, not_true_eq_false, if_false] at h
      exact standard_switch_ret E errno _ _ error text r h
    · subst hr; subst hh
      simp only [ne_eq, neg_eq_zero, one_ne_zero, not_false_eq_true, if_true,
        Outcome.ret.injEq, Prod.mk.injEq] at h
      exact ⟨h.1.symm, by rw [← h.2]; simp⟩
  | abort => rw [hc] at h; cases h
  | exit s => rw [hc] at h; cases h

theorem pool_fmt_ret (E : Env) (hdl hdl1 : libzfs_handle_t)
    (error : Int) (text : String) (r : Int)
    (h : zpool_standard_error_fmt E hdl error text = Outcome.ret (r, hdl1)) :
    r = -1 ∧ hdl1.libzfs_desc_active = 0 := by
  unfold zpool_standard_error_fmt at h
  cases hc : zfs_common_error E hdl error text with
  | ret a =>
    obtain ⟨r0, h0⟩ := a
    rw [hc] at h
    simp only [Outcome.bind] at h
    rcases common_error_ret E hdl h0 error text r0 hc with ⟨hr, hh⟩ | ⟨hr, code, hh⟩
    · subst hr; subst hh
      simp only [ne_eq, not_true_eq_false, if_false] at h
      exact pool_switch_ret E _ _ error text r h
    · subst hr; subst hh
      simp only [ne_eq, neg_eq_zero, one_ne_zero, not_false_eq_true, if_true,
        Outcome.ret.injEq, Prod.mk.injEq] at h
      exact ⟨h.1.symm, by rw [← h.2]; simp⟩
  | abort => rw [hc] at h; cases h
  | exit s => rw [hc] at h; cases h

theorem zfs_error_ret (E : Env) (hdl hdl1 : libzfs_handle_t) (error : Int)
    (msg : String) (r : Int)
    (h : zfs_error E hdl error msg = Outcome.ret (r, hdl1)) :
    r = -1 ∧ hdl1 = zfs_verror_store E hdl error msg :=
  bind_verror_ret E hdl hdl1 error msg r h

/-- A recording call that returns leaves the active flag clear. -/
theorem run_records_clears (E : Env) (c : ErrCall) (hdl hdl1 : libzfs_handle_t)
    (hc : c.records = true) (h : ErrCall.run E c hdl = Outcome.ret hdl1) :
    hdl1.libzfs_desc_active = 0 := by
  cases c with
  | aux t => simp [ErrCall.records] at hc
  | err error msg =>
    simp only [ErrCall.run] at h
    cases hz : zfs_error E hdl error msg with
    | ret a =>
      rw [hz] at h; simp only [Outcome.bind, Outcome.ret.injEq] at h
      rw [← h, (zfs_error_ret E hdl a.2 error msg a.1 hz).2]; simp
    | abort => rw [hz] at h; cases h
    | exit s => rw [hz] at h; cases h
  | standard errno error msg =>
    simp only [ErrCall.run, zfs_standard_error] at h
    cases hz : zfs_standard_error_fmt E errno hdl error msg with
    | ret a =>
      rw [hz] at h; simp only [Outcome.bind, Outcome.ret.injEq] at h
      rw [← h]; exact (standard_fmt_ret E errno hdl a.2 error msg a.1 hz).2
    | abort => rw [hz] at h; cases h
    | exit s => rw [hz] at h; cases h
  | pool error msg =>
    simp only [ErrCall.run, zpool_standard_error] at h
    cases hz : zpool_standard_error_fmt E hdl error msg with
    | ret a =>
      rw [hz] at h; simp only [Outcome.bind, Outcome.ret.injEq] at h
      rw [← h]; exact (pool_fmt_ret E hdl a.2 error msg a.1 hz).2
    | abort => rw [hz] at h; cases h
    | exit s => rw [hz] at h; cases h

theorem run_calls_append (E : Env) (xs ys : List ErrCall)
    (hdl : libzfs_handle_t) :
    run_calls E (xs ++ ys) hdl =
      (run_calls E xs hdl).bind fun h => run_calls E ys h := by
  induction xs generalizing hdl with
  | nil => simp [run_calls, Outcome.bind]
  | cons x xs ih =>
    simp only [List.cons_append, run_calls]
    cases hx : ErrCall.run E x hdl <;> simp [Outcome.bind, ih]


theorem common_error_shape (E : Env) (hE : E.WellFormed) (hdl : libzfs_handle_t)
    (e : os_errno) (c : zfs_errno) (text : String)
    (h : spec_shared_code e = some c) :
    zfs_common_error E hdl (E.errno_val e) text =
      (zfs_verror E hdl (E.ezfs_val c) text).bind fun x => Outcome.ret (-1, x) := by
  rw [common_error_shared E hE hdl e c text h, zfs_verror_ezfs E hE hdl c text]
  · rfl
  · cases e <;> simp [spec_shared_code] at h <;> subst h <;> decide
  · cases e <;> simp [spec_shared_code] at h <;> subst h <;> decide

/-- For a code with no canned text the dataset-class report is one call of
`zfs_verror` on the handle as it was. -/
theorem standard_plain_shape (E : Env) (hE : E.WellFormed) (errno : Int)
    (hdl : libzfs_handle_t) (e : os_errno) (text : String)
    (he : e ∈ [EPERM, EACCES, ECANCELED, os_errno.EIO, EINTR, ENXIO, ENOSPC,
      EDQUOT, ENAMETOOLONG]) :
    ∃ code, zfs_standard_error_fmt E errno hdl (E.errno_val e) text =
      (zfs_verror E hdl code text).bind fun x => Outcome.ret (-1, x) := by
  simp only [List.mem_cons, List.mem_singleton, List.not_mem_nil, or_false] at he
  rcases he with h | h | h | h | h | h | h | h | h <;> subst h
  · refine ⟨E.ezfs_val EZFS_PERM, ?_⟩
    unfold zfs_standard_error_fmt
    rw [common_error_shape E hE hdl EPERM EZFS_PERM text rfl]
    cases zfs_verror E hdl (E.ezfs_val EZFS_PERM) text <;> simp [Outcome.bind]
  · refine ⟨E.ezfs_val EZFS_PERM, ?_⟩
    unfold zfs_standard_error_fmt
    rw [common_error_shape E hE hdl EACCES EZFS_PERM text rfl]
    cases zfs_verror E hdl (E.ezfs_val EZFS_PERM) text <;> simp [Outcome.bind]
  · refine ⟨E.ezfs_val EZFS_NODELEGATION, ?_⟩
    unfold zfs_standard_error_fmt
    rw [common_error_shape E hE hdl ECANCELED EZFS_NODELEGATION text rfl]
    cases zfs_verror E hdl (E.ezfs_val EZFS_NODELEGATION) text <;> simp [Outcome.bind]
  · refine ⟨E.ezfs_val EZFS_IO, ?_⟩
    unfold zfs_standard_error_fmt
    rw [common_error_shape E hE hdl os_errno.EIO EZFS_IO text rfl]
    cases zfs_verror E hdl (E.ezfs_val EZFS_IO) text <;> simp [Outcome.bind]
  · refine ⟨E.ezfs_val EZFS_INTR, ?_⟩
    unfold zfs_standard_error_fmt
    rw [common_error_shape E hE hdl EINTR EZFS_INTR text rfl]
    cases zfs_verror E hdl (E.ezfs_val EZFS_INTR) text <;> simp [Outcome.bind]
  · refine ⟨E.ezfs_val EZFS_IO, ?_⟩
    rw [standard_fmt_unshared E hE errno hdl ENXIO text rfl]
    simp only [zfs_standard_error_switch, hE.errno_inj.eq_iff, reduceCtorEq,
      if_true, if_false, or_self, or_false, false_or, true_or, or_true]
  · refine ⟨E.ezfs_val EZFS_NOSPC, ?_⟩
    rw [standard_fmt_unshared E hE errno hdl ENOSPC text rfl]
    simp only [zfs_standard_error_switch, hE.errno_inj.eq_iff, reduceCtorEq,
      if_true, if_false, or_self, or_false, false_or, true_or, or_true]
  · refine ⟨E.ezfs_val EZFS_NOSPC, ?_⟩
    rw [standard_fmt_unshared E hE errno hdl EDQUOT text rfl]
    simp only [zfs_standard_error_switch, hE.errno_inj.eq_iff, reduceCtorEq,
      if_true, if_false, or_self, or_false, false_or, true_or, or_true]
  · refine ⟨E.ezfs_val EZFS_NAMETOOLONG, ?_⟩
    rw [standard_fmt_unshared E hE errno hdl ENAMETOOLONG text rfl]
    simp only [zfs_standard_error_switch, hE.errno_inj.eq_iff, reduceCtorEq,
      if_true, if_false, or_self, or_false, false_or, true_or, or_true]

/-- For a code with no canned text the pool-class report is one call of
`zfs_verror` on the handle as it was. -/
theorem pool_plain_shape (E : Env) (hE : E.WellFormed)
    (hdl : libzfs_handle_t) (e : os_errno) (text : String)
    (he : e ∈ [EPERM, EACCES, ECANCELED, os_errno.EIO, EINTR, ENODEV,
      ENAMETOOLONG, ENOTSUP, EINVAL, ENOSPC, EDQUOT]) :
    ∃ code, zpool_standard_error_fmt E hdl (E.errno_val e) text =
      (zfs_verror E hdl code text).bind fun x => Outcome.ret (-1, x) := by
  simp only [List.mem_cons, List.mem_singleton, List.not_mem_nil, or_false] at he
  rcases he with h | h | h | h | h | h | h | h | h | h | h <;> subst h
  · refine ⟨E.ezfs_val EZFS_PERM, ?_⟩
    unfold zpool_standard_error_fmt
    rw [common_error_shape E hE hdl EPERM EZFS_PERM text rfl]
    cases zfs_verror E hdl (E.ezfs_val EZFS_PERM) text <;> simp [Outcome.bind]
  · refine ⟨E.ezfs_val EZFS_PERM, ?_⟩
    unfold zpool_standard_error_fmt
    rw [common_error_shape E hE hdl EACCES EZFS_PERM text rfl]
    cases zfs_verror E hdl (E.ezfs_val EZFS_PERM) text <;> simp [Outcome.bind]
  · refine ⟨E.ezfs_val EZFS_NODELEGATION, ?_⟩
    unfold zpool_standard_error_fmt
    rw [common_error_shape E hE hdl ECANCELED EZFS_NODELEGATION text rfl]
    cases zfs_verror E hdl (E.ezfs_val EZFS_NODELEGATION) text <;> simp [Outcome.bind]
  · refine ⟨E.ezfs_val EZFS_IO, ?_⟩
    unfold zpool_standard_error_fmt
    rw [common_error_shape E hE hdl os_errno.EIO EZFS_IO text rfl]
    cases zfs_verror E hdl (E.ezfs_val EZFS_IO) text <;> simp [Outcome.bind]
  · refine ⟨E.ezfs_val EZFS_INTR, ?_⟩
    unfold zpool_standard_error_fmt
    rw [common_error_shape E hE hdl EINTR EZFS_INTR text rfl]
    cases zfs_verror E hdl (E.ezfs_val EZFS_INTR) text <;> simp [Outcome.bind]
  · refine ⟨E.ezfs_val EZFS_NODEVICE, ?_⟩
    rw [pool_fmt_unshared E hE hdl ENODEV text rfl]
    simp only [zpool_standard_error_switch, hE.errno_inj.eq_iff, reduceCtorEq,
      if_true, if_false, or_self, or_false, false_or, true_or, or_true]
  · refine ⟨E.ezfs_val EZFS_DEVOVERFLOW, ?_⟩
    rw [pool_fmt_unshared E hE hdl ENAMETOOLONG text rfl]
    simp only [zpool_standard_error_switch, hE.errno_inj.eq_iff, reduceCtorEq,
      if_true, if_false, or_self, or_false, false_or, true_or, or_true]
  · refine ⟨E.ezfs_val EZFS_POOL_NOTSUP, ?_⟩
    rw [pool_fmt_unshared E hE hdl ENOTSUP text rfl]
    simp only [zpool_standard_error_switch, hE.errno_inj.eq_iff, reduceCtorEq,
      if_true, if_false, or_self, or_false, false_or, true_or, or_true]
  · refine ⟨E.ezfs_val EZFS_POOL_INVALARG, ?_⟩
    rw [pool_fmt_unshared E hE hdl EINVAL text rfl]
    simp only [zpool_standard_error_switch, hE.errno_inj.eq_iff, reduceCtorEq,
      if_true, if_false, or_self, or_false, false_or, true_or, or_true]
  · refine ⟨E.ezfs_val EZFS_NOSPC, ?_⟩
    rw [pool_fmt_unshared E hE hdl ENOSPC text rfl]
    simp only [zpool_standard_error_switch, hE.errno_inj.eq_iff, reduceCtorEq,
      if_true, if_false, or_self, or_false, false_or, true_or, or_true]
  · refine ⟨E.ezfs_val EZFS_NOSPC, ?_⟩
    rw [pool_fmt_unshared E hE hdl EDQUOT text rfl]
    simp only [zpool_standard_error_switch, hE.errno_inj.eq_iff, reduceCtorEq,
      if_true, if_false, or_self, or_false, false_or, true_or, or_true]

/-- A recording call that stages nothing itself, entered with the flag clear,
leaves the auxiliary text empty. -/
theorem run_plain_empties (E : Env) (hE : E.WellFormed) (c : ErrCall)
    (hdl hdl1 : libzfs_handle_t) (hc : c.stages_nothing E)
    (hf : hdl.libzfs_desc_active = 0)
    (h : ErrCall.run E c hdl = Outcome.ret hdl1) :
    hdl1.libzfs_desc = "" := by
  have key : ∀ code msg, ((zfs_verror E hdl code msg).bind
      (fun x => Outcome.ret ((-1 : Int), x))).bind (fun r => Outcome.ret r.2)
      = Outcome.ret hdl1 → hdl1.libzfs_desc = "" := by
    intro code msg hk
    cases hv : zfs_verror E hdl code msg with
    | ret a =>
      rw [hv] at hk
      simp only [Outcome.bind, Outcome.ret.injEq] at hk
      rw [← hk, zfs_verror_ret E hdl a code msg hv, store_desc]
      simp [hf]
    | abort => rw [hv] at hk; cases hk
    | exit s => rw [hv] at hk; cases hk
  cases c with
  | aux t => exact absurd hc (by simp [ErrCall.stages_nothing])
  | err error msg => exact key error msg h
  | standard errno error msg =>
    obtain ⟨e, he, rfl⟩ := hc
    obtain ⟨code, hs⟩ := standard_plain_shape E hE errno hdl e msg he
    simp only [ErrCall.run, zfs_standard_error, hs] at h
    exact key code msg h
  | pool error msg =>
    obtain ⟨e, he, rfl⟩ := hc
    obtain ⟨code, hs⟩ := pool_plain_shape E hE hdl e msg he
    simp only [ErrCall.run, zpool_standard_error, hs] at h
    exact key code msg h


/-- What `zfs_error` leaves behind with echo disabled. -/
theorem zfs_error_quiet (E : Env) (hdl : libzfs_handle_t) (error : Int)
    (msg : String) (hq : hdl.libzfs_printerr = false) :
    zfs_error E hdl error msg =
      Outcome.ret (-1, zfs_verror_store E hdl error msg) := by
  simp [zfs_error, zfs_error_fmt, zfs_verror_quiet E hdl error msg hq,
    Outcome.bind]

theorem vsnprintf_replicate (buf : String) (size n : Nat) (c : Char)
    (hs : size ≠ 0) :
    vsnprintf buf size (String.mk (List.replicate n c)) =
      String.mk (List.replicate (min (size - 1) n) c) := by
  simp [vsnprintf, hs, List.take_replicate]

theorem replicate_string_ne (n m : Nat) (c : Char) (h : n ≠ m) :
    String.mk (List.replicate n c) ≠ String.mk (List.replicate m c) := by
  intro h2
  apply h
  have h3 := congrArg String.length h2
  simpa [String.length] using h3

/-- The text `zfs_error_aux` wrote is still in `libzfs_desc` after the store
of the error that follows. -/
theorem aux_store_desc (E : Env) (hdl : libzfs_handle_t) (t : String)
    (error : Int) (msg : String) :
    (zfs_verror_store E (zfs_error_aux E hdl t) error msg).libzfs_desc =
      vsnprintf hdl.libzfs_desc E.sizeof_desc t := by
  simp [store_desc]

/-- A report that is one `zfs_verror` call, made with echo disabled right
after `zfs_error_aux`: what `zfs_error_aux` left in the field, if not empty, is
the description afterwards. -/
theorem plain_report_keeps_stored (E : Env) (hdl : libzfs_handle_t)
    (hq : hdl.libzfs_printerr = false) (t text : String) (code : Int)
    (hne : vsnprintf hdl.libzfs_desc E.sizeof_desc t ≠ "") :
    ∃ hdl1 : libzfs_handle_t,
      ((zfs_verror E (zfs_error_aux E hdl t) code text).bind fun x =>
        Outcome.ret ((-1 : Int), x)) = Outcome.ret (-1, hdl1) ∧
      libzfs_errno hdl1 = code ∧
      libzfs_error_description E hdl1
        = Outcome.ret (vsnprintf hdl.libzfs_desc E.sizeof_desc t) := by
  refine ⟨zfs_verror_store E (zfs_error_aux E hdl t) code text, ?_, ?_, ?_⟩
  · rw [zfs_verror_quiet E _ _ text (by simpa using hq)]; rfl
  · simp [libzfs_errno]
  · have hd := aux_store_desc E hdl t code text
    rw [description_aux E _ (by rw [hd]; exact hne), hd]

/-- C6, counterexample. On a fresh handle of the Darwin build (echo off):
staging the empty text and recording BADPROP makes the description the
taxonomy text of BADPROP, not the empty text; staging a text of 1024 bytes
makes the description its first 1023 bytes, not the text. -/
theorem staged_text_not_always_returned :
    (∃ hdl1 : libzfs_handle_t,
      zfs_error darwin (zfs_error_aux darwin libzfs_init "")
        (darwin.ezfs_val EZFS_BADPROP) "cannot set property"
        = Outcome.ret (-1, hdl1) ∧
      libzfs_error_description darwin hdl1
        = Outcome.ret "invalid property value" ∧
      libzfs_error_description darwin hdl1 ≠ Outcome.ret "") ∧
    (∃ hdl1 : libzfs_handle_t,
      zfs_error darwin (zfs_error_aux darwin libzfs_init
        (String.mk (List.replicate 1024 'x')))
        (darwin.ezfs_val EZFS_BADPROP) "cannot set property"
        = Outcome.ret (-1, hdl1) ∧
      libzfs_error_description darwin hdl1
        = Outcome.ret (String.mk (List.replicate 1023 'x')) ∧
      libzfs_error_description darwin hdl1
        ≠ Outcome.ret (String.mk (List.replicate 1024 'x'))) := by
  have hd : (zfs_verror_store darwin (zfs_error_aux darwin libzfs_init
      (String.mk (List.replicate 1024 'x'))) (darwin.ezfs_val EZFS_BADPROP)
      "cannot set property").libzfs_desc
      = String.mk (List.replicate 1023 'x') := by
    rw [aux_store_desc]
    exact vsnprintf_replicate "" 1024 1024 'x' (by decide)
  have hne : String.mk (List.replicate 1023 'x') ≠ "" :=
    replicate_string_ne 1023 0 'x' (by decide)
  have hdesc := description_aux darwin (zfs_verror_store darwin
    (zfs_error_aux darwin libzfs_init (String.mk (List.replicate 1024 'x')))
    (darwin.ezfs_val EZFS_BADPROP) "cannot set property")
    (by rw [hd]; exact hne)
  rw [hd] at hdesc
  refine ⟨⟨_, zfs_error_quiet darwin _ _ _ rfl, by decide, by decide⟩,
    ⟨_, zfs_error_quiet darwin _ _ _ rfl, hdesc, ?_⟩⟩
  rw [hdesc]
  intro h
  exact replicate_string_ne 1023 1024 'x' (by decide) (Outcome.ret.inj h)


/-- The description after an error was stored with nothing in the auxiliary
text is the taxonomy text of the code. -/
theorem description_after_plain_store (E : Env) (hE : E.WellFormed)
    (hdl : libzfs_handle_t) (c : zfs_errno) (msg : String)
    (hf : hdl.libzfs_desc_active = 0) :
    libzfs_error_description E (zfs_verror_store E hdl (E.ezfs_val c) msg)
      = Outcome.ret (ezfs_description c) :=
  description_default E hE _ c (by simp [store_desc, hf]) (by simp)

/-- C6, amended. With echo disabled, `zfs_error_aux (t)` followed by
`zfs_error (c, action)` returns -1, and `libzfs_error_description` then
returns exactly `t` when `t` is not empty and has fewer bytes than the
description field (`strlen (t) < sizeof (libzfs_desc)`), the first
`sizeof (libzfs_desc) - 1` bytes of `t` when it has more, and the taxonomy text
of `c` when `t` is empty. `zfs_error (c, action)` right after a recorded error,
or on any handle whose active flag is clear, makes `libzfs_error_description`
return the taxonomy text of `c`. -/
theorem staged_text_returned_within_bound (E : Env) (hE : E.WellFormed)
    (hdl : libzfs_handle_t) (hq : hdl.libzfs_printerr = false)
    (t action : String) (c : zfs_errno) :
    (∃ hdl1 : libzfs_handle_t,
      zfs_error E (zfs_error_aux E hdl t) (E.ezfs_val c) action
        = Outcome.ret (-1, hdl1) ∧
      (t ≠ "" → strlen t < E.sizeof_desc →
        libzfs_error_description E hdl1 = Outcome.ret t) ∧
      (E.sizeof_desc ≤ strlen t → 2 ≤ E.sizeof_desc →
        libzfs_error_description E hdl1
          = Outcome.ret (String.mk (t.data.take (E.sizeof_desc - 1))) ∧
        strlen (String.mk (t.data.take (E.sizeof_desc - 1)))
          = E.sizeof_desc - 1) ∧
      (t = "" → 1 ≤ E.sizeof_desc →
        libzfs_error_description E hdl1 = Outcome.ret (ezfs_description c))) ∧
    (∀ (prev : Int) (a0 : String) (r0 : Int) (hdl0 : libzfs_handle_t),
      zfs_error E hdl prev a0 = Outcome.ret (r0, hdl0) →
      ∃ hdl2 : libzfs_handle_t,
        zfs_error E hdl0 (E.ezfs_val c) action = Outcome.ret (-1, hdl2) ∧
        libzfs_error_description E hdl2 = Outcome.ret (ezfs_description c)) ∧
    (hdl.libzfs_desc_active = 0 →
      ∃ hdl2 : libzfs_handle_t,
        zfs_error E hdl (E.ezfs_val c) action = Outcome.ret (-1, hdl2) ∧
        libzfs_error_description E hdl2 = Outcome.ret (ezfs_description c)) := by
  refine ⟨⟨_, zfs_error_quiet E _ _ action (by simpa using hq), ?_, ?_, ?_⟩,
    ?_, ?_⟩
  · intro hne hfit
    have hd := aux_store_desc E hdl t (E.ezfs_val c) action
    rw [vsnprintf_fits _ _ _ hfit] at hd
    rw [description_aux E _ (by rw [hd]; exact hne), hd]
  · intro hlong hsz
    have hd := aux_store_desc E hdl t (E.ezfs_val c) action
    have h0 : E.sizeof_desc ≠ 0 := by omega
    have hlen := strlen_vsnprintf hdl.libzfs_desc t E.sizeof_desc h0
    rw [vsnprintf_cut _ _ _ h0] at hd hlen
    have hl : strlen (String.mk (t.data.take (E.sizeof_desc - 1)))
        = E.sizeof_desc - 1 := by
      rw [hlen]; exact Nat.min_eq_left (by omega)
    have hne : String.mk (t.data.take (E.sizeof_desc - 1)) ≠ "" := by
      intro h
      rw [h] at hl
      have h1 : strlen "" = 0 := rfl
      omega
    exact ⟨by rw [description_aux E _ (by rw [hd]; exact hne), hd], hl⟩
  · intro hemp hsz
    subst hemp
    have hd := aux_store_desc E hdl "" (E.ezfs_val c) action
    rw [vsnprintf_fits _ _ _ (by simpa using hsz)] at hd
    exact description_default E hE _ c hd (by simp)
  · intro prev a0 r0 hdl0 h0
    have hs := (zfs_error_ret E hdl hdl0 prev a0 r0 h0).2
    have hq0 : hdl0.libzfs_printerr = false := by rw [hs]; simpa using hq
    have hf0 : hdl0.libzfs_desc_active = 0 := by rw [hs]; simp
    exact ⟨_, zfs_error_quiet E hdl0 _ action hq0,
      description_after_plain_store E hE hdl0 c action hf0⟩
  · intro hf
    exact ⟨_, zfs_error_quiet E hdl _ action hq,
      description_after_plain_store E hE hdl c action hf⟩

/-- C6 amended, at a concrete input: a fresh handle of the Darwin build. -/
theorem staged_text_returned_within_bound_witness :
    darwin.WellFormed ∧ libzfs_init.libzfs_printerr = false ∧
    (∃ hdl1 : libzfs_handle_t,
      zfs_error darwin (zfs_error_aux darwin libzfs_init "pool is exported")
        (darwin.ezfs_val EZFS_BADPROP) "cannot set property"
        = Outcome.ret (-1, hdl1) ∧
      libzfs_error_description darwin hdl1 = Outcome.ret "pool is exported") ∧
    (∃ hdl2 : libzfs_handle_t,
      zfs_error darwin libzfs_init (darwin.ezfs_val EZFS_BADPROP)
        "cannot set property" = Outcome.ret (-1, hdl2) ∧
      libzfs_error_description darwin hdl2
        = Outcome.ret "invalid property value") :=
  have h := staged_text_returned_within_bound darwin darwin_wellFormed
    libzfs_init rfl "pool is exported" "cannot set property" EZFS_BADPROP
  ⟨darwin_wellFormed, rfl,
    h.1.elim fun hdl1 h1 => ⟨hdl1, h1.1, h1.2.1 (by decide) (by decide)⟩,
    h.2.2 rfl⟩


/-- The state in front of the last call of a sequence that returned. -/
theorem run_calls_snoc (E : Env) (pre : List ErrCall) (c : ErrCall)
    (hdl hdl1 : libzfs_handle_t)
    (h : run_calls E (pre ++ [c]) hdl = Outcome.ret hdl1) :
    ∃ mid : libzfs_handle_t, run_calls E pre hdl = Outcome.ret mid ∧
      ErrCall.run E c mid = Outcome.ret hdl1 := by
  rw [run_calls_append] at h
  cases hp : run_calls E pre hdl with
  | ret mid =>
    rw [hp] at h
    simp only [Outcome.bind, run_calls] at h
    refine ⟨mid, rfl, ?_⟩
    cases hc : ErrCall.run E c mid with
    | ret x => rw [hc] at h; simpa using h
    | abort => rw [hc] at h; cases h
    | exit s => rw [hc] at h; cases h
  | abort => rw [hp] at h; cases h
  | exit s => rw [hp] at h; cases h

/-- C7. In every sequence of `zfs_error_aux`, `zfs_error`,
`zfs_standard_error` and `zpool_standard_error` calls from any handle state,
right after a recording call that returns `libzfs_desc_active` is 0. Every
recording goes through `zfs_verror`: when that returns the flag is 0, and if
the flag was 0 on entry (no `zfs_error_aux` ran since it was last cleared) the
auxiliary text is empty. So when a recording call that itself makes no
`zfs_error_aux` call directly follows another recording call, `libzfs_desc` is
empty afterwards. -/
theorem recording_consumes_auxiliary (E : Env) (hE : E.WellFormed) :
    (∀ (hdl0 hdl1 : libzfs_handle_t) (pre : List ErrCall) (r : ErrCall),
      r.records = true →
      run_calls E (pre ++ [r]) hdl0 = Outcome.ret hdl1 →
      hdl1.libzfs_desc_active = 0) ∧
    (∀ (hdl hdl1 : libzfs_handle_t) (error : Int) (text : String),
      zfs_verror E hdl error text = Outcome.ret hdl1 →
      hdl1.libzfs_desc_active = 0 ∧
      (hdl.libzfs_desc_active = 0 → hdl1.libzfs_desc = "")) ∧
    (∀ (hdl0 hdl2 : libzfs_handle_t) (pre : List ErrCall) (r1 r2 : ErrCall),
      r1.records = true → r2.stages_nothing E →
      run_calls E (pre ++ [r1, r2]) hdl0 = Outcome.ret hdl2 →
      hdl2.libzfs_desc_active = 0 ∧ hdl2.libzfs_desc = "") := by
  refine ⟨?_, ?_, ?_⟩
  · intro hdl0 hdl1 pre r hr h
    obtain ⟨mid, _, hrun⟩ := run_calls_snoc E pre r hdl0 hdl1 h
    exact run_records_clears E r mid hdl1 hr hrun
  · intro hdl hdl1 error text h
    rw [zfs_verror_ret E hdl hdl1 error text h]
    exact ⟨by simp, fun hf => by simp [store_desc, hf]⟩
  · intro hdl0 hdl2 pre r1 r2 hr1 hr2 h
    have happ : pre ++ [r1, r2] = (pre ++ [r1]) ++ [r2] := by simp
    rw [happ] at h
    obtain ⟨mid, hmid, hrun⟩ := run_calls_snoc E (pre ++ [r1]) r2 hdl0 hdl2 h
    obtain ⟨mid0, _, hrun1⟩ := run_calls_snoc E pre r1 hdl0 mid hmid
    have hf : mid.libzfs_desc_active = 0 :=
      run_records_clears E r1 mid0 mid hr1 hrun1
    have hrec : r2.records = true := by
      cases r2 <;> simp [ErrCall.stages_nothing, ErrCall.records] at hr2 ⊢
    exact ⟨run_records_clears E r2 mid hdl2 hrec hrun,
      run_plain_empties E hE r2 mid hdl2 hr2 hf hrun⟩

/-- C7 at a concrete input: on a fresh handle of the Darwin build, after
`zfs_error_aux`, `zfs_standard_error (ENOENT)` and `zfs_error (EZFS_BUSY)`
the flag is 0 and the auxiliary text is empty. -/
theorem recording_consumes_auxiliary_witness :
    darwin.WellFormed ∧
    (∃ hdl2 : libzfs_handle_t,
      run_calls darwin
        ([ErrCall.aux "device in use"] ++
          [ErrCall.standard 2 (darwin.errno_val ENOENT) "cannot open",
           ErrCall.err (darwin.ezfs_val EZFS_BUSY) "cannot unmount"])
        libzfs_init = Outcome.ret hdl2 ∧
      hdl2.libzfs_desc_active = 0 ∧ hdl2.libzfs_desc = "") :=
  ⟨darwin_wellFormed,
    ⟨zfs_verror_store darwin (zfs_verror_store darwin (zfs_error_aux darwin
        (zfs_error_aux darwin libzfs_init "device in use")
        "dataset does not exist") (darwin.ezfs_val EZFS_NOENT) "cannot open")
        (darwin.ezfs_val EZFS_BUSY) "cannot unmount",
      by decide,
      (recording_consumes_auxiliary darwin darwin_wellFormed).2.2 libzfs_init _
        [ErrCall.aux "device in use"]
        (ErrCall.standard 2 (darwin.errno_val ENOENT) "cannot open")
        (ErrCall.err (darwin.ezfs_val EZFS_BUSY) "cannot unmount") rfl
        trivial (by decide)⟩⟩


/-- C9, counterexample. A handle of the Darwin build with echo enabled, two
texts that fit the field staged one after the other: `zfs_error` with NOMEM
ends the process with `exit (1)` and with UNKNOWN in `abort ()`, so no handle
is left on which `libzfs_error_description` could return the second text. -/
theorem staged_twice_then_fatal_record :
    zfs_error darwin (zfs_error_aux darwin (zfs_error_aux darwin
      (libzfs_print_on_error libzfs_init true) "first explanation") "second")
      (darwin.ezfs_val EZFS_NOMEM) "internal error" = Outcome.exit 1 ∧
    zfs_error darwin (zfs_error_aux darwin (zfs_error_aux darwin
      (libzfs_print_on_error libzfs_init true) "first explanation") "second")
      (darwin.ezfs_val EZFS_UNKNOWN) "cannot open" = Outcome.abort ∧
    (∀ r : Int × libzfs_handle_t,
      zfs_error darwin (zfs_error_aux darwin (zfs_error_aux darwin
        (libzfs_print_on_error libzfs_init true) "first explanation") "second")
        (darwin.ezfs_val EZFS_NOMEM) "internal error" ≠ Outcome.ret r) := by
  have h : zfs_error darwin (zfs_error_aux darwin (zfs_error_aux darwin
      (libzfs_print_on_error libzfs_init true) "first explanation") "second")
      (darwin.ezfs_val EZFS_NOMEM) "internal error" = Outcome.exit 1 := by
    decide
  refine ⟨h, by decide, fun r hr => ?_⟩
  rw [h] at hr
  cases hr

/-- C9, amended. Staging twice keeps the second text only. For every handle
state, every text `t1` and every non-empty text `t2` of fewer bytes than the
description field (`strlen (t2) < sizeof (libzfs_desc)`): the handle after
`zfs_error_aux (t1)`, `zfs_error_aux (t2)` is the one `zfs_error_aux (t2)`
alone gives. Where `zfs_error (c, action)` returns (echo disabled, or a code
other than UNKNOWN and NOMEM) the auxiliary text afterwards is `t2`,
`libzfs_error_description` returns exactly `t2`, and the handle is the one the
same calls without `zfs_error_aux (t1)` produce. With echo enabled
`zfs_error` does not return for UNKNOWN (`abort`) and NOMEM (`exit (1)`). -/
theorem second_auxiliary_replaces_first (E : Env) (hE : E.WellFormed)
    (hdl : libzfs_handle_t) (t1 t2 action : String) (c : zfs_errno)
    (h2 : strlen t2 < E.sizeof_desc) (hne : t2 ≠ "") :
    zfs_error_aux E (zfs_error_aux E hdl t1) t2 = zfs_error_aux E hdl t2 ∧
    ((hdl.libzfs_printerr = false ∨ (c ≠ EZFS_UNKNOWN ∧ c ≠ EZFS_NOMEM)) →
      ∃ hdl1 : libzfs_handle_t,
        zfs_error E (zfs_error_aux E (zfs_error_aux E hdl t1) t2)
          (E.ezfs_val c) action = Outcome.ret (-1, hdl1) ∧
        hdl1.libzfs_desc = t2 ∧
        libzfs_error_description E hdl1 = Outcome.ret t2 ∧
        zfs_error E (zfs_error_aux E hdl t2) (E.ezfs_val c) action
          = Outcome.ret (-1, hdl1)) ∧
    (hdl.libzfs_printerr = true →
      (c = EZFS_UNKNOWN →
        zfs_error E (zfs_error_aux E (zfs_error_aux E hdl t1) t2)
          (E.ezfs_val c) action = Outcome.abort) ∧
      (c = EZFS_NOMEM →
        zfs_error E (zfs_error_aux E (zfs_error_aux E hdl t1) t2)
          (E.ezfs_val c) action = Outcome.exit 1)) := by
  have hsame : zfs_error_aux E (zfs_error_aux E hdl t1) t2
      = zfs_error_aux E hdl t2 :=
    aux_aux E hdl t1 t2 (by simp only [strlen] at h2; omega)
  refine ⟨hsame, fun hret => ?_, fun hp => ⟨fun hc => ?_, fun hc => ?_⟩⟩
  · have hd := aux_store_desc E hdl t2 (E.ezfs_val c) action
    rw [vsnprintf_fits _ _ _ h2] at hd
    have hrun : zfs_error E (zfs_error_aux E hdl t2) (E.ezfs_val c) action
        = Outcome.ret (-1, zfs_verror_store E (zfs_error_aux E hdl t2)
          (E.ezfs_val c) action) := by
      rcases hret with hq | ⟨hu, hm⟩
      · exact zfs_error_quiet E _ _ action (by simpa using hq)
      · simp [zfs_error, zfs_error_fmt, zfs_verror_ezfs E hE _ c action hu hm,
          Outcome.bind]
    refine ⟨_, by rw [hsame]; exact hrun, hd, ?_, hrun⟩
    rw [description_aux E _ (by rw [hd]; exact hne), hd]
  · subst hc
    unfold zfs_error zfs_error_fmt
    rw [zfs_verror_echo_unknown E hE _ action (by simpa using hp)]
    rfl
  · subst hc
    unfold zfs_error zfs_error_fmt
    rw [zfs_verror_echo_nomem E hE _ action (by simpa using hp)]
    rfl

/-- C9 amended, at a concrete input: a fresh handle of the Darwin build. -/
theorem second_auxiliary_replaces_first_witness :
    darwin.WellFormed ∧ strlen "second" < darwin.sizeof_desc ∧
    ∃ hdl1 : libzfs_handle_t,
      zfs_error darwin (zfs_error_aux darwin (zfs_error_aux darwin libzfs_init
        "first explanation") "second") (darwin.ezfs_val EZFS_BUSY)
        "cannot unmount" = Outcome.ret (-1, hdl1) ∧
      hdl1.libzfs_desc = "second" ∧
      libzfs_error_description darwin hdl1 = Outcome.ret "second" :=
  ⟨darwin_wellFormed, by decide,
    ((second_auxiliary_replaces_first darwin darwin_wellFormed libzfs_init
      "first explanation" "second" "cannot unmount" EZFS_BUSY (by decide)
      (by decide)).2.1 (Or.inl rfl)).elim fun hdl1 h =>
        ⟨hdl1, h.1, h.2.1, h.2.2.1⟩⟩

/-- C10, counterexample. On a fresh handle of the Darwin build the description
is "no error"; immediately after `zfs_error_aux` with the text "device in use",
before any error is recorded, it is "device in use". -/
theorem zfs_error_aux_changes_description :
    libzfs_error_description darwin libzfs_init = Outcome.ret "no error" ∧
    libzfs_error_description darwin
      (zfs_error_aux darwin libzfs_init "device in use")
      = Outcome.ret "device in use" ∧
    libzfs_error_description darwin
      (zfs_error_aux darwin libzfs_init "device in use")
      ≠ libzfs_error_description darwin libzfs_init :=
  ⟨by decide, by decide, by decide⟩

/-- C10, amended. `zfs_error_aux (t)` changes neither `libzfs_errno` nor
`libzfs_error_action` (nor the echo flag or the journal string). It has no
staging slot of its own: it writes into `libzfs_desc`, the field
`libzfs_error_description` reads, and sets `libzfs_desc_active`. What the
field holds afterwards is `t` or the beginning of `t`, it is not empty when
`t` is not (the field having room for a byte and the NUL), and whenever it is
not empty `libzfs_error_description` returns it immediately after the call. -/
theorem zfs_error_aux_frame (E : Env) (hdl : libzfs_handle_t) (t : String) :
    libzfs_errno (zfs_error_aux E hdl t) = libzfs_errno hdl ∧
    libzfs_error_action (zfs_error_aux E hdl t) = libzfs_error_action hdl ∧
    (zfs_error_aux E hdl t).libzfs_printerr = hdl.libzfs_printerr ∧
    (zfs_error_aux E hdl t).libzfs_log_str = hdl.libzfs_log_str ∧
    (zfs_error_aux E hdl t).libzfs_desc_active = 1 ∧
    (E.sizeof_desc ≠ 0 → (zfs_error_aux E hdl t).libzfs_desc.data <+: t.data) ∧
    (t ≠ "" → 2 ≤ E.sizeof_desc → (zfs_error_aux E hdl t).libzfs_desc ≠ "") ∧
    ((zfs_error_aux E hdl t).libzfs_desc ≠ "" →
      libzfs_error_description E (zfs_error_aux E hdl t)
        = Outcome.ret (zfs_error_aux E hdl t).libzfs_desc) :=
  ⟨rfl, rfl, rfl, rfl, rfl, fun h => vsnprintf_prefix _ _ _ h,
    fun hne hs => vsnprintf_ne_empty _ _ _ hne hs,
    fun h => description_aux E _ h⟩


/-! ## The default cases of the two reports -/

/-- The default case of the dataset-class report, echo disabled: for a code
that is neither shared nor in the dataset-class table, UNKNOWN is recorded and
the description is the message `strerror` gives for the C library variable
`errno` (when that message is not empty and fits the field), whatever code was
passed in. -/
theorem dataset_default_describes_errno (E : Env) (hdl : libzfs_handle_t)
    (hq : hdl.libzfs_printerr = false) (errno error : Int) (text : String)
    (hun : ∀ e, e ∈ [EPERM, EACCES, ECANCELED, os_errno.EIO, EINTR, ENXIO,
      ENOENT, ENOSPC, EDQUOT, EEXIST, EBUSY, EROFS, ENAMETOOLONG] →
      error ≠ E.errno_val e)
    (hne : E.strerror errno ≠ "")
    (hfit : (E.strerror errno).length < E.sizeof_desc) :
    Reports E (zfs_standard_error_fmt E errno hdl error text) EZFS_UNKNOWN
      (some (E.strerror errno)) := by
  rw [standard_fmt_miss E errno hdl error text (common_error_miss E hdl error
    text (hun _ (by simp)) (hun _ (by simp)) (hun _ (by simp))
    (hun _ (by simp)) (hun _ (by simp)))]
  simp only [zfs_standard_error_switch, hun ENXIO (by simp),
    hun ENOENT (by simp), hun ENOSPC (by simp), hun EDQUOT (by simp),
    hun EEXIST (by simp), hun EBUSY (by simp), hun EROFS (by simp),
    hun ENAMETOOLONG (by simp), if_false, or_self]
  exact reports_canned E hdl EZFS_UNKNOWN _ text hq hne hfit

/-- The dataset-class default case at a concrete input: EINVAL is reported
while `errno` holds EBUSY, and the description is the message of EBUSY. -/
theorem dataset_default_describes_errno_witness :
    libzfs_init.libzfs_printerr = false ∧
    Reports darwin (zfs_standard_error_fmt darwin 16 libzfs_init 22
      "cannot open") EZFS_UNKNOWN (some "Resource busy") :=
  ⟨rfl, dataset_default_describes_errno darwin libzfs_init rfl 16 22
    "cannot open" (by decide) (by decide) (by decide)⟩

/-- The default case of the pool-class report, echo disabled: for a code that
is neither shared nor in the pool-class table, UNKNOWN is recorded and the
description is the message `strerror` gives for that code (when the message is
not empty and fits the field). -/
theorem pool_default_describes_code (E : Env) (hdl : libzfs_handle_t)
    (hq : hdl.libzfs_printerr = false) (error : Int) (text : String)
    (hun : ∀ e, e ∈ [EPERM, EACCES, ECANCELED, os_errno.EIO, EINTR, ENODEV,
      ENOENT, EEXIST, EBUSY, ENXIO, ENAMETOOLONG, ENOTSUP, EINVAL, ENOSPC,
      EDQUOT] → error ≠ E.errno_val e)
    (hne : E.strerror error ≠ "")
    (hfit : (E.strerror error).length < E.sizeof_desc) :
    Reports E (zpool_standard_error_fmt E hdl error text) EZFS_UNKNOWN
      (some (E.strerror error)) := by
  rw [pool_fmt_miss E hdl error text (common_error_miss E hdl error
    text (hun _ (by simp)) (hun _ (by simp)) (hun _ (by simp))
    (hun _ (by simp)) (hun _ (by simp)))]
  simp only [zpool_standard_error_switch, hun ENODEV (by simp),
    hun ENOENT (by simp), hun EEXIST (by simp), hun EBUSY (by simp),
    hun ENXIO (by simp), hun ENAMETOOLONG (by simp), hun ENOTSUP (by simp),
    hun EINVAL (by simp), hun ENOSPC (by simp), hun EDQUOT (by simp),
    if_false, or_self]
  exact reports_canned E hdl EZFS_UNKNOWN _ text hq hne hfit

/-- The pool-class default case at a concrete input: EROFS is described by
its own message. -/
theorem pool_default_describes_code_witness :
    libzfs_init.libzfs_printerr = false ∧
    Reports darwin (zpool_standard_error_fmt darwin libzfs_init 30
      "cannot create") EZFS_UNKNOWN (some "Read-only file system") :=
  ⟨rfl, pool_default_describes_code darwin libzfs_init rfl 30
    "cannot create" (by decide) (by decide) (by decide)⟩


/-! ## Return values, description priority and the fatal policy -/

theorem bind_verror_quiet (E : Env) (hdl : libzfs_handle_t) (error : Int)
    (text : String) (hq : hdl.libzfs_printerr = false) :
    ((zfs_verror E hdl error text).bind fun x => Outcome.ret ((-1 : Int), x))
      = Outcome.ret (-1, zfs_verror_store E hdl error text) := by
  rw [zfs_verror_quiet E hdl error text hq]; rfl

theorem common_error_quiet (E : Env) (hdl : libzfs_handle_t) (error : Int)
    (text : String) (hq : hdl.libzfs_printerr = false) :
    zfs_common_error E hdl error text = Outcome.ret (0, hdl) ∨
    ∃ hdl1, zfs_common_error E hdl error text = Outcome.ret (-1, hdl1) := by
  unfold zfs_common_error
  split_ifs
  · exact Or.inr ⟨_, bind_verror_quiet E hdl _ text hq⟩
  · exact Or.inr ⟨_, bind_verror_quiet E hdl _ text hq⟩
  · exact Or.inr ⟨_, bind_verror_quiet E hdl _ text hq⟩
  · exact Or.inr ⟨_, bind_verror_quiet E hdl _ text hq⟩
  · exact Or.inl rfl

theorem standard_switch_quiet (E : Env) (errno : Int) (hdl : libzfs_handle_t)
    (error : Int) (text : String) (hq : hdl.libzfs_printerr = false) :
    ∃ hdl1, zfs_standard_error_switch E errno hdl error text
      = Outcome.ret (-1, hdl1) := by
  unfold zfs_standard_error_switch
  split_ifs <;>
    first
    | exact ⟨_, bind_verror_quiet E hdl _ text hq⟩
    | exact ⟨_, bind_verror_quiet E (zfs_error_aux E hdl _) _ text hq⟩

theorem pool_switch_quiet (E : Env) (hdl : libzfs_handle_t)
    (error : Int) (text : String) (hq : hdl.libzfs_printerr = false) :
    ∃ hdl1, zpool_standard_error_switch E hdl error text
      = Outcome.ret (-1, hdl1) := by
  unfold zpool_standard_error_switch
  split_ifs <;>
    first
    | exact ⟨_, bind_verror_quiet E hdl _ text hq⟩
    | exact ⟨_, bind_verror_quiet E (zfs_error_aux E hdl _) _ text hq⟩

theorem standard_fmt_quiet (E : Env) (errno : Int) (hdl : libzfs_handle_t)
    (error : Int) (text : String) (hq : hdl.libzfs_printerr = false) :
    ∃ hdl1, zfs_standard_error_fmt E errno hdl error text
      = Outcome.ret (-1, hdl1) := by
  rcases common_error_quiet E hdl error text hq with h | ⟨hdl1, h⟩
  · rw [standard_fmt_miss E errno hdl error text h]
    exact standard_switch_quiet E errno hdl error text hq
  · exact ⟨hdl1, by simp [zfs_standard_error_fmt, h, Outcome.bind]⟩

theorem pool_fmt_quiet (E : Env) (hdl : libzfs_handle_t)
    (error : Int) (text : String) (hq : hdl.libzfs_printerr = false) :
    ∃ hdl1, zpool_standard_error_fmt E hdl error text
      = Outcome.ret (-1, hdl1) := by
  rcases common_error_quiet E hdl error text hq with h | ⟨hdl1, h⟩
  · rw [pool_fmt_miss E hdl error text h]
    exact pool_switch_quiet E hdl error text hq
  · exact ⟨hdl1, by simp [zpool_standard_error_fmt, h, Outcome.bind]⟩

/-- C11. Whenever `zfs_standard_error`, `zfs_standard_error_fmt`,
`zpool_standard_error`, `zpool_standard_error_fmt`, `zfs_error` or
`zfs_error_fmt` returns, in any handle state, for any code and any action
text, the value returned is -1; and with echo disabled each of them does
return. -/
theorem reports_return_failure_sentinel (E : Env) (errno : Int)
    (hdl : libzfs_handle_t) (error : Int) (text : String) :
    (∀ (r : Int) (hdl1 : libzfs_handle_t),
      (zfs_standard_error E errno hdl error text = Outcome.ret (r, hdl1) →
        r = -1) ∧
      (zfs_standard_error_fmt E errno hdl error text = Outcome.ret (r, hdl1) →
        r = -1) ∧
      (zpool_standard_error E hdl error text = Outcome.ret (r, hdl1) →
        r = -1) ∧
      (zpool_standard_error_fmt E hdl error text = Outcome.ret (r, hdl1) →
        r = -1) ∧
      (zfs_error E hdl error text = Outcome.ret (r, hdl1) → r = -1) ∧
      (zfs_error_fmt E hdl error text = Outcome.ret (r, hdl1) → r = -1)) ∧
    (hdl.libzfs_printerr = false →
      (∃ hdl1, zfs_standard_error E errno hdl error text
        = Outcome.ret (-1, hdl1)) ∧
      (∃ hdl1, zfs_standard_error_fmt E errno hdl error text
        = Outcome.ret (-1, hdl1)) ∧
      (∃ hdl1, zpool_standard_error E hdl error text
        = Outcome.ret (-1, hdl1)) ∧
      (∃ hdl1, zpool_standard_error_fmt E hdl error text
        = Outcome.ret (-1, hdl1)) ∧
      (∃ hdl1, zfs_error E hdl error text = Outcome.ret (-1, hdl1)) ∧
      (∃ hdl1, zfs_error_fmt E hdl error text = Outcome.ret (-1, hdl1))) := by
  refine ⟨fun r hdl1 => ⟨?_, ?_, ?_, ?_, ?_, ?_⟩, fun hq => ⟨?_, ?_, ?_, ?_, ?_, ?_⟩⟩
  · exact fun h => (standard_fmt_ret E errno hdl hdl1 error text r h).1
  · exact fun h => (standard_fmt_ret E errno hdl hdl1 error text r h).1
  · exact fun h => (pool_fmt_ret E hdl hdl1 error text r h).1
  · exact fun h => (pool_fmt_ret E hdl hdl1 error text r h).1
  · exact fun h => (zfs_error_ret E hdl hdl1 error text r h).1
  · exact fun h => (zfs_error_ret E hdl hdl1 error text r h).1
  · exact standard_fmt_quiet E errno hdl error text hq
  · exact standard_fmt_quiet E errno hdl error text hq
  · exact pool_fmt_quiet E hdl error text hq
  · exact pool_fmt_quiet E hdl error text hq
  · exact ⟨_, zfs_error_quiet E hdl error text hq⟩
  · exact ⟨_, zfs_error_quiet E hdl error text hq⟩

theorem ezfs_case_zero (E : Env) (h0 : ∀ c, E.ezfs_val c ≠ 0) :
    ezfs_case E 0 = none := by
  unfold ezfs_case
  rw [List.find?_eq_none]
  intro c _
  simpa using fun h => h0 c h.symm

theorem numbered_ezfs_ne_zero (c : zfs_errno) : numbered_ezfs c ≠ 0 := by
  unfold numbered_ezfs; omega

/-- C12. `libzfs_error_description` follows the priority rule in every handle
state: the auxiliary text when that is not empty; otherwise the taxonomy text
of the recorded code ("out of memory" for NOMEM, "permission denied" for PERM,
"unknown error" for UNKNOWN); otherwise, for the code 0, "no error". On the
handle `libzfs_init` produces it returns "no error" and `libzfs_errno` returns
0. The enumeration is assumed to have no member of value 0. -/
theorem description_priority (E : Env) (hE : E.WellFormed)
    (h0 : ∀ c, E.ezfs_val c ≠ 0) (hdl : libzfs_handle_t) :
    (hdl.libzfs_desc ≠ "" →
      libzfs_error_description E hdl = Outcome.ret hdl.libzfs_desc) ∧
    (hdl.libzfs_desc = "" → ∀ c, libzfs_errno hdl = E.ezfs_val c →
      libzfs_error_description E hdl = Outcome.ret (ezfs_description c)) ∧
    ezfs_description EZFS_NOMEM = "out of memory" ∧
    ezfs_description EZFS_PERM = "permission denied" ∧
    ezfs_description EZFS_UNKNOWN = "unknown error" ∧
    (hdl.libzfs_desc = "" → libzfs_errno hdl = 0 →
      libzfs_error_description E hdl = Outcome.ret "no error") ∧
    libzfs_error_description E libzfs_init = Outcome.ret "no error" ∧
    libzfs_errno libzfs_init = 0 := by
  have hzero : ∀ h : libzfs_handle_t, h.libzfs_desc = "" → h.libzfs_error = 0 →
      libzfs_error_description E h = Outcome.ret "no error" := by
    intro h hd he
    simp [libzfs_error_description, hd, he, ezfs_case_zero E h0]
  exact ⟨description_aux E hdl,
    fun hd c hc => description_default E hE hdl c hd hc,
    rfl, rfl, rfl, hzero hdl, hzero libzfs_init rfl rfl, rfl⟩

/-- C12 at a concrete input: a handle of the Darwin build on which PERM is
recorded, without and with an auxiliary text. -/
theorem description_priority_witness :
    darwin.WellFormed ∧ (∀ c, darwin.ezfs_val c ≠ 0) ∧
    libzfs_error_description darwin
      { libzfs_init with libzfs_error := darwin.ezfs_val EZFS_PERM }
      = Outcome.ret "permission denied" ∧
    libzfs_error_description darwin
      { libzfs_init with libzfs_error := darwin.ezfs_val EZFS_PERM,
                         libzfs_desc := "pool is read-only" }
      = Outcome.ret "pool is read-only" ∧
    libzfs_error_description darwin libzfs_init = Outcome.ret "no error" :=
  have h := description_priority darwin darwin_wellFormed numbered_ezfs_ne_zero
  ⟨darwin_wellFormed, numbered_ezfs_ne_zero,
    (h { libzfs_init with libzfs_error := darwin.ezfs_val EZFS_PERM }).2.1 rfl
      EZFS_PERM rfl,
    (h { libzfs_init with libzfs_error := darwin.ezfs_val EZFS_PERM,
                          libzfs_desc := "pool is read-only" }).1 (by decide),
    (h libzfs_init).2.2.2.2.2.2.1⟩

/-- C13. The fatal policy of `zfs_verror` for a domain code `c`, in every
handle state. With echo enabled the call ends the process when `c` is
UNKNOWN (`abort`) or NOMEM (`exit (1)`) and returns for every other code; so
it ends the process exactly when `c` is one of the two. With echo disabled it
returns for every code. Where it returns, the error has been stored. -/
theorem fatal_policy (E : Env) (hE : E.WellFormed) (hdl : libzfs_handle_t)
    (c : zfs_errno) (text : String) :
    (hdl.libzfs_printerr = true →
      (c = EZFS_UNKNOWN → zfs_verror E hdl (E.ezfs_val c) text = Outcome.abort) ∧
      (c = EZFS_NOMEM → zfs_verror E hdl (E.ezfs_val c) text = Outcome.exit 1) ∧
      (c ≠ EZFS_UNKNOWN → c ≠ EZFS_NOMEM →
        zfs_verror E hdl (E.ezfs_val c) text
          = Outcome.ret (zfs_verror_store E hdl (E.ezfs_val c) text)) ∧
      ((∃ hdl1, zfs_verror E hdl (E.ezfs_val c) text = Outcome.ret hdl1) ↔
        ¬ (c = EZFS_NOMEM ∨ c = EZFS_UNKNOWN))) ∧
    (hdl.libzfs_printerr = false →
      zfs_verror E hdl (E.ezfs_val c) text
        = Outcome.ret (zfs_verror_store E hdl (E.ezfs_val c) text)) := by
  have hab : hdl.libzfs_printerr = true → c = EZFS_UNKNOWN →
      zfs_verror E hdl (E.ezfs_val c) text = Outcome.abort := by
    intro hp hc
    subst hc
    obtain ⟨t, ht⟩ := description_returns_of_ezfs E hE
      (zfs_verror_store E hdl (E.ezfs_val EZFS_UNKNOWN) text) EZFS_UNKNOWN
      (by simp)
    simp [zfs_verror, hp, ht, Outcome.bind]
  have hex : hdl.libzfs_printerr = true → c = EZFS_NOMEM →
      zfs_verror E hdl (E.ezfs_val c) text = Outcome.exit 1 := by
    intro hp hc
    subst hc
    obtain ⟨t, ht⟩ := description_returns_of_ezfs E hE
      (zfs_verror_store E hdl (E.ezfs_val EZFS_NOMEM) text) EZFS_NOMEM
      (by simp)
    simp [zfs_verror, hp, ht, Outcome.bind, hE.ezfs_inj.eq_iff]
  refine ⟨fun hp => ⟨hab hp, hex hp,
    fun h1 h2 => zfs_verror_ezfs E hE hdl c text h1 h2, ?_⟩,
    fun hq => zfs_verror_quiet E hdl _ text hq⟩
  constructor
  · rintro ⟨hdl1, h⟩ (hc | hc)
    · rw [hex hp hc] at h; cases h
    · rw [hab hp hc] at h; cases h
  · intro hn
    exact ⟨_, zfs_verror_ezfs E hE hdl c text (fun h => hn (Or.inr h))
      (fun h => hn (Or.inl h))⟩

/-- C13 at a concrete input: a handle of the Darwin build with echo enabled. -/
theorem fatal_policy_witness :
    darwin.WellFormed ∧
    zfs_verror darwin (libzfs_print_on_error libzfs_init true)
      (darwin.ezfs_val EZFS_UNKNOWN) "cannot open" = Outcome.abort ∧
    zfs_verror darwin (libzfs_print_on_error libzfs_init true)
      (darwin.ezfs_val EZFS_NOMEM) "internal error" = Outcome.exit 1 ∧
    (∃ hdl1, zfs_verror darwin (libzfs_print_on_error libzfs_init true)
      (darwin.ezfs_val EZFS_BUSY) "cannot unmount" = Outcome.ret hdl1) ∧
    (∃ hdl1, zfs_verror darwin libzfs_init (darwin.ezfs_val EZFS_NOMEM)
      "internal error" = Outcome.ret hdl1) :=
  ⟨darwin_wellFormed,
    ((fatal_policy darwin darwin_wellFormed
      (libzfs_print_on_error libzfs_init true) EZFS_UNKNOWN "cannot open").1
      rfl).1 rfl,
    ((fatal_policy darwin darwin_wellFormed
      (libzfs_print_on_error libzfs_init true) EZFS_NOMEM "internal error").1
      rfl).2.1 rfl,
    ⟨_, ((fatal_policy darwin darwin_wellFormed
      (libzfs_print_on_error libzfs_init true) EZFS_BUSY "cannot unmount").1
      rfl).2.2.1 (by decide) (by decide)⟩,
    ⟨_, (fatal_policy darwin darwin_wellFormed libzfs_init EZFS_NOMEM
      "internal error").2 rfl⟩⟩

/-! ## Command buffers, allocation and the ioctl wrapper -/

theorem lookup_filter_self (l : List (Nat × List Nat)) (p : Nat) :
    (l.filter fun a => a.1 ≠ p).lookup p = none := by
  induction l with
  | nil => rfl
  | cons x xs ih =>
    obtain ⟨a, b⟩ := x
    by_cases hx : a = p
    · rw [List.filter_cons_of_neg (by simpa using hx)]
      exact ih
    · rw [List.filter_cons_of_pos (by simpa using hx)]
      have hne : (p == a) = false := by simpa using fun h => hx h.symm
      simp only [List.lookup_cons, hne]
      exact ih

theorem lookup_filter_ne (l : List (Nat × List Nat)) (p q : Nat) (h : q ≠ p) :
    (l.filter fun a => a.1 ≠ p).lookup q = l.lookup q := by
  induction l with
  | nil => rfl
  | cons x xs ih =>
    obtain ⟨a, b⟩ := x
    by_cases hx : a = p
    · rw [List.filter_cons_of_neg (by simpa using hx)]
      have hq : (q == a) = false := by simpa [hx] using h
      simp only [List.lookup_cons, hq]
      exact ih
    · rw [List.filter_cons_of_pos (by simpa using hx)]
      simp only [List.lookup_cons]
      rw [ih]

theorem free_null (heap : Heap) : free heap 0 = some heap := by
  simp [free]

theorem free_live (heap : Heap) (p : Nat) (hp : p ≠ 0)
    (hl : (heap.lookup p).isSome) :
    free heap p = some { live := heap.live.filter fun a => a.1 ≠ p } := by
  simp [free, hp, hl]

theorem free_dead (heap : Heap) (p : Nat) (hp : p ≠ 0)
    (hl : heap.lookup p = none) : free heap p = none := by
  simp [free, hp, hl]

theorem free_valid (heap : Heap) (p : Nat)
    (h : p = 0 ∨ (heap.lookup p).isSome) : ∃ heap1, free heap p = some heap1 := by
  by_cases hp : p = 0
  · exact ⟨heap, by simp [free, hp]⟩
  · rcases h with h | h
    · exact absurd h hp
    · exact ⟨_, free_live heap p hp h⟩

theorem free_some_lookup (heap heap1 : Heap) (p : Nat) (hp : p ≠ 0)
    (h : free heap p = some heap1) : heap1.lookup p = none := by
  unfold free at h
  simp only [hp, if_false] at h
  split at h
  · cases h; exact lookup_filter_self heap.live p
  · cases h

theorem free_some_lookup_ne (heap heap1 : Heap) (p q : Nat) (hq : q ≠ p)
    (h : free heap p = some heap1) : heap1.lookup q = heap.lookup q := by
  unfold free at h
  split at h
  · cases h; rfl
  · split at h
    · cases h; exact lookup_filter_ne heap.live p q hq
    · cases h


theorem zfs_alloc_success (E : Env) (pick : Nat) (hdl : libzfs_handle_t)
    (heap : Heap) (size : Nat) (hp : pick ≠ 0) :
    zfs_alloc E pick hdl heap size = Outcome.ret
      { data := pick, hdl := hdl,
        heap := { live := (pick, List.replicate size 0) :: heap.live } } := by
  simp [zfs_alloc, calloc, hp]

theorem no_memory_quiet (E : Env) (hdl : libzfs_handle_t)
    (hq : hdl.libzfs_printerr = false) :
    no_memory E hdl = Outcome.ret
      (-1, zfs_verror_store E hdl (E.ezfs_val EZFS_NOMEM) "internal error") :=
  zfs_error_quiet E hdl _ _ hq

theorem no_memory_echo (E : Env) (hE : E.WellFormed) (hdl : libzfs_handle_t)
    (hp : hdl.libzfs_printerr = true) : no_memory E hdl = Outcome.exit 1 := by
  obtain ⟨t, ht⟩ := description_returns_of_ezfs E hE
    (zfs_verror_store E hdl (E.ezfs_val EZFS_NOMEM) "internal error") EZFS_NOMEM
    (by simp)
  simp [no_memory, zfs_error, zfs_error_fmt, zfs_verror, hp, ht, Outcome.bind,
    hE.ezfs_inj.eq_iff]

theorem zfs_alloc_failure_quiet (E : Env) (hdl : libzfs_handle_t) (heap : Heap)
    (size : Nat) (hq : hdl.libzfs_printerr = false) :
    zfs_alloc E 0 hdl heap size = Outcome.ret
      { data := 0,
        hdl := zfs_verror_store E hdl (E.ezfs_val EZFS_NOMEM) "internal error",
        heap := heap } := by
  simp [zfs_alloc, calloc, no_memory_quiet E hdl hq, Outcome.bind]

theorem zfs_alloc_failure_echo (E : Env) (hE : E.WellFormed)
    (hdl : libzfs_handle_t) (heap : Heap) (size : Nat)
    (hp : hdl.libzfs_printerr = true) :
    zfs_alloc E 0 hdl heap size = Outcome.exit 1 := by
  simp [zfs_alloc, calloc, no_memory_echo E hE hdl hp, Outcome.bind]

theorem lookup_head (heap : Heap) (p : Nat) (bytes : List Nat) :
    Heap.lookup { live := (p, bytes) :: heap.live } p = some bytes := by
  simp [Heap.lookup, List.lookup_cons]

/-- C14. When allocation succeeds, `zcmd_alloc_dst_nvlist (hdl, zc, n)`
returns 0, leaves the inbound size field equal to 2048 if `n` is 0 and to `n`
otherwise, and attaches a buffer of exactly that many bytes, all zero; the
other fields of the command structure and the handle are as before. -/
theorem alloc_dst_attaches_zeroed_buffer (E : Env) (pick : Nat)
    (hdl : libzfs_handle_t) (heap : Heap) (zc : zfs_cmd_t) (n : Nat)
    (hp : pick ≠ 0) :
    ∃ r : ZcmdReturn,
      zcmd_alloc_dst_nvlist E pick hdl heap zc n = Outcome.ret r ∧
      r.value = 0 ∧
      r.zc.zc_nvlist_dst_size = (if n = 0 then 2048 else n) ∧
      r.zc.zc_nvlist_dst = pick ∧
      r.heap.lookup r.zc.zc_nvlist_dst
        = some (List.replicate r.zc.zc_nvlist_dst_size 0) ∧
      r.heap = { live := (pick, List.replicate r.zc.zc_nvlist_dst_size 0)
                   :: heap.live } ∧
      r.zc = { zc with zc_nvlist_dst := pick,
                       zc_nvlist_dst_size := r.zc.zc_nvlist_dst_size } ∧
      r.hdl = hdl := by
  refine ⟨{ value := 0,
            zc := { zc with zc_nvlist_dst := pick,
                            zc_nvlist_dst_size := if n = 0 then 2048 else n },
            hdl := hdl,
            heap := { live := (pick, List.replicate
              (if n = 0 then 2048 else n) 0) :: heap.live } },
    ?_, rfl, rfl, rfl, lookup_head heap pick _, rfl, rfl, rfl⟩
  simp [zcmd_alloc_dst_nvlist, zfs_alloc_success E pick hdl heap _ hp,
    Outcome.bind, hp]

/-- C14 at concrete inputs: a zeroed command structure and an empty heap, the
library choosing the address 4096; first the default size, then 9000. -/
theorem alloc_dst_attaches_zeroed_buffer_witness :
    (∃ r : ZcmdReturn,
      zcmd_alloc_dst_nvlist darwin 4096 libzfs_init { live := [] }
        zfs_cmd_zero 0 = Outcome.ret r ∧
      r.value = 0 ∧ r.zc.zc_nvlist_dst_size = 2048 ∧
      r.zc.zc_nvlist_dst = 4096 ∧
      r.heap.lookup 4096 = some (List.replicate 2048 0)) ∧
    (∃ r : ZcmdReturn,
      zcmd_alloc_dst_nvlist darwin 4096 libzfs_init { live := [] }
        zfs_cmd_zero 9000 = Outcome.ret r ∧
      r.value = 0 ∧ r.zc.zc_nvlist_dst_size = 9000 ∧
      r.zc.zc_nvlist_dst = 4096 ∧
      r.heap.lookup 4096 = some (List.replicate 9000 0)) :=
  ⟨(alloc_dst_attaches_zeroed_buffer darwin 4096 libzfs_init { live := [] }
      zfs_cmd_zero 0 (by decide)).elim fun r h =>
        ⟨r, h.1, h.2.1, h.2.2.1, h.2.2.2.1, by
          have h4 := h.2.2.2.2.1
          rw [h.2.2.2.1, h.2.2.1] at h4
          exact h4⟩,
   (alloc_dst_attaches_zeroed_buffer darwin 4096 libzfs_init { live := [] }
      zfs_cmd_zero 9000 (by decide)).elim fun r h =>
        ⟨r, h.1, h.2.1, h.2.2.1, h.2.2.2.1, by
          have h4 := h.2.2.2.2.1
          rw [h.2.2.2.1, h.2.2.1] at h4
          exact h4⟩⟩

/-- C15, counterexample. With echo disabled and a failing allocation, on the
Darwin build: for a zeroed command structure and `n = 0` the call returns -1
with NOMEM recorded, and the inbound size field, 0 before the call, holds 2048;
for a command structure with the inbound pointer 4096 and size 512 and
`n = 1024` the pointer is 0 and the size 1024 afterwards. -/
theorem alloc_dst_failure_changes_fields :
    (∃ r : ZcmdReturn,
      zcmd_alloc_dst_nvlist darwin 0 libzfs_init { live := [] } zfs_cmd_zero 0
        = Outcome.ret r ∧
      r.value = -1 ∧ libzfs_errno r.hdl = darwin.ezfs_val EZFS_NOMEM ∧
      zfs_cmd_zero.zc_nvlist_dst_size = 0 ∧
      r.zc.zc_nvlist_dst_size = 2048) ∧
    (∃ r : ZcmdReturn,
      zcmd_alloc_dst_nvlist darwin 0 libzfs_init
        { live := [(4096, List.replicate 512 0)] }
        { zfs_cmd_zero with zc_nvlist_dst := 4096, zc_nvlist_dst_size := 512 }
        1024 = Outcome.ret r ∧
      r.value = -1 ∧ r.zc.zc_nvlist_dst = 0 ∧
      r.zc.zc_nvlist_dst_size = 1024) := by
  exact ⟨⟨{ value := -1,
             zc := { zfs_cmd_zero with zc_nvlist_dst_size := 2048 },
             hdl := zfs_verror_store darwin libzfs_init
               (darwin.ezfs_val EZFS_NOMEM) "internal error",
             heap := { live := [] } }, rfl, rfl, rfl, rfl, rfl⟩,
    ⟨{ value := -1,
       zc := { zfs_cmd_zero with zc_nvlist_dst := 0,
                                 zc_nvlist_dst_size := 1024 },
       hdl := zfs_verror_store darwin libzfs_init
         (darwin.ezfs_val EZFS_NOMEM) "internal error",
       heap := { live := [(4096, List.replicate 512 0)] } },
      rfl, rfl, rfl, rfl⟩⟩

/-- C15, amended. When allocation fails with echo disabled,
`zcmd_alloc_dst_nvlist (hdl, zc, n)` returns -1 and records NOMEM on the
handle. The inbound size field has been set to the requested size (2048 if
`n` is 0) before the allocation, and the inbound pointer is set to NULL; the
other fields and the heap are as before. -/
theorem alloc_dst_failure (E : Env) (hdl : libzfs_handle_t) (heap : Heap)
    (zc : zfs_cmd_t) (n : Nat) (hq : hdl.libzfs_printerr = false) :
    ∃ r : ZcmdReturn,
      zcmd_alloc_dst_nvlist E 0 hdl heap zc n = Outcome.ret r ∧
      r.value = -1 ∧
      libzfs_errno r.hdl = E.ezfs_val EZFS_NOMEM ∧
      r.hdl = zfs_verror_store E hdl (E.ezfs_val EZFS_NOMEM) "internal error" ∧
      r.zc.zc_nvlist_dst = 0 ∧
      r.zc.zc_nvlist_dst_size = (if n = 0 then 2048 else n) ∧
      r.zc = { zc with zc_nvlist_dst := 0,
                       zc_nvlist_dst_size := r.zc.zc_nvlist_dst_size } ∧
      r.heap = heap := by
  refine ⟨{ value := -1,
            zc := { zc with zc_nvlist_dst := 0,
                            zc_nvlist_dst_size := if n = 0 then 2048 else n },
            hdl := zfs_verror_store E hdl (E.ezfs_val EZFS_NOMEM)
              "internal error",
            heap := heap },
    ?_, rfl, by simp [libzfs_errno], rfl, rfl, rfl, rfl, rfl⟩
  simp [zcmd_alloc_dst_nvlist, zfs_alloc_failure_quiet E hdl heap _ hq,
    Outcome.bind]

/-- C15 amended, at a concrete input: a request of 9000 bytes. -/
theorem alloc_dst_failure_witness :
    libzfs_init.libzfs_printerr = false ∧
    ∃ r : ZcmdReturn,
      zcmd_alloc_dst_nvlist darwin 0 libzfs_init { live := [] } zfs_cmd_zero
        9000 = Outcome.ret r ∧
      r.value = -1 ∧ libzfs_errno r.hdl = darwin.ezfs_val EZFS_NOMEM ∧
      r.zc.zc_nvlist_dst = 0 ∧ r.zc.zc_nvlist_dst_size = 9000 :=
  ⟨rfl, (alloc_dst_failure darwin libzfs_init { live := [] } zfs_cmd_zero 9000
    rfl).elim fun r h => ⟨r, h.1, h.2.1, h.2.2.1, h.2.2.2.2.1, h.2.2.2.2.2.1⟩⟩


/-- C16, counterexample. On a handle of the Darwin build with echo enabled,
a command structure with a 16-byte inbound buffer at 4096 and the size field
9000: when the allocation fails, `zcmd_expand_dst_nvlist` does not return -1,
the record of NOMEM ends the process with `exit (1)`. -/
theorem expand_dst_failure_exits_with_echo :
    zcmd_expand_dst_nvlist darwin 0 (libzfs_print_on_error libzfs_init true)
      { live := [(4096, List.replicate 16 0)] }
      { zfs_cmd_zero with zc_nvlist_dst := 4096, zc_nvlist_dst_size := 9000 }
      = some (Outcome.exit 1) := by
  decide

/-- C16, amended. For a command structure whose inbound pointer is NULL or a
live buffer and whose inbound size field holds `s`: `zcmd_expand_dst_nvlist`
releases the attached buffer; when the allocation succeeds it attaches a new
buffer of exactly `s` zero bytes, leaves the size field equal to `s` and
returns 0, whatever the size of the buffer it replaced; when the allocation
fails it returns -1 with NOMEM recorded and the pointer NULL if echo is
disabled, and the process exits with status 1 if echo is enabled. -/
theorem expand_dst_uses_size_field (E : Env) (hE : E.WellFormed) (pick : Nat)
    (hdl : libzfs_handle_t) (heap : Heap) (zc : zfs_cmd_t)
    (hold : zc.zc_nvlist_dst = 0 ∨ (heap.lookup zc.zc_nvlist_dst).isSome) :
    ∃ heap1 : Heap,
      free heap zc.zc_nvlist_dst = some heap1 ∧
      (zc.zc_nvlist_dst ≠ 0 → heap1.lookup zc.zc_nvlist_dst = none) ∧
      (pick ≠ 0 →
        ∃ r : ZcmdReturn,
          zcmd_expand_dst_nvlist E pick hdl heap zc = some (Outcome.ret r) ∧
          r.value = 0 ∧
          r.zc = { zc with zc_nvlist_dst := pick } ∧
          r.zc.zc_nvlist_dst_size = zc.zc_nvlist_dst_size ∧
          r.heap.lookup r.zc.zc_nvlist_dst
            = some (List.replicate zc.zc_nvlist_dst_size 0) ∧
          r.heap = { live := (pick, List.replicate zc.zc_nvlist_dst_size 0)
                       :: heap1.live } ∧
          r.hdl = hdl) ∧
      (pick = 0 → hdl.libzfs_printerr = false →
        ∃ r : ZcmdReturn,
          zcmd_expand_dst_nvlist E pick hdl heap zc = some (Outcome.ret r) ∧
          r.value = -1 ∧
          libzfs_errno r.hdl = E.ezfs_val EZFS_NOMEM ∧
          r.zc = { zc with zc_nvlist_dst := 0 } ∧
          r.heap = heap1) ∧
      (pick = 0 → hdl.libzfs_printerr = true →
        zcmd_expand_dst_nvlist E pick hdl heap zc = some (Outcome.exit 1)) := by
  obtain ⟨heap1, hfree⟩ := free_valid heap zc.zc_nvlist_dst hold
  refine ⟨heap1, hfree,
    fun hne => free_some_lookup heap heap1 _ hne hfree, ?_, ?_, ?_⟩
  · intro hp
    refine ⟨{ value := 0, zc := { zc with zc_nvlist_dst := pick }, hdl := hdl,
              heap := { live := (pick, List.replicate zc.zc_nvlist_dst_size 0)
                          :: heap1.live } },
      ?_, rfl, rfl, rfl, lookup_head heap1 pick _, rfl, rfl⟩
    simp [zcmd_expand_dst_nvlist, hfree, zfs_alloc_success E pick hdl heap1 _ hp,
      Outcome.bind, hp]
  · intro hp hq
    subst hp
    refine ⟨{ value := -1, zc := { zc with zc_nvlist_dst := 0 },
              hdl := zfs_verror_store E hdl (E.ezfs_val EZFS_NOMEM)
                "internal error",
              heap := heap1 },
      ?_, rfl, by simp [libzfs_errno], rfl, rfl⟩
    simp [zcmd_expand_dst_nvlist, hfree, zfs_alloc_failure_quiet E hdl heap1 _ hq,
      Outcome.bind]
  · intro hp hecho
    subst hp
    simp [zcmd_expand_dst_nvlist, hfree,
      zfs_alloc_failure_echo E hE hdl heap1 _ hecho, Outcome.bind]

/-- C16 amended, at a concrete input: the 2048-byte buffer at 4096 is
replaced, the size field holding 9000, by a buffer of 9000 zero bytes at
8192. -/
theorem expand_dst_uses_size_field_witness :
    darwin.WellFormed ∧
    ∃ r : ZcmdReturn,
      zcmd_expand_dst_nvlist darwin 8192 libzfs_init
        { live := [(4096, List.replicate 2048 0)] }
        { zfs_cmd_zero with zc_nvlist_dst := 4096, zc_nvlist_dst_size := 9000 }
        = some (Outcome.ret r) ∧
      r.value = 0 ∧ r.zc.zc_nvlist_dst = 8192 ∧
      r.zc.zc_nvlist_dst_size = 9000 ∧
      r.heap.lookup 8192 = some (List.replicate 9000 0) ∧
      r.heap.lookup 4096 = none :=
  ⟨darwin_wellFormed,
    (expand_dst_uses_size_field darwin darwin_wellFormed 8192 libzfs_init
      { live := [(4096, List.replicate 2048 0)] }
      { zfs_cmd_zero with zc_nvlist_dst := 4096, zc_nvlist_dst_size := 9000 }
      (Or.inr rfl)).elim fun heap1 h =>
        (h.2.2.1 (by decide)).elim fun r hr =>
          ⟨r, hr.1, hr.2.1, by rw [hr.2.2.1], hr.2.2.2.1, by
            have h5 := hr.2.2.2.2.1
            rw [hr.2.2.1] at h5
            exact h5, by
            rw [hr.2.2.2.2.2.1]
            have h1 := h.2.1 (by decide)
            change List.lookup 4096 ((8192, _) :: heap1.live) = none
            simp only [List.lookup_cons]
            exact h1⟩⟩

/-- C17, counterexample. A command structure whose inbound pointer is the
live 16-byte buffer at 4096: the first `zcmd_free_nvlists` releases it and
leaves the pointer in place, so the second call frees the same address again,
which is an error. -/
theorem free_nvlists_twice_double_frees :
    zcmd_free_nvlists
      { zfs_cmd_zero with zc_nvlist_dst := 4096, zc_nvlist_dst_size := 16 }
      { live := [(4096, List.replicate 16 0)] } = some { live := [] } ∧
    zcmd_free_nvlists
      { zfs_cmd_zero with zc_nvlist_dst := 4096, zc_nvlist_dst_size := 16 }
      { live := [] } = none := by
  decide

/-- C17, amended. Over the heap model: `zcmd_free_nvlists` is safe when both
pointers are NULL (any number of times, the heap is unchanged), and when each
pointer is NULL or a live buffer and the two are not the same buffer, in which
case both buffers are released and nothing else. It does not clear the
pointers: after a call that succeeded, a second call on the same command
structure is an error (a second `free` of a released address) as soon as one
of the two pointers is not NULL. -/
theorem free_nvlists_safety (zc : zfs_cmd_t) (heap : Heap) :
    (zc.zc_nvlist_src = 0 → zc.zc_nvlist_dst = 0 →
      zcmd_free_nvlists zc heap = some heap ∧
      (zcmd_free_nvlists zc heap).bind (zcmd_free_nvlists zc) = some heap) ∧
    ((zc.zc_nvlist_src = 0 ∨ (heap.lookup zc.zc_nvlist_src).isSome) →
      (zc.zc_nvlist_dst = 0 ∨ (heap.lookup zc.zc_nvlist_dst).isSome) →
      (zc.zc_nvlist_src ≠ zc.zc_nvlist_dst ∨ zc.zc_nvlist_src = 0) →
      ∃ heap1 : Heap, zcmd_free_nvlists zc heap = some heap1 ∧
        (zc.zc_nvlist_src ≠ 0 → heap1.lookup zc.zc_nvlist_src = none) ∧
        (zc.zc_nvlist_dst ≠ 0 → heap1.lookup zc.zc_nvlist_dst = none) ∧
        ∀ q, q ≠ zc.zc_nvlist_src → q ≠ zc.zc_nvlist_dst →
          heap1.lookup q = heap.lookup q) ∧
    (∀ heap1 : Heap, zcmd_free_nvlists zc heap = some heap1 →
      (zc.zc_nvlist_src ≠ 0 ∨ zc.zc_nvlist_dst ≠ 0) →
      zcmd_free_nvlists zc heap1 = none) := by
  refine ⟨?_, ?_, ?_⟩
  · intro hs hd
    simp [zcmd_free_nvlists, hs, hd, free_null]
  · intro hs hd hne
    obtain ⟨h1, hf1⟩ := free_valid heap zc.zc_nvlist_src hs
    have hd1 : zc.zc_nvlist_dst = 0 ∨ (h1.lookup zc.zc_nvlist_dst).isSome := by
      rcases hd with hd | hd
      · exact Or.inl hd
      · by_cases hs0 : zc.zc_nvlist_src = 0
        · rw [hs0, free_null] at hf1
          cases hf1
          exact Or.inr hd
        · have hdne : zc.zc_nvlist_dst ≠ zc.zc_nvlist_src := by
            rcases hne with hne | hne
            · exact fun h => hne h.symm
            · exact absurd hne hs0
          rw [free_some_lookup_ne heap h1 _ _ hdne hf1]
          exact Or.inr hd
    obtain ⟨h2, hf2⟩ := free_valid h1 zc.zc_nvlist_dst hd1
    refine ⟨h2, by simp [zcmd_free_nvlists, hf1, hf2], ?_, ?_, ?_⟩
    · intro hs0
      by_cases hsd : zc.zc_nvlist_src = zc.zc_nvlist_dst
      · rw [hsd]; exact free_some_lookup h1 h2 _ (hsd ▸ hs0) hf2
      · rw [free_some_lookup_ne h1 h2 _ _ hsd hf2]
        exact free_some_lookup heap h1 _ hs0 hf1
    · exact fun hd0 => free_some_lookup h1 h2 _ hd0 hf2
    · intro q hq1 hq2
      rw [free_some_lookup_ne h1 h2 _ _ hq2 hf2,
        free_some_lookup_ne heap h1 _ _ hq1 hf1]
  · intro heap2 hfirst hnn
    unfold zcmd_free_nvlists at hfirst
    cases hf1 : free heap zc.zc_nvlist_src with
    | none => rw [hf1] at hfirst; cases hfirst
    | some h1 =>
      rw [hf1] at hfirst
      simp only [Option.bind] at hfirst
      by_cases hs0 : zc.zc_nvlist_src = 0
      · have hd0 : zc.zc_nvlist_dst ≠ 0 := by
          rcases hnn with h | h
          · exact absurd hs0 h
          · exact h
        have hgone := free_some_lookup h1 heap2 _ hd0 hfirst
        simp [zcmd_free_nvlists, hs0, free_null, free_dead heap2 _ hd0 hgone]
      · have hgone1 := free_some_lookup heap h1 _ hs0 hf1
        have hgone : heap2.lookup zc.zc_nvlist_src = none := by
          by_cases hsd : zc.zc_nvlist_src = zc.zc_nvlist_dst
          · rw [hsd]; exact free_some_lookup h1 heap2 _ (hsd ▸ hs0) hfirst
          · rw [free_some_lookup_ne h1 heap2 _ _ hsd hfirst]; exact hgone1
        simp [zcmd_free_nvlists, free_dead heap2 _ hs0 hgone]


theorem app_ioctl_value (ioctl : Int → Int → zfs_cmd_t → Int × zfs_cmd_t)
    (fd call : Int) (zc : zfs_cmd_t) :
    (app_ioctl ioctl fd call zc).1 =
      if (ioctl fd call zc).1 = 0 then (ioctl fd call zc).2.zc_ioc_error
      else (ioctl fd call zc).1 := by
  by_cases h : (ioctl fd call zc).1 = 0 <;> simp [app_ioctl, h]

theorem app_ioctl_zc (ioctl : Int → Int → zfs_cmd_t → Int × zfs_cmd_t)
    (fd call : Int) (zc : zfs_cmd_t) :
    (app_ioctl ioctl fd call zc).2.2 = (ioctl fd call zc).2 := by
  by_cases h : (ioctl fd call zc).1 = 0 <;> simp [app_ioctl, h]

/-- What `zfs_ioctl` computes when the `free` of the journal pointer is
valid. -/
theorem zfs_ioctl_eq (ioctl : Int → Int → zfs_cmd_t → Int × zfs_cmd_t)
    (hdl : libzfs_handle_t) (heap heap1 : Heap) (request : Int)
    (zc : zfs_cmd_t) (hfree : free heap hdl.libzfs_log_str = some heap1) :
    zfs_ioctl ioctl hdl heap request zc = some
      { value := (app_ioctl ioctl hdl.libzfs_fd request
          { zc with zc_history := hdl.libzfs_log_str }).1,
        errno := (app_ioctl ioctl hdl.libzfs_fd request
          { zc with zc_history := hdl.libzfs_log_str }).2.1,
        zc := { (app_ioctl ioctl hdl.libzfs_fd request
          { zc with zc_history := hdl.libzfs_log_str }).2.2 with
          zc_history := 0 },
        hdl := { hdl with libzfs_log_str := 0 },
        heap := heap1 } := by
  by_cases h0 : hdl.libzfs_log_str = 0
  · have hh : heap1 = heap := by
      rw [h0, free_null] at hfree
      exact (Option.some.inj hfree).symm
    have hhdl : ({ hdl with libzfs_log_str := 0 } : libzfs_handle_t) = hdl := by
      cases hdl; simp_all
    rw [hhdl, hh]
    simp only [zfs_ioctl, h0, ne_eq, not_true_eq_false, if_false]
  · simp only [zfs_ioctl, h0, ne_eq, not_false_eq_true, if_true, hfree,
      Option.map]

/-- C18. For every handle whose journal pointer is NULL or a live string,
every command structure and every behaviour of the system call: `zfs_ioctl`
hands the call the command structure with the journal pointer in
`zc_history`; on return `libzfs_log_str` is NULL and `zc_history` is 0, the
rest of the command structure being as the kernel left it; the journal string
has been freed once (it is no longer live, every other allocation is
untouched); and the value returned is the value of `app_ioctl`: the error the
kernel stored in `zc_ioc_error` when the system call returned 0, the return
value of the system call otherwise. -/
theorem zfs_ioctl_clears_journal
    (ioctl : Int → Int → zfs_cmd_t → Int × zfs_cmd_t) (hdl : libzfs_handle_t)
    (heap : Heap) (request : Int) (zc : zfs_cmd_t)
    (hlog : hdl.libzfs_log_str = 0 ∨ (heap.lookup hdl.libzfs_log_str).isSome) :
    ∃ r : IoctlReturn,
      zfs_ioctl ioctl hdl heap request zc = some r ∧
      r.zc = { (ioctl hdl.libzfs_fd request
          { zc with zc_history := hdl.libzfs_log_str }).2 with
          zc_history := 0 } ∧
      r.zc.zc_history = 0 ∧
      r.hdl = { hdl with libzfs_log_str := 0 } ∧
      r.hdl.libzfs_log_str = 0 ∧
      r.value = (app_ioctl ioctl hdl.libzfs_fd request
          { zc with zc_history := hdl.libzfs_log_str }).1 ∧
      r.value = (if (ioctl hdl.libzfs_fd request
            { zc with zc_history := hdl.libzfs_log_str }).1 = 0
          then (ioctl hdl.libzfs_fd request
            { zc with zc_history := hdl.libzfs_log_str }).2.zc_ioc_error
          else (ioctl hdl.libzfs_fd request
            { zc with zc_history := hdl.libzfs_log_str }).1) ∧
      free heap hdl.libzfs_log_str = some r.heap ∧
      (hdl.libzfs_log_str ≠ 0 → r.heap.lookup hdl.libzfs_log_str = none ∧
        free r.heap hdl.libzfs_log_str = none) ∧
      (∀ q, q ≠ hdl.libzfs_log_str → r.heap.lookup q = heap.lookup q) := by
  obtain ⟨heap1, hfree⟩ := free_valid heap hdl.libzfs_log_str hlog
  refine ⟨_, zfs_ioctl_eq ioctl hdl heap heap1 request zc hfree, ?_, rfl, rfl,
    rfl, rfl, ?_, hfree, fun h0 => ⟨?_, ?_⟩, ?_⟩
  · simp only [app_ioctl_zc]
  · simp only [app_ioctl_value]
  · exact free_some_lookup heap heap1 _ h0 hfree
  · exact free_dead _ _ h0 (free_some_lookup heap heap1 _ h0 hfree)
  · exact fun q hq => free_some_lookup_ne heap heap1 _ q hq hfree

/-- C18 at a concrete input: the journal string lives at 8192, and the system
call returns 0 with the error 2 in `zc_ioc_error`. -/
theorem zfs_ioctl_clears_journal_witness :
    ∃ r : IoctlReturn,
      zfs_ioctl (fun _ _ zc => (0, { zc with zc_ioc_error := 2 }))
        { libzfs_init with libzfs_log_str := 8192 }
        { live := [(8192, [122, 102, 115, 0])] } 5 zfs_cmd_zero = some r ∧
      r.hdl.libzfs_log_str = 0 ∧ r.zc.zc_history = 0 ∧ r.value = 2 ∧
      r.heap = { live := [] } :=
  (zfs_ioctl_clears_journal (fun _ _ zc => (0, { zc with zc_ioc_error := 2 }))
    { libzfs_init with libzfs_log_str := 8192 }
    { live := [(8192, [122, 102, 115, 0])] } 5 zfs_cmd_zero
    (Or.inr rfl)).elim fun r h =>
      ⟨r, h.1, h.2.2.2.2.1, h.2.2.1, by
        rw [h.2.2.2.2.2.2.1]; rfl, by
        have hf := h.2.2.2.2.2.2.2.1
        exact (Option.some.inj hf).symm⟩

/-- C19, the code at the failing input. On a fresh handle of the Darwin build
(echo disabled, the state `libzfs_init` leaves) with the C library out of
memory: `no_memory` returns -1, and `zfs_alloc` and `zfs_strdup` return NULL to
their caller with NOMEM recorded. Only with echo enabled does the process end,
by `exit (1)`. -/
theorem allocation_wrappers_return_null :
    no_memory darwin libzfs_init = Outcome.ret (-1,
      zfs_verror_store darwin libzfs_init (darwin.ezfs_val EZFS_NOMEM)
        "internal error") ∧
    zfs_alloc darwin 0 libzfs_init { live := [] } 2048 = Outcome.ret
      { data := 0,
        hdl := zfs_verror_store darwin libzfs_init (darwin.ezfs_val EZFS_NOMEM)
          "internal error",
        heap := { live := [] } } ∧
    zfs_strdup darwin 0 libzfs_init { live := [] } "tank" = Outcome.ret
      { data := 0,
        hdl := zfs_verror_store darwin libzfs_init (darwin.ezfs_val EZFS_NOMEM)
          "internal error",
        heap := { live := [] } } ∧
    libzfs_errno (zfs_verror_store darwin libzfs_init
      (darwin.ezfs_val EZFS_NOMEM) "internal error")
      = darwin.ezfs_val EZFS_NOMEM ∧
    no_memory darwin (libzfs_print_on_error libzfs_init true)
      = Outcome.exit 1 ∧
    zfs_alloc darwin 0 (libzfs_print_on_error libzfs_init true) { live := [] }
      2048 = Outcome.exit 1 := by
  refine ⟨by decide, by decide, by decide, by decide, by decide, by decide⟩

/-! ## Description sources across a report -/

/-- For a code with no canned text the dataset-class report is one call of
`zfs_verror` with a member of the enumeration, on the handle as it was. -/
theorem standard_plain_entry (E : Env) (hE : E.WellFormed) (errno : Int)
    (hdl : libzfs_handle_t) (e : os_errno) (text : String)
    (he : e ∈ [EPERM, EACCES, ECANCELED, os_errno.EIO, EINTR, ENXIO, ENOSPC,
      EDQUOT, ENAMETOOLONG]) :
    ∃ c : zfs_errno, zfs_standard_error_fmt E errno hdl (E.errno_val e) text =
      (zfs_verror E hdl (E.ezfs_val c) text).bind fun x =>
        Outcome.ret (-1, x) := by
  simp only [List.mem_cons, List.mem_singleton, List.not_mem_nil, or_false] at he
  rcases he with h | h | h | h | h | h | h | h | h <;> subst h
  · refine ⟨EZFS_PERM, ?_⟩
    unfold zfs_standard_error_fmt
    rw [common_error_shape E hE hdl EPERM EZFS_PERM text rfl]
    cases zfs_verror E hdl (E.ezfs_val EZFS_PERM) text <;> simp [Outcome.bind]
  · refine ⟨EZFS_PERM, ?_⟩
    unfold zfs_standard_error_fmt
    rw [common_error_shape E hE hdl EACCES EZFS_PERM text rfl]
    cases zfs_verror E hdl (E.ezfs_val EZFS_PERM) text <;> simp [Outcome.bind]
  · refine ⟨EZFS_NODELEGATION, ?_⟩
    unfold zfs_standard_error_fmt
    rw [common_error_shape E hE hdl ECANCELED EZFS_NODELEGATION text rfl]
    cases zfs_verror E hdl (E.ezfs_val EZFS_NODELEGATION) text <;> simp [Outcome.bind]
  · refine ⟨ EZFS_IO, ?_⟩
    unfold zfs_standard_error_fmt
    rw [common_error_shape E hE hdl os_errno.EIO EZFS_IO text rfl]
    cases zfs_verror E hdl (E.ezfs_val EZFS_IO) text <;> simp [Outcome.bind]
  · refine ⟨EZFS_INTR, ?_⟩
    unfold zfs_standard_error_fmt
    rw [common_error_shape E hE hdl EINTR EZFS_INTR text rfl]
    cases zfs_verror E hdl (E.ezfs_val EZFS_INTR) text <;> simp [Outcome.bind]
  · refine ⟨ EZFS_IO, ?_⟩
    rw [standard_fmt_unshared E hE errno hdl ENXIO text rfl]
    simp only [zfs_standard_error_switch, hE.errno_inj.eq_iff, reduceCtorEq,
      if_true, if_false, or_self, or_false, false_or, true_or, or_true]
  · refine ⟨EZFS_NOSPC, ?_⟩
    rw [standard_fmt_unshared E hE errno hdl ENOSPC text rfl]
    simp only [zfs_standard_error_switch, hE.errno_inj.eq_iff, reduceCtorEq,
      if_true, if_false, or_self, or_false, false_or, true_or, or_true]
  · refine ⟨EZFS_NOSPC, ?_⟩
    rw [standard_fmt_unshared E hE errno hdl EDQUOT text rfl]
    simp only [zfs_standard_error_switch, hE.errno_inj.eq_iff, reduceCtorEq,
      if_true, if_false, or_self, or_false, false_or, true_or, or_true]
  · refine ⟨EZFS_NAMETOOLONG, ?_⟩
    rw [standard_fmt_unshared E hE errno hdl ENAMETOOLONG text rfl]
    simp only [zfs_standard_error_switch, hE.errno_inj.eq_iff, reduceCtorEq,
      if_true, if_false, or_self, or_false, false_or, true_or, or_true]

/-- For a code with no canned text the pool-class report is one call of
`zfs_verror` with a member of the enumeration, on the handle as it was. -/
theorem pool_plain_entry (E : Env) (hE : E.WellFormed)
    (hdl : libzfs_handle_t) (e : os_errno) (text : String)
    (he : e ∈ [EPERM, EACCES, ECANCELED, os_errno.EIO, EINTR, ENODEV,
      ENAMETOOLONG, ENOTSUP, EINVAL, ENOSPC, EDQUOT]) :
    ∃ c : zfs_errno, zpool_standard_error_fmt E hdl (E.errno_val e) text =
      (zfs_verror E hdl (E.ezfs_val c) text).bind fun x =>
        Outcome.ret (-1, x) := by
  simp only [List.mem_cons, List.mem_singleton, List.not_mem_nil, or_false] at he
  rcases he with h | h | h | h | h | h | h | h | h | h | h <;> subst h
  · refine ⟨EZFS_PERM, ?_⟩
    unfold zpool_standard_error_fmt
    rw [common_error_shape E hE hdl EPERM EZFS_PERM text rfl]
    cases zfs_verror E hdl (E.ezfs_val EZFS_PERM) text <;> simp [Outcome.bind]
  · refine ⟨EZFS_PERM, ?_⟩
    unfold zpool_standard_error_fmt
    rw [common_error_shape E hE hdl EACCES EZFS_PERM text rfl]
    cases zfs_verror E hdl (E.ezfs_val EZFS_PERM) text <;> simp [Outcome.bind]
  · refine ⟨EZFS_NODELEGATION, ?_⟩
    unfold zpool_standard_error_fmt
    rw [common_error_shape E hE hdl ECANCELED EZFS_NODELEGATION text rfl]
    cases zfs_verror E hdl (E.ezfs_val EZFS_NODELEGATION) text <;> simp [Outcome.bind]
  · refine ⟨ EZFS_IO, ?_⟩
    unfold zpool_standard_error_fmt
    rw [common_error_shape E hE hdl os_errno.EIO EZFS_IO text rfl]
    cases zfs_verror E hdl (E.ezfs_val EZFS_IO) text <;> simp [Outcome.bind]
  · refine ⟨EZFS_INTR, ?_⟩
    unfold zpool_standard_error_fmt
    rw [common_error_shape E hE hdl EINTR EZFS_INTR text rfl]
    cases zfs_verror E hdl (E.ezfs_val EZFS_INTR) text <;> simp [Outcome.bind]
  · refine ⟨EZFS_NODEVICE, ?_⟩
    rw [pool_fmt_unshared E hE hdl ENODEV text rfl]
    simp only [zpool_standard_error_switch, hE.errno_inj.eq_iff, reduceCtorEq,
      if_true, if_false, or_self, or_false, false_or, true_or, or_true]
  · refine ⟨EZFS_DEVOVERFLOW, ?_⟩
    rw [pool_fmt_unshared E hE hdl ENAMETOOLONG text rfl]
    simp only [zpool_standard_error_switch, hE.errno_inj.eq_iff, reduceCtorEq,
      if_true, if_false, or_self, or_false, false_or, true_or, or_true]
  · refine ⟨EZFS_POOL_NOTSUP, ?_⟩
    rw [pool_fmt_unshared E hE hdl ENOTSUP text rfl]
    simp only [zpool_standard_error_switch, hE.errno_inj.eq_iff, reduceCtorEq,
      if_true, if_false, or_self, or_false, false_or, true_or, or_true]
  · refine ⟨EZFS_POOL_INVALARG, ?_⟩
    rw [pool_fmt_unshared E hE hdl EINVAL text rfl]
    simp only [zpool_standard_error_switch, hE.errno_inj.eq_iff, reduceCtorEq,
      if_true, if_false, or_self, or_false, false_or, true_or, or_true]
  · refine ⟨EZFS_NOSPC, ?_⟩
    rw [pool_fmt_unshared E hE hdl ENOSPC text rfl]
    simp only [zpool_standard_error_switch, hE.errno_inj.eq_iff, reduceCtorEq,
      if_true, if_false, or_self, or_false, false_or, true_or, or_true]
  · refine ⟨EZFS_NOSPC, ?_⟩
    rw [pool_fmt_unshared E hE hdl EDQUOT text rfl]
    simp only [zpool_standard_error_switch, hE.errno_inj.eq_iff, reduceCtorEq,
      if_true, if_false, or_self, or_false, false_or, true_or, or_true]

/-- A report that is one `zfs_verror` call, made with echo disabled on a
handle with nothing staged: the description afterwards is the taxonomy text
of the code. -/
theorem plain_report_default (E : Env) (hE : E.WellFormed)
    (hdl : libzfs_handle_t) (hq : hdl.libzfs_printerr = false)
    (hf : hdl.libzfs_desc_active = 0) (text : String) (c : zfs_errno) :
    ∃ hdl1 : libzfs_handle_t,
      ((zfs_verror E hdl (E.ezfs_val c) text).bind fun x =>
        Outcome.ret ((-1 : Int), x)) = Outcome.ret (-1, hdl1) ∧
      libzfs_errno hdl1 = E.ezfs_val c ∧
      libzfs_error_description E hdl1 = Outcome.ret (ezfs_description c) := by
  refine ⟨zfs_verror_store E hdl (E.ezfs_val c) text, ?_, ?_, ?_⟩
  · rw [zfs_verror_quiet E _ _ text hq]; rfl
  · simp [libzfs_errno]
  · exact description_after_plain_store E hE hdl c text hf

/-- The dataset-class entries with a canned text, for any handle state with
echo disabled. -/
theorem standard_canned_entries (E : Env) (hE : E.WellFormed)
    (hsize : 40 ≤ E.sizeof_desc) (errno : Int) (hdl : libzfs_handle_t)
    (hq : hdl.libzfs_printerr = false) (text : String) :
    Reports E (zfs_standard_error_fmt E errno hdl (E.errno_val ENOENT) text)
      EZFS_NOENT (some "dataset does not exist") ∧
    Reports E (zfs_standard_error_fmt E errno hdl (E.errno_val EEXIST) text)
      EZFS_EXISTS (some "dataset already exists") ∧
    Reports E (zfs_standard_error_fmt E errno hdl (E.errno_val EBUSY) text)
      EZFS_BUSY (some "dataset is busy") ∧
    Reports E (zfs_standard_error_fmt E errno hdl (E.errno_val EROFS) text)
      EZFS_PERMRDONLY (some "snapshot permissions cannot be modified") := by
  have hlen : ∀ s : String, s.length < 40 → s.length < E.sizeof_desc :=
    fun s hs => lt_of_lt_of_le hs hsize
  refine ⟨?_, ?_, ?_, ?_⟩
  · rw [standard_fmt_unshared E hE errno hdl ENOENT text rfl]
    simp only [zfs_standard_error_switch, hE.errno_inj.eq_iff, reduceCtorEq,
      if_true, if_false, or_self, or_false, false_or]
    exact reports_canned E hdl EZFS_NOENT _ text hq (by decide)
      (hlen _ (by decide))
  · rw [standard_fmt_unshared E hE errno hdl EEXIST text rfl]
    simp only [zfs_standard_error_switch, hE.errno_inj.eq_iff, reduceCtorEq,
      if_true, if_false, or_self, or_false, false_or]
    exact reports_canned E hdl EZFS_EXISTS _ text hq (by decide)
      (hlen _ (by decide))
  · rw [standard_fmt_unshared E hE errno hdl EBUSY text rfl]
    simp only [zfs_standard_error_switch, hE.errno_inj.eq_iff, reduceCtorEq,
      if_true, if_false, or_self, or_false, false_or]
    exact reports_canned E hdl EZFS_BUSY _ text hq (by decide)
      (hlen _ (by decide))
  · rw [standard_fmt_unshared E hE errno hdl EROFS text rfl]
    simp only [zfs_standard_error_switch, hE.errno_inj.eq_iff, reduceCtorEq,
      if_true, if_false, or_self, or_false, false_or]
    exact reports_canned E hdl EZFS_PERMRDONLY _ text hq (by decide)
      (hlen _ (by decide))

/-- The pool-class entries with a canned text, for any handle state with echo
disabled. -/
theorem pool_canned_entries (E : Env) (hE : E.WellFormed)
    (hsize : 45 ≤ E.sizeof_desc) (hdl : libzfs_handle_t)
    (hq : hdl.libzfs_printerr = false) (text : String) :
    Reports E (zpool_standard_error_fmt E hdl (E.errno_val ENOENT) text)
      EZFS_NOENT (some "no such pool or dataset") ∧
    Reports E (zpool_standard_error_fmt E hdl (E.errno_val EEXIST) text)
      EZFS_EXISTS (some "pool already exists") ∧
    Reports E (zpool_standard_error_fmt E hdl (E.errno_val EBUSY) text)
      EZFS_EXISTS (some "pool is busy") ∧
    Reports E (zpool_standard_error_fmt E hdl (E.errno_val ENXIO) text)
      EZFS_BADDEV (some "one or more devices is currently unavailable") := by
  have hlen : ∀ s : String, s.length < 45 → s.length < E.sizeof_desc :=
    fun s hs => lt_of_lt_of_le hs hsize
  refine ⟨?_, ?_, ?_, ?_⟩
  · rw [pool_fmt_unshared E hE hdl ENOENT text rfl]
    simp only [zpool_standard_error_switch, hE.errno_inj.eq_iff, reduceCtorEq,
      if_true, if_false, or_self, or_false, false_or]
    exact reports_canned E hdl EZFS_NOENT _ text hq (by decide)
      (hlen _ (by decide))
  · rw [pool_fmt_unshared E hE hdl EEXIST text rfl]
    simp only [zpool_standard_error_switch, hE.errno_inj.eq_iff, reduceCtorEq,
      if_true, if_false, or_self, or_false, false_or]
    exact reports_canned E hdl EZFS_EXISTS _ text hq (by decide)
      (hlen _ (by decide))
  · rw [pool_fmt_unshared E hE hdl EBUSY text rfl]
    simp only [zpool_standard_error_switch, hE.errno_inj.eq_iff, reduceCtorEq,
      if_true, if_false, or_self, or_false, false_or]
    exact reports_canned E hdl EZFS_EXISTS _ text hq (by decide)
      (hlen _ (by decide))
  · rw [pool_fmt_unshared E hE hdl ENXIO text rfl]
    simp only [zpool_standard_error_switch, hE.errno_inj.eq_iff, reduceCtorEq,
      if_true, if_false, or_self, or_false, false_or]
    exact reports_canned E hdl EZFS_BADDEV _ text hq (by decide)
      (hlen _ (by decide))

/-- C20, counterexample. On a fresh handle of the Darwin build (echo off) the
caller stages a text of 1024 bytes and then reports ENAMETOOLONG, an entry
without canned text, through the dataset-class report: the call returns -1 and
the description is the first 1023 bytes of the staged text, not the text. -/
theorem long_staged_text_cut_across_report :
    ∃ hdl1 : libzfs_handle_t,
      zfs_standard_error_fmt darwin 63
        (zfs_error_aux darwin libzfs_init (String.mk (List.replicate 1024 'x')))
        (darwin.errno_val ENAMETOOLONG) "cannot create"
        = Outcome.ret (-1, hdl1) ∧
      libzfs_error_description darwin hdl1
        = Outcome.ret (String.mk (List.replicate 1023 'x')) ∧
      libzfs_error_description darwin hdl1
        ≠ Outcome.ret (String.mk (List.replicate 1024 'x')) := by
  have hv : vsnprintf libzfs_init.libzfs_desc darwin.sizeof_desc
      (String.mk (List.replicate 1024 'x'))
      = String.mk (List.replicate 1023 'x') :=
    vsnprintf_replicate "" 1024 1024 'x' (by decide)
  obtain ⟨c, hs⟩ := standard_plain_entry darwin darwin_wellFormed 63
    (zfs_error_aux darwin libzfs_init (String.mk (List.replicate 1024 'x')))
    ENAMETOOLONG "cannot create" (by decide)
  obtain ⟨hdl1, h1, _, h3⟩ := plain_report_keeps_stored darwin libzfs_init rfl
    (String.mk (List.replicate 1024 'x')) "cannot create" (darwin.ezfs_val c)
    (by rw [hv]; exact replicate_string_ne 1023 0 'x' (by decide))
  rw [hv] at h3
  refine ⟨hdl1, by rw [hs]; exact h1, h3, ?_⟩
  rw [h3]
  intro h
  exact replicate_string_ne 1023 1024 'x' (by decide) (Outcome.ret.inj h)

/-- C20, amended. Priority of the description sources across a report, echo
disabled, for both call classes. (a) For a code whose table entry has a canned
text the description after the report is the canned text, also when the caller
staged a text `t` with `zfs_error_aux` before. (b) For a code without canned
text (the shared codes and the plain table entries) a text `t` staged before
the report is the description afterwards when it is not empty and has fewer
bytes than the description field (`strlen (t) < sizeof (libzfs_desc)`); a text
of more bytes comes back cut to its first `sizeof (libzfs_desc) - 1` bytes.
(c) For such a code with nothing staged (the active flag clear) the description
is the taxonomy text of the code the report recorded. -/
theorem description_sources_priority (E : Env) (hE : E.WellFormed)
    (hsize : 45 ≤ E.sizeof_desc) (errno : Int) (hdl : libzfs_handle_t)
    (hq : hdl.libzfs_printerr = false) (t text : String) :
    (Reports E (zfs_standard_error_fmt E errno (zfs_error_aux E hdl t)
        (E.errno_val ENOENT) text) EZFS_NOENT (some "dataset does not exist") ∧
      Reports E (zfs_standard_error_fmt E errno (zfs_error_aux E hdl t)
        (E.errno_val EEXIST) text) EZFS_EXISTS (some "dataset already exists") ∧
      Reports E (zfs_standard_error_fmt E errno (zfs_error_aux E hdl t)
        (E.errno_val EBUSY) text) EZFS_BUSY (some "dataset is busy") ∧
      Reports E (zfs_standard_error_fmt E errno (zfs_error_aux E hdl t)
        (E.errno_val EROFS) text) EZFS_PERMRDONLY
        (some "snapshot permissions cannot be modified") ∧
      Reports E (zpool_standard_error_fmt E (zfs_error_aux E hdl t)
        (E.errno_val ENOENT) text) EZFS_NOENT (some "no such pool or dataset") ∧
      Reports E (zpool_standard_error_fmt E (zfs_error_aux E hdl t)
        (E.errno_val EEXIST) text) EZFS_EXISTS (some "pool already exists") ∧
      Reports E (zpool_standard_error_fmt E (zfs_error_aux E hdl t)
        (E.errno_val EBUSY) text) EZFS_EXISTS (some "pool is busy") ∧
      Reports E (zpool_standard_error_fmt E (zfs_error_aux E hdl t)
        (E.errno_val ENXIO) text) EZFS_BADDEV
        (some "one or more devices is currently unavailable")) ∧
    (t ≠ "" →
      (∀ e, e ∈ [EPERM, EACCES, ECANCELED, os_errno.EIO, EINTR, ENXIO, ENOSPC,
          EDQUOT, ENAMETOOLONG] →
        ∃ hdl1 : libzfs_handle_t,
          zfs_standard_error_fmt E errno (zfs_error_aux E hdl t)
            (E.errno_val e) text = Outcome.ret (-1, hdl1) ∧
          (strlen t < E.sizeof_desc →
            libzfs_error_description E hdl1 = Outcome.ret t) ∧
          (E.sizeof_desc ≤ strlen t →
            libzfs_error_description E hdl1
              = Outcome.ret (String.mk (t.data.take (E.sizeof_desc - 1))))) ∧
      (∀ e, e ∈ [EPERM, EACCES, ECANCELED, os_errno.EIO, EINTR, ENODEV,
          ENAMETOOLONG, ENOTSUP, EINVAL, ENOSPC, EDQUOT] →
        ∃ hdl1 : libzfs_handle_t,
          zpool_standard_error_fmt E (zfs_error_aux E hdl t)
            (E.errno_val e) text = Outcome.ret (-1, hdl1) ∧
          (strlen t < E.sizeof_desc →
            libzfs_error_description E hdl1 = Outcome.ret t) ∧
          (E.sizeof_desc ≤ strlen t →
            libzfs_error_description E hdl1
              = Outcome.ret (String.mk (t.data.take (E.sizeof_desc - 1)))))) ∧
    (hdl.libzfs_desc_active = 0 →
      (∀ e, e ∈ [EPERM, EACCES, ECANCELED, os_errno.EIO, EINTR, ENXIO, ENOSPC,
          EDQUOT, ENAMETOOLONG] →
        ∃ (hdl1 : libzfs_handle_t) (c : zfs_errno),
          zfs_standard_error_fmt E errno hdl (E.errno_val e) text
            = Outcome.ret (-1, hdl1) ∧
          libzfs_errno hdl1 = E.ezfs_val c ∧
          libzfs_error_description E hdl1
            = Outcome.ret (ezfs_description c)) ∧
      (∀ e, e ∈ [EPERM, EACCES, ECANCELED, os_errno.EIO, EINTR, ENODEV,
          ENAMETOOLONG, ENOTSUP, EINVAL, ENOSPC, EDQUOT] →
        ∃ (hdl1 : libzfs_handle_t) (c : zfs_errno),
          zpool_standard_error_fmt E hdl (E.errno_val e) text
            = Outcome.ret (-1, hdl1) ∧
          libzfs_errno hdl1 = E.ezfs_val c ∧
          libzfs_error_description E hdl1
            = Outcome.ret (ezfs_description c))) := by
  have hq1 : (zfs_error_aux E hdl t).libzfs_printerr = false := by simpa using hq
  have hd := standard_canned_entries E hE (by omega) errno
    (zfs_error_aux E hdl t) hq1 text
  have hp := pool_canned_entries E hE hsize (zfs_error_aux E hdl t) hq1 text
  have h0 : E.sizeof_desc ≠ 0 := by omega
  have key : t ≠ "" → ∀ code : Int, ∃ hdl1 : libzfs_handle_t,
      ((zfs_verror E (zfs_error_aux E hdl t) code text).bind fun x =>
        Outcome.ret ((-1 : Int), x)) = Outcome.ret (-1, hdl1) ∧
      (strlen t < E.sizeof_desc →
        libzfs_error_description E hdl1 = Outcome.ret t) ∧
      (E.sizeof_desc ≤ strlen t →
        libzfs_error_description E hdl1
          = Outcome.ret (String.mk (t.data.take (E.sizeof_desc - 1)))) := by
    intro hne code
    obtain ⟨hdl1, h1, _, h3⟩ := plain_report_keeps_stored E hdl hq t text code
      (vsnprintf_ne_empty _ _ _ hne (by omega))
    refine ⟨hdl1, h1, fun hfit => ?_, fun _ => ?_⟩
    · rw [h3, vsnprintf_fits _ _ _ hfit]
    · rw [h3, vsnprintf_cut _ _ _ h0]
  refine ⟨⟨hd.1, hd.2.1, hd.2.2.1, hd.2.2.2, hp.1, hp.2.1, hp.2.2.1, hp.2.2.2⟩,
    fun hne => ⟨?_, ?_⟩, fun hf => ⟨?_, ?_⟩⟩
  · intro e he
    obtain ⟨c, hs⟩ := standard_plain_entry E hE errno (zfs_error_aux E hdl t) e
      text he
    obtain ⟨hdl1, h1, h2, h3⟩ := key hne (E.ezfs_val c)
    exact ⟨hdl1, by rw [hs]; exact h1, h2, h3⟩
  · intro e he
    obtain ⟨c, hs⟩ := pool_plain_entry E hE (zfs_error_aux E hdl t) e text he
    obtain ⟨hdl1, h1, h2, h3⟩ := key hne (E.ezfs_val c)
    exact ⟨hdl1, by rw [hs]; exact h1, h2, h3⟩
  · intro e he
    obtain ⟨c, hs⟩ := standard_plain_entry E hE errno hdl e text he
    obtain ⟨hdl1, h1, h2, h3⟩ := plain_report_default E hE hdl hq hf text c
    exact ⟨hdl1, c, by rw [hs]; exact h1, h2, h3⟩
  · intro e he
    obtain ⟨c, hs⟩ := pool_plain_entry E hE hdl e text he
    obtain ⟨hdl1, h1, h2, h3⟩ := plain_report_default E hE hdl hq hf text c
    exact ⟨hdl1, c, by rw [hs]; exact h1, h2, h3⟩

/-- C20 amended, at a concrete input: a fresh handle of the Darwin build, the
caller staging "name is too long for a snapshot". -/
theorem description_sources_priority_witness :
    darwin.WellFormed ∧ libzfs_init.libzfs_printerr = false ∧
    Reports darwin (zpool_standard_error_fmt darwin
      (zfs_error_aux darwin libzfs_init "name is too long for a snapshot")
      (darwin.errno_val EBUSY) "cannot create") EZFS_EXISTS
      (some "pool is busy") ∧
    (∃ hdl1 : libzfs_handle_t,
      zfs_standard_error_fmt darwin 63
        (zfs_error_aux darwin libzfs_init "name is too long for a snapshot")
        (darwin.errno_val ENAMETOOLONG) "cannot create"
        = Outcome.ret (-1, hdl1) ∧
      libzfs_error_description darwin hdl1
        = Outcome.ret "name is too long for a snapshot") ∧
    (∃ (hdl1 : libzfs_handle_t) (c : zfs_errno),
      zfs_standard_error_fmt darwin 63 libzfs_init
        (darwin.errno_val ENAMETOOLONG) "cannot create"
        = Outcome.ret (-1, hdl1) ∧
      libzfs_errno hdl1 = darwin.ezfs_val c ∧
      libzfs_error_description darwin hdl1
        = Outcome.ret (ezfs_description c)) :=
  have h := description_sources_priority darwin darwin_wellFormed (by decide)
    63 libzfs_init rfl "name is too long for a snapshot" "cannot create"
  ⟨darwin_wellFormed, rfl, h.1.2.2.2.2.2.2.1,
    ((h.2.1 (by decide)).1 ENAMETOOLONG (by decide)).elim fun hdl1 h1 =>
      ⟨hdl1, h1.1, h1.2.1 (by decide)⟩,
    (h.2.2 rfl).1 ENAMETOOLONG (by decide)⟩

/-! ## The assertion of the description switch -/

theorem bind_verror_code (E : Env) (hdl hdl1 : libzfs_handle_t) (c : zfs_errno)
    (text : String) (r : Int)
    (h : ((zfs_verror E hdl (E.ezfs_val c) text).bind fun x =>
      Outcome.ret (-1, x)) = Outcome.ret (r, hdl1)) :
    ∃ c1 : zfs_errno, hdl1.libzfs_error = E.ezfs_val c1 :=
  ⟨c, by rw [(bind_verror_ret E _ _ _ _ _ h).2]; exact store_error _ _ _ _⟩

theorem common_error_code (E : Env) (hdl hdl1 : libzfs_handle_t) (error : Int)
    (text : String) (r : Int)
    (h : zfs_common_error E hdl error text = Outcome.ret (r, hdl1)) :
    (r = 0 ∧ hdl1 = hdl) ∨
    (r = -1 ∧ ∃ c : zfs_errno, hdl1.libzfs_error = E.ezfs_val c) := by
  unfold zfs_common_error at h
  split_ifs at h
  · exact Or.inr ⟨(bind_verror_ret E _ _ _ _ _ h).1, bind_verror_code E _ _ _ _ _ h⟩
  · exact Or.inr ⟨(bind_verror_ret E _ _ _ _ _ h).1, bind_verror_code E _ _ _ _ _ h⟩
  · exact Or.inr ⟨(bind_verror_ret E _ _ _ _ _ h).1, bind_verror_code E _ _ _ _ _ h⟩
  · exact Or.inr ⟨(bind_verror_ret E _ _ _ _ _ h).1, bind_verror_code E _ _ _ _ _ h⟩
  · simp only [Outcome.ret.injEq, Prod.mk.injEq] at h
    exact Or.inl ⟨h.1.symm, h.2.symm⟩

theorem standard_switch_code (E : Env) (errno : Int)
    (hdl hdl1 : libzfs_handle_t) (error : Int) (text : String) (r : Int)
    (h : zfs_standard_error_switch E errno hdl error text
      = Outcome.ret (r, hdl1)) :
    ∃ c : zfs_errno, hdl1.libzfs_error = E.ezfs_val c := by
  unfold zfs_standard_error_switch at h
  split_ifs at h <;> exact bind_verror_code E _ _ _ _ _ h

theorem pool_switch_code (E : Env) (hdl hdl1 : libzfs_handle_t) (error : Int)
    (text : String) (r : Int)
    (h : zpool_standard_error_switch E hdl error text = Outcome.ret (r, hdl1)) :
    ∃ c : zfs_errno, hdl1.libzfs_error = E.ezfs_val c := by
  unfold zpool_standard_error_switch at h
  split_ifs at h <;> exact bind_verror_code E _ _ _ _ _ h

theorem standard_fmt_code (E : Env) (errno : Int) (hdl hdl1 : libzfs_handle_t)
    (error : Int) (text : String) (r : Int)
    (h : zfs_standard_error_fmt E errno hdl error text = Outcome.ret (r, hdl1)) :
    ∃ c : zfs_errno, hdl1.libzfs_error = E.ezfs_val c := by
  unfold zfs_standard_error_fmt at h
  cases hc : zfs_common_error E hdl error text with
  | ret a =>
    obtain ⟨r0, h0⟩ := a
    rw [hc] at h
    simp only [Outcome.bind] at h
    rcases common_error_code E hdl h0 error text r0 hc with ⟨hr, hh⟩ | ⟨hr, hcode⟩
    · subst hr; subst hh
      simp only [ne_eq, not_true_eq_false, if_false] at h
      exact standard_switch_code E errno _ _ error text r h
    · subst hr
      simp only [ne_eq, neg_eq_zero, one_ne_zero, not_false_eq_true, if_true,
        Outcome.ret.injEq, Prod.mk.injEq] at h
      rw [← h.2]; exact hcode
  | abort => rw [hc] at h; cases h
  | exit s => rw [hc] at h; cases h

theorem pool_fmt_code (E : Env) (hdl hdl1 : libzfs_handle_t)
    (error : Int) (text : String) (r : Int)
    (h : zpool_standard_error_fmt E hdl error text = Outcome.ret (r, hdl1)) :
    ∃ c : zfs_errno, hdl1.libzfs_error = E.ezfs_val c := by
  unfold zpool_standard_error_fmt at h
  cases hc : zfs_common_error E hdl error text with
  | ret a =>
    obtain ⟨r0, h0⟩ := a
    rw [hc] at h
    simp only [Outcome.bind] at h
    rcases common_error_code E hdl h0 error text r0 hc with ⟨hr, hh⟩ | ⟨hr, hcode⟩
    · subst hr; subst hh
      simp only [ne_eq, not_true_eq_false, if_false] at h
      exact pool_switch_code E _ _ error text r h
    · subst hr
      simp only [ne_eq, neg_eq_zero, one_ne_zero, not_false_eq_true, if_true,
        Outcome.ret.injEq, Prod.mk.injEq] at h
      rw [← h.2]; exact hcode
  | abort => rw [hc] at h; cases h
  | exit s => rw [hc] at h; cases h

/-- A translating call keeps the recorded code 0 or a member of the
enumeration. -/
theorem run_translates_code (E : Env) (c : ErrCall) (hdl hdl1 : libzfs_handle_t)
    (hc : c.translates E)
    (hinv : hdl.libzfs_error = 0 ∨ ∃ k : zfs_errno, hdl.libzfs_error = E.ezfs_val k)
    (h : ErrCall.run E c hdl = Outcome.ret hdl1) :
    hdl1.libzfs_error = 0 ∨ ∃ k : zfs_errno, hdl1.libzfs_error = E.ezfs_val k := by
  cases c with
  | aux t =>
    simp only [ErrCall.run, Outcome.ret.injEq] at h
    rw [← h]; exact hinv
  | err error msg =>
    obtain ⟨he, _⟩ := hc
    simp only [ErrCall.run] at h
    cases hz : zfs_error E hdl error msg with
    | ret a =>
      rw [hz] at h; simp only [Outcome.bind, Outcome.ret.injEq] at h
      refine Or.inr ⟨EZFS_NOMEM, ?_⟩
      rw [← h, (zfs_error_ret E hdl a.2 error msg a.1 hz).2, store_error, he]
    | abort => rw [hz] at h; cases h
    | exit s => rw [hz] at h; cases h
  | standard errno error msg =>
    simp only [ErrCall.run, zfs_standard_error] at h
    cases hz : zfs_standard_error_fmt E errno hdl error msg with
    | ret a =>
      rw [hz] at h; simp only [Outcome.bind, Outcome.ret.injEq] at h
      rw [← h]; exact Or.inr (standard_fmt_code E errno hdl a.2 error msg a.1 hz)
    | abort => rw [hz] at h; cases h
    | exit s => rw [hz] at h; cases h
  | pool error msg =>
    simp only [ErrCall.run, zpool_standard_error] at h
    cases hz : zpool_standard_error_fmt E hdl error msg with
    | ret a =>
      rw [hz] at h; simp only [Outcome.bind, Outcome.ret.injEq] at h
      rw [← h]; exact Or.inr (pool_fmt_code E hdl a.2 error msg a.1 hz)
    | abort => rw [hz] at h; cases h
    | exit s => rw [hz] at h; cases h

theorem run_calls_translates_code (E : Env) (calls : List ErrCall)
    (hdl hdl1 : libzfs_handle_t) (hc : ∀ c, c ∈ calls → c.translates E)
    (hinv : hdl.libzfs_error = 0 ∨ ∃ k : zfs_errno, hdl.libzfs_error = E.ezfs_val k)
    (h : run_calls E calls hdl = Outcome.ret hdl1) :
    hdl1.libzfs_error = 0 ∨ ∃ k : zfs_errno, hdl1.libzfs_error = E.ezfs_val k := by
  induction calls generalizing hdl with
  | nil =>
    simp only [run_calls, Outcome.ret.injEq] at h
    rw [← h]; exact hinv
  | cons x xs ih =>
    simp only [run_calls] at h
    cases hx : ErrCall.run E x hdl with
    | ret mid =>
      rw [hx] at h
      simp only [Outcome.bind] at h
      exact ih mid (fun c hcm => hc c (List.mem_cons_of_mem x hcm))
        (run_translates_code E x hdl mid (hc x (List.mem_cons_self x xs)) hinv hx)
        h
    | abort => rw [hx] at h; cases h
    | exit s => rw [hx] at h; cases h

/-- The assertion of the default case holds on a handle whose code is 0 or a
member of the enumeration: the description is returned, and the default case
is entered with the code 0 only. -/
theorem description_assert_holds (E : Env) (hE : E.WellFormed)
    (hdl : libzfs_handle_t)
    (hinv : hdl.libzfs_error = 0 ∨ ∃ k : zfs_errno, hdl.libzfs_error = E.ezfs_val k) :
    (∃ t, libzfs_error_description E hdl = Outcome.ret t) ∧
    (ezfs_case E hdl.libzfs_error = none → hdl.libzfs_error = 0) := by
  rcases hinv with h0 | ⟨k, hk⟩
  · refine ⟨?_, fun _ => h0⟩
    by_cases hd : hdl.libzfs_desc = ""
    · cases hcase : ezfs_case E hdl.libzfs_error with
      | none =>
        exact ⟨"no error", by
          rw [h0] at hcase
          simp [libzfs_error_description, hd, h0, hcase]⟩
      | some c =>
        exact ⟨ezfs_description c, by
          rw [h0] at hcase
          simp [libzfs_error_description, hd, h0, hcase]⟩
    · exact ⟨_, description_aux E hdl hd⟩
  · refine ⟨description_returns_of_ezfs E hE hdl k hk, fun hn => ?_⟩
    rw [hk, ezfs_case_val E hE k] at hn
    cases hn

/-- C21. Every code the errno translators and `no_memory` record is a member
of the enumeration, each of which has a case in the description switch. So on
every handle reached from the handle of `libzfs_init` (echo off or on)
through `zfs_error_aux`, the two standard reports and `no_memory`,
`libzfs_error_description` returns a text, its assertion does not fail, and
no case is selected (the default branch) only if the code is 0. The same holds
for the descriptions `zfs_verror` itself prints for such a code. -/
theorem description_assertion_valid (E : Env) (hE : E.WellFormed) :
    (∀ (printerr : Bool) (calls : List ErrCall) (hdl : libzfs_handle_t),
      (∀ c, c ∈ calls → c.translates E) →
      run_calls E calls (libzfs_print_on_error libzfs_init printerr)
        = Outcome.ret hdl →
      (∃ t, libzfs_error_description E hdl = Outcome.ret t) ∧
      (ezfs_case E hdl.libzfs_error = none → hdl.libzfs_error = 0)) ∧
    (∀ (hdl hdl1 : libzfs_handle_t) (errno error r : Int) (text : String),
      (zfs_common_error E hdl error text = Outcome.ret (r, hdl1) → r ≠ 0 →
        ∃ c, hdl1.libzfs_error = E.ezfs_val c) ∧
      (zfs_standard_error_fmt E errno hdl error text = Outcome.ret (r, hdl1) →
        ∃ c, hdl1.libzfs_error = E.ezfs_val c) ∧
      (zpool_standard_error_fmt E hdl error text = Outcome.ret (r, hdl1) →
        ∃ c, hdl1.libzfs_error = E.ezfs_val c) ∧
      (no_memory E hdl = Outcome.ret (r, hdl1) →
        hdl1.libzfs_error = E.ezfs_val EZFS_NOMEM)) ∧
    (∀ c : zfs_errno, c ∈ ezfs_cases ∧ ezfs_case E (E.ezfs_val c) = some c) ∧
    (∀ (hdl : libzfs_handle_t) (c : zfs_errno) (text : String),
      ∃ t, libzfs_error_description E
        (zfs_verror_store E hdl (E.ezfs_val c) text) = Outcome.ret t) := by
  refine ⟨?_, ?_, ?_, ?_⟩
  · intro printerr calls hdl hc h
    exact description_assert_holds E hE hdl
      (run_calls_translates_code E calls _ hdl hc (Or.inl rfl) h)
  · intro hdl hdl1 errno error r text
    refine ⟨fun h hr => ?_, standard_fmt_code E errno hdl hdl1 error text r,
      pool_fmt_code E hdl hdl1 error text r, fun h => ?_⟩
    · rcases common_error_code E hdl hdl1 error text r h with ⟨h0, _⟩ | ⟨_, hcode⟩
      · exact absurd h0 hr
      · exact hcode
    · rw [(zfs_error_ret E hdl hdl1 _ _ r h).2, store_error]
  · intro c
    exact ⟨by cases c <;> decide, ezfs_case_val E hE c⟩
  · intro hdl c text
    exact description_returns_of_ezfs E hE _ c (by simp)

/-- C21 at a concrete input: after an unlisted code reported through the pool
class, an empty auxiliary text and a failed allocation, on the Darwin build. -/
theorem description_assertion_valid_witness :
    darwin.WellFormed ∧
    run_calls darwin
      [ErrCall.pool (darwin.errno_val EROFS) "cannot create",
       ErrCall.aux "", ErrCall.err (darwin.ezfs_val EZFS_NOMEM) "internal error"]
      (libzfs_print_on_error libzfs_init false)
      = Outcome.ret (zfs_verror_store darwin (zfs_error_aux darwin
          (zfs_verror_store darwin (zfs_error_aux darwin libzfs_init
            (darwin.strerror 30)) (darwin.ezfs_val EZFS_UNKNOWN)
            "cannot create") "") (darwin.ezfs_val EZFS_NOMEM)
          "internal error") ∧
    ∃ t, libzfs_error_description darwin
      (zfs_verror_store darwin (zfs_error_aux darwin
          (zfs_verror_store darwin (zfs_error_aux darwin libzfs_init
            (darwin.strerror 30)) (darwin.ezfs_val EZFS_UNKNOWN)
            "cannot create") "") (darwin.ezfs_val EZFS_NOMEM)
          "internal error") = Outcome.ret t :=
  ⟨darwin_wellFormed, by decide,
    ((description_assertion_valid darwin darwin_wellFormed).1 false
      [ErrCall.pool (darwin.errno_val EROFS) "cannot create",
       ErrCall.aux "", ErrCall.err (darwin.ezfs_val EZFS_NOMEM) "internal error"]
      _ (by
        intro c hc
        simp only [List.mem_cons, List.mem_singleton, List.not_mem_nil,
          or_false] at hc
        rcases hc with h | h | h <;> subst h <;>
          simp [ErrCall.translates]) (by decide)).1⟩

/-! ## Number formatting -/

theorem nicenum_scale_lt (n index : Nat) (h : n < 1024) :
    nicenum_scale n index = (n, index) := by
  rw [nicenum_scale]; simp [Nat.not_le.mpr h]

theorem nicenum_scale_ge (n index : Nat) (h : 1024 ≤ n) :
    nicenum_scale n index = nicenum_scale (n / 1024) (index + 1) := by
  rw [nicenum_scale]; simp [h]

/-- What the scaling loop computes, from any starting point. -/
theorem nicenum_scale_spec (n index : Nat) :
    ∃ j : Nat, nicenum_scale n index = (n / 1024 ^ j, index + j) ∧
      n / 1024 ^ j < 1024 ∧ (0 < j → 1024 ^ j ≤ n) := by
  induction n using Nat.strong_induction_on generalizing index with
  | _ n ih =>
    by_cases h : 1024 ≤ n
    · obtain ⟨j, hj, hlt, hge⟩ := ih (n / 1024) (by omega) (index + 1)
      refine ⟨j + 1, ?_, ?_, fun _ => ?_⟩
      · rw [nicenum_scale_ge n index h, hj, pow_succ', Nat.div_div_eq_div_mul]
        congr 1; omega
      · rw [pow_succ', ← Nat.div_div_eq_div_mul]; exact hlt
      · by_cases hj0 : 0 < j
        · have h1 := hge hj0
          have h2 : 1024 * (n / 1024) ≤ n := Nat.mul_div_le n 1024
          calc 1024 ^ (j + 1) = 1024 * 1024 ^ j := pow_succ' 1024 j
            _ ≤ 1024 * (n / 1024) := Nat.mul_le_mul_left 1024 h1
            _ ≤ n := h2
        · have : j = 0 := by omega
          subst this; simpa using h
    · refine ⟨0, ?_, ?_, fun h0 => absurd h0 (lt_irrefl 0)⟩
      · rw [nicenum_scale_lt n index (by omega)]; simp
      · simpa using Nat.not_le.mp h


theorem unit_letter_some (index : Nat) (h : index ≤ 6) :
    ∃ u, " KMGTPE".data[index]? = some u := by
  interval_cases index <;> exact ⟨_, rfl⟩

theorem shift_no_wrap (index : Nat) (h : index ≤ 6) :
    (1 <<< (10 * index)) % 2 ^ 64 = 2 ^ (10 * index) := by
  rw [Nat.one_shiftLeft]
  apply Nat.mod_eq_of_lt
  apply Nat.pow_lt_pow_right (by norm_num)
  omega

/-- C22. For every 64-bit `num` the scaling loop of `zfs_nicenum` ends (the
model of the loop is a total function) with `index ≤ 6` and the quotient
`n = num / 1024 ^ index`, `n < 1024`, and `n ≥ 1` when `index > 0`. So the
lookup `" KMGTPE"[index]` stays within the seven characters, the shift count
`10 * index` is below 64 and `1ULL << 10 * index` is `2 ^ (10 * index)`
without wrap-around, and `zfs_nicenum` produces an output. -/
theorem nicenum_scaling_bounds (num : Nat) (h64 : num < 2 ^ 64) :
    (nicenum_scale num 0).2 ≤ 6 ∧
    (nicenum_scale num 0).1 = num / 1024 ^ (nicenum_scale num 0).2 ∧
    (nicenum_scale num 0).1 < 1024 ∧
    (0 < (nicenum_scale num 0).2 → 1 ≤ (nicenum_scale num 0).1) ∧
    (nicenum_scale num 0).2 < " KMGTPE".length ∧
    (∃ u, " KMGTPE".data[(nicenum_scale num 0).2]? = some u) ∧
    10 * (nicenum_scale num 0).2 < 64 ∧
    (1 <<< (10 * (nicenum_scale num 0).2)) % 2 ^ 64
      = 2 ^ (10 * (nicenum_scale num 0).2) ∧
    (∀ (fmt_float : Nat → Nat → Nat → Char → String) (buf : String)
        (buflen : Nat), ∃ out, zfs_nicenum fmt_float num buf buflen = some out) := by
  obtain ⟨j, hj, hlt, hge⟩ := nicenum_scale_spec num 0
  have hj6 : j ≤ 6 := by
    by_contra hcon
    have h7 : 7 ≤ j := by omega
    have h1 : 1024 ^ 7 ≤ 1024 ^ j := Nat.pow_le_pow_right (by norm_num) h7
    have h2 := hge (by omega)
    have h3 : (2 : Nat) ^ 64 < 1024 ^ 7 := by norm_num
    omega
  have h2 : (nicenum_scale num 0).2 = j := by rw [hj]; simp
  have h1 : (nicenum_scale num 0).1 = num / 1024 ^ j := by rw [hj]
  rw [h2, h1]
  refine ⟨hj6, rfl, hlt, fun hpos => ?_, ?_, unit_letter_some j hj6, by omega,
    shift_no_wrap j hj6, ?_⟩
  · exact Nat.div_pos (hge hpos) (by positivity)
  · have : " KMGTPE".length = 7 := by decide
    omega
  · intro fmt_float buf buflen
    obtain ⟨u, hu⟩ := unit_letter_some j hj6
    unfold zfs_nicenum
    simp only [h2, hu]
    split_ifs <;> exact ⟨_, rfl⟩

/-- C22 at a concrete input: the largest 64-bit number scales to 15 with
index 6. -/
theorem nicenum_scaling_bounds_witness :
    18446744073709551615 < 2 ^ 64 ∧
    (nicenum_scale 18446744073709551615 0).2 ≤ 6 ∧
    (nicenum_scale 18446744073709551615 0).1 < 1024 :=
  have h := nicenum_scaling_bounds 18446744073709551615 (by norm_num)
  ⟨by norm_num, h.1, h.2.2.1⟩

theorem nicenum_scale_multiple (q k index : Nat) (hq1 : 1 ≤ q)
    (hq2 : q < 1024) :
    nicenum_scale (q * 1024 ^ k) index = (q, index + k) := by
  induction k generalizing index with
  | zero => simpa using nicenum_scale_lt q index hq2
  | succ k ih =>
    have hge : 1024 ≤ q * 1024 ^ (k + 1) := by
      have h1 : 1 ≤ 1024 ^ k := Nat.one_le_pow _ _ (by norm_num)
      calc 1024 = 1 * (1 * 1024) := by norm_num
        _ ≤ q * (1024 ^ k * 1024) :=
          Nat.mul_le_mul hq1 (Nat.mul_le_mul h1 (le_refl 1024))
        _ = q * 1024 ^ (k + 1) := by rw [pow_succ]
    have hdiv : q * 1024 ^ (k + 1) / 1024 = q * 1024 ^ k := by
      rw [pow_succ, ← Nat.mul_assoc]
      exact Nat.mul_div_cancel _ (by norm_num)
    rw [nicenum_scale_ge _ _ hge, hdiv, ih (index + 1)]
    congr 1; omega

theorem multiple_mask_zero (q k : Nat) (hk : k ≤ 6) :
    (q * 1024 ^ k) &&& ((1 <<< (10 * k)) % 2 ^ 64 - 1) = 0 := by
  rw [shift_no_wrap k hk, Nat.and_pow_two_sub_one_eq_mod]
  have h : (1024 : Nat) ^ k = 2 ^ (10 * k) := by
    rw [pow_mul]; norm_num
  rw [h]
  exact Nat.mul_mod_left _ _

/-- C23. `zfs_nicenum` prints an even multiple of the base without decimal
precision: for `num = q * 1024 ^ k` with `1 ≤ q < 1024`, `k ≤ 6` and a buffer
that holds the digits, the letter and the terminator, the output is the
decimal digits of `q`, followed for `k > 0` by the `k`-th of the letters
K, M, G, T, P, E. Every `num < 1024` (0 included) prints as its own decimal
digits. -/
theorem nicenum_even_multiple (fmt_float : Nat → Nat → Nat → Char → String)
    (buf : String) (buflen : Nat) :
    (∀ q k : Nat, 1 ≤ q → q < 1024 → k ≤ 6 →
      (Nat.repr q).length + 2 ≤ buflen →
      zfs_nicenum fmt_float (q * 1024 ^ k) buf buflen =
        some (if k = 0 then Nat.repr q
          else Nat.repr q ++ String.singleton ("KMGTPE".data.getD (k - 1) ' '))) ∧
    (∀ num : Nat, num < 1024 → (Nat.repr num).length + 1 ≤ buflen →
      zfs_nicenum fmt_float num buf buflen = some (Nat.repr num)) := by
  constructor
  · intro q k hq1 hq2 hk hbuf
    have hs := nicenum_scale_multiple q k 0 hq1 hq2
    simp only [Nat.zero_add] at hs
    obtain ⟨u, hu⟩ := unit_letter_some k hk
    unfold zfs_nicenum
    simp only [hs, hu]
    by_cases hk0 : k = 0
    · simp only [hk0, if_true]
      rw [vsnprintf_fits _ _ _ (by omega)]
    · have hu2 : u = "KMGTPE".data.getD (k - 1) ' ' := by
        interval_cases k
        · exact absurd rfl hk0
        all_goals exact Option.some.inj (hu.symm.trans rfl)
      simp only [hk0, if_false, multiple_mask_zero q k hk, if_true]
      rw [vsnprintf_fits _ _ _ (by
        simp only [String.length_append, String.length_singleton]; omega), hu2]
  · intro num hnum hbuf
    have hs := nicenum_scale_lt num 0 hnum
    unfold zfs_nicenum
    simp only [hs]
    have h0 : " KMGTPE".data[0]? = some ' ' := rfl
    simp only [h0, if_true]
    rw [vsnprintf_fits _ _ _ (by omega)]

/-- C23 at concrete inputs: 1024 prints as "1K", 5 * 1024 ^ 3 as "5G", 1023
as "1023" and 0 as "0", in a buffer of 32 bytes. -/
theorem nicenum_even_multiple_witness :
    zfs_nicenum (fun _ _ _ _ => "") 1024 "" 32 = some "1K" ∧
    zfs_nicenum (fun _ _ _ _ => "") (5 * 1024 ^ 3) "" 32 = some "5G" ∧
    zfs_nicenum (fun _ _ _ _ => "") 1023 "" 32 = some "1023" ∧
    zfs_nicenum (fun _ _ _ _ => "") 0 "" 32 = some "0" :=
  have h := nicenum_even_multiple (fun _ _ _ _ => "") "" 32
  ⟨h.1 1 1 (by decide) (by decide) (by decide) (by decide),
   h.1 5 3 (by decide) (by decide) (by decide) (by decide),
   h.2 1023 (by decide) (by decide),
   h.2 0 (by decide) (by decide)⟩

/-! ## Path resolution -/

theorem mount_walk_stays (mounts : List statfs) (st_dev : Int)
    (sfsp nitems : Nat) : mount_walk mounts st_dev sfsp nitems = sfsp := by
  induction nitems with
  | zero => rfl
  | succ n ih => simp only [mount_walk, ih, ite_self]

/-- C24, the code at the failing input. The mount table is the HFS root
(device 1) followed by the ZFS file system mounted on /Volumes/tank (device
2). For the path /Volumes/tank/home, whose device number is 2, the walk ends
where it started, on the first entry, and the call reports "not a ZFS
filesystem" and returns NULL; the entry that matches is the second one, of
type ZFS. With the two entries in the other order, a path on the HFS root
(device 1) opens the dataset of the ZFS entry. A name that begins with neither
'/' nor "./" is opened directly with the requested type. -/
theorem mount_walk_reads_first_entry_only :
    mount_walk [mnt_root, mnt_tank] 2 0 2 = 0 ∧
    zfs_path_to_zhandle darwin (path_env [mnt_root, mnt_tank] 2) libzfs_init
      "/Volumes/tank/home" 1
      = PathResult.null (some "'/Volumes/tank/home': not a ZFS filesystem\n") ∧
    zfs_path_to_zhandle darwin (path_env [mnt_tank, mnt_root] 1) libzfs_init
      "/etc/hosts" 1
      = PathResult.opened ("/Volumes/tank", 1) ∧
    zfs_path_to_zhandle darwin (path_env [mnt_root, mnt_tank] 2) libzfs_init
      "tank/home" 4
      = PathResult.opened ("tank/home", 4) := by
  refine ⟨by decide, by decide, by decide, by decide⟩

/-- For a path that begins with '/' or "./" and stats successfully, with a
non-empty mount table, the result of `zfs_path_to_zhandle` is decided by the
first entry of the table alone, whatever device number `stat` reported and
whatever entries follow. -/
theorem path_resolution_uses_first_entry {α : Type} (E : Env) (P : PathEnv α)
    (hdl : libzfs_handle_t) (path : String) (argtype st_dev : Int)
    (e : statfs) (rest : List statfs)
    (hpath : path.data.head? = some '/' ∨ path.data.take 2 = ['.', '/'])
    (hstat : P.stat path = Except.ok st_dev)
    (hm : P.getmntinfo = e :: rest) :
    zfs_path_to_zhandle E P hdl path argtype =
      if e.f_fstypename ≠ P.MNTTYPE_ZFS then
        PathResult.null (some ("'" ++ path ++ "': not a ZFS filesystem\n"))
      else
        PathResult.opened (P.zfs_open hdl e.f_mntonname P.ZFS_TYPE_FILESYSTEM) := by
  have hcond : ¬ (path.data.head? ≠ some '/' ∧ path.data.take 2 ≠ ['.', '/']) := by
    rintro ⟨h1, h2⟩
    rcases hpath with h | h
    · exact h1 h
    · exact h2 h
  unfold zfs_path_to_zhandle
  simp only [hcond, if_false, hstat, hm, mount_walk_stays, List.length_cons,
    Nat.succ_ne_zero, List.getElem?_cons_zero]

/-- The first-entry rule at a concrete input: the matching ZFS entry is the
third of the table, and the HFS root decides. -/
theorem path_resolution_uses_first_entry_witness :
    zfs_path_to_zhandle darwin (path_env [mnt_root, mnt_devfs, mnt_tank] 2)
      libzfs_init "./home" 1
      = PathResult.null (some "'./home': not a ZFS filesystem\n") :=
  (path_resolution_uses_first_entry darwin
    (path_env [mnt_root, mnt_devfs, mnt_tank] 2) libzfs_init "./home" 1 2
    mnt_root [mnt_devfs, mnt_tank] (Or.inr rfl) rfl rfl).trans (by decide)

end Libzfs
